import Mathlib

/-!
Verification of the dalvik bytecode decoder and basic-block lifter.

The development shallowly embeds the two source modules:
  * `decode.rs` — `decode_one`, the format primitives in `mod d`, the
    `Instruction::len` table;
  * `blocks.rs` — `decode_bb` and `basic_blocks`, plus `lib.rs`'s
    `Instruction::control_flow`.

Machine integers are modelled as `Nat` (unsigned) and `Int` (signed):
a `u16` code unit is a `Nat` taken modulo 2^16 where the Rust type forces
the width, a Rust `as u8` / `as u16` cast is `% 256` / `% 65536`,
`x >> k` on unsigned values is `x / 2^k`, `x & 0xf` is `x % 16`, and
`a << 16 | b` with disjoint bit ranges is `a * 65536 + b`.  Rust panics
(`todo!`, `unreachable!`, out-of-bounds indexing, `Option::unwrap` /
`Result::unwrap`) are modelled by an explicit `panic` outcome.
Loops are modelled with explicit fuel; fuel exhaustion is mapped to the
panic outcome and every theorem below is stated so that its content does
not depend on the fuel bound.
-/

set_option maxRecDepth 8000
set_option maxHeartbeats 1600000

/-- Rust `as i8` reinterpretation of an unsigned byte (two's complement). -/
def toI8 (v : Nat) : Int :=
  if v % 256 < 128 then ((v % 256 : Nat) : Int) else ((v % 256 : Nat) : Int) - 256

/-- Rust `as i16` reinterpretation of an unsigned 16-bit value. -/
def toI16 (v : Nat) : Int :=
  if v % 65536 < 32768 then ((v % 65536 : Nat) : Int) else ((v % 65536 : Nat) : Int) - 65536

/-- Rust `as i32` reinterpretation of an unsigned 32-bit value. -/
def toI32 (v : Nat) : Int :=
  if v % 4294967296 < 2147483648 then ((v % 4294967296 : Nat) : Int)
  else ((v % 4294967296 : Nat) : Int) - 4294967296

/-- Rust `as u8` truncation. -/
def asU8 (v : Nat) : Nat := v % 256

/-- Rust `as u16` truncation (width of one code unit). -/
def asU16 (v : Nat) : Nat := v % 65536

/-- `usize as i32` : truncate to 32 bits, reinterpret signed. -/
def usizeAsI32 (c : Nat) : Int := toI32 c

/-- Wrapping of a mathematical integer back into `i32` (release-mode
two's-complement wrap of `i32` addition). -/
def wrapI32 (x : Int) : Int :=
  let r := x % 4294967296
  if r < 2147483648 then r else r - 4294967296

/-- `i32 as usize` : sign-extend to 64 bits, reinterpret unsigned. -/
def i32AsUsize (x : Int) : Nat := (x % 18446744073709551616).toNat

/-- `(cursor as i32 + t) as usize`, the branch-target computation of
`decode_bb` (blocks.rs lines 100-103). -/
def resolveTarget (cursor : Nat) (t : Int) : Nat :=
  i32AsUsize (wrapI32 (usizeAsI32 cursor + t))

/-- Decoding error (`decode::Error`). -/
inductive DError where
  | truncated
  | encoding
  | metadata (length : Nat)
deriving DecidableEq

/-- Result of a format primitive on a `&mut &[u16]` slice: the value and
the advanced slice on success, or the error together with the state the
slice was left in when the error was returned (the mutable borrow keeps
any consumption that happened before the failure). -/
inductive Pr (α : Type) where
  | ok (v : α) (rest : List Nat)
  | fail (e : DError) (rest : List Nat)

/-- The dalvik `Instruction` enum (lib.rs).  Unsigned Rust fields become
`Nat`, signed fields become `Int`, `[u8; 5]` and `Vec<u16>` become
`List Nat`. -/
inductive Instruction where
  | Nop                                                   -- 00
  | Move (dst src : Nat)                                  -- 01
  | MoveFrom16 (dst src : Nat)                            -- 02
  | Move16 (dst src : Nat)                                -- 03
  | MoveWide (dst src : Nat)                              -- 04
  | MoveWideFrom16 (dst src : Nat)                        -- 05
  | MoveWide16 (dst src : Nat)                            -- 06
  | MoveObject (dst src : Nat)                            -- 07
  | MoveObjectFrom16 (dst src : Nat)                      -- 08
  | MoveObject16 (dst src : Nat)                          -- 09
  | MoveResult (dst : Nat)                                -- 0a
  | MoveResultWide (dst : Nat)                            -- 0b
  | MoveResultObject (dst : Nat)                          -- 0c
  | MoveException (dst : Nat)                             -- 0d
  | ReturnVoid                                            -- 0e
  | Return (reg : Nat)                                    -- 0f
  | ReturnWide (reg : Nat)                                -- 10
  | ReturnObject (reg : Nat)                              -- 11
  | Const4 (dst : Nat) (lit : Int)                        -- 12
  | Const16 (dst : Nat) (lit : Int)                       -- 13
  | Const (dst : Nat) (lit : Nat)                         -- 14
  | ConstHigh16 (dst : Nat) (lit : Int)                   -- 15
  | ConstWide16 (dst : Nat) (lit : Int)                   -- 16
  | ConstWide32 (dst : Nat) (lit : Nat)                   -- 17
  | ConstWide (dst : Nat) (lit : Nat)                     -- 18
  | ConstWideHigh16 (dst : Nat) (lit : Nat)               -- 19
  | ConstString (dst idx : Nat)                           -- 1a
  | ConstStringJumbo (dst idx : Nat)                      -- 1b
  | ConstClass (dst idx : Nat)                            -- 1c
  | MonitorEnter (reg : Nat)                              -- 1d
  | MonitorExit (reg : Nat)                               -- 1e
  | CheckCast (reg ty : Nat)                              -- 1f
  | InstanceOf (dst src ty : Nat)                         -- 20
  | ArrayLength (dst src : Nat)                           -- 21
  | NewInstance (reg ty : Nat)                            -- 22
  | NewArray (dst size ty : Nat)                          -- 23
  | FilledNewArray (ty nargs : Nat) (args : List Nat)     -- 24
  | FilledNewArrayRange (ty : Nat) (args : List Nat)      -- 25
  | FillArrayData (dst : Nat) (table : Int)               -- 26
  | Throw (reg : Nat)                                     -- 27
  | Goto (off : Int)                                      -- 28
  | Goto16 (off : Int)                                    -- 29
  | Goto32 (off : Int)                                    -- 2a
  | PackedSwitch (reg : Nat) (table : Int)                -- 2b
  | SparseSwitch (reg : Nat) (table : Int)                -- 2c
  | CmplFloat (dst src1 src2 : Nat)                       -- 2d
  | CmpgFloat (dst src1 src2 : Nat)                       -- 2e
  | CmplDouble (dst src1 src2 : Nat)                      -- 2f
  | CmpgDouble (dst src1 src2 : Nat)                      -- 30
  | CmpLong (dst src1 src2 : Nat)                         -- 31
  | IfEq (a b : Nat) (off : Int)                          -- 32
  | IfNe (a b : Nat) (off : Int)                          -- 33
  | IfLt (a b : Nat) (off : Int)                          -- 34
  | IfGe (a b : Nat) (off : Int)                          -- 35
  | IfGt (a b : Nat) (off : Int)                          -- 36
  | IfLe (a b : Nat) (off : Int)                          -- 37
  | IfEqz (reg : Nat) (off : Int)                         -- 38
  | IfNez (reg : Nat) (off : Int)                         -- 39
  | IfLtz (reg : Nat) (off : Int)                         -- 3a
  | IfGez (reg : Nat) (off : Int)                         -- 3b
  | IfGtz (reg : Nat) (off : Int)                         -- 3c
  | IfLez (reg : Nat) (off : Int)                         -- 3d
  | AGet (dst src1 src2 : Nat)                            -- 44
  | AGetWide (dst src1 src2 : Nat)                        -- 45
  | AGetObject (dst src1 src2 : Nat)                      -- 46
  | AGetBoolean (dst src1 src2 : Nat)                     -- 47
  | AGetByte (dst src1 src2 : Nat)                        -- 48
  | AGetChar (dst src1 src2 : Nat)                        -- 49
  | AGetShort (dst src1 src2 : Nat)                       -- 4a
  | APut (dst src1 src2 : Nat)                            -- 4b
  | APutWide (dst src1 src2 : Nat)                        -- 4c
  | APutObject (dst src1 src2 : Nat)                      -- 4d
  | APutBoolean (dst src1 src2 : Nat)                     -- 4e
  | APutByte (dst src1 src2 : Nat)                        -- 4f
  | APutChar (dst src1 src2 : Nat)                        -- 50
  | APutShort (dst src1 src2 : Nat)                       -- 51
  | IGet (dst src ty : Nat)                               -- 52
  | IGetWide (dst src ty : Nat)                           -- 53
  | IGetObject (dst src ty : Nat)                         -- 54
  | IGetBoolean (dst src ty : Nat)                        -- 55
  | IGetByte (dst src ty : Nat)                           -- 56
  | IGetChar (dst src ty : Nat)                           -- 57
  | IGetShort (dst src ty : Nat)                          -- 58
  | IPut (dst src ty : Nat)                               -- 59
  | IPutWide (dst src ty : Nat)                           -- 5a
  | IPutObject (dst src ty : Nat)                         -- 5b
  | IPutBoolean (dst src ty : Nat)                        -- 5c
  | IPutByte (dst src ty : Nat)                           -- 5d
  | IPutChar (dst src ty : Nat)                           -- 5e
  | IPutShort (dst src ty : Nat)                          -- 5f
  | SGet (dst field : Nat)                                -- 60
  | SGetWide (dst field : Nat)                            -- 61
  | SGetObject (dst field : Nat)                          -- 62
  | SGetBoolean (dst field : Nat)                         -- 63
  | SGetByte (dst field : Nat)                            -- 64
  | SGetChar (dst field : Nat)                            -- 65
  | SGetShort (dst field : Nat)                           -- 66
  | SPut (dst field : Nat)                                -- 67
  | SPutWide (dst field : Nat)                            -- 68
  | SPutObject (dst field : Nat)                          -- 69
  | SPutBoolean (dst field : Nat)                         -- 6a
  | SPutByte (dst field : Nat)                            -- 6b
  | SPutChar (dst field : Nat)                            -- 6c
  | SPutShort (dst field : Nat)                           -- 6d
  | InvokeVirtual (method nargs : Nat) (args : List Nat)  -- 6e
  | InvokeSuper (method nargs : Nat) (args : List Nat)    -- 6f
  | InvokeDirect (method nargs : Nat) (args : List Nat)   -- 70
  | InvokeStatic (method nargs : Nat) (args : List Nat)   -- 71
  | InvokeInterface (method nargs : Nat) (args : List Nat) -- 72
  | InvokeVirtualRange (method : Nat) (args : List Nat)   -- 74
  | InvokeSuperRange (method : Nat) (args : List Nat)     -- 75
  | InvokeDirectRange (method : Nat) (args : List Nat)    -- 76
  | InvokeStaticRange (method : Nat) (args : List Nat)    -- 77
  | InvokeInterfaceRange (method : Nat) (args : List Nat) -- 78
  | NegInt (dst src : Nat)                                -- 7b
  | NotInt (dst src : Nat)                                -- 7c
  | NegLong (dst src : Nat)                               -- 7d
  | NotLong (dst src : Nat)                               -- 7e
  | NegFloat (dst src : Nat)                              -- 7f
  | NegDouble (dst src : Nat)                             -- 80
  | IntToLong (dst src : Nat)                             -- 81
  | IntToFloat (dst src : Nat)                            -- 82
  | IntToDouble (dst src : Nat)                           -- 83
  | LongToInt (dst src : Nat)                             -- 84
  | LongToFloat (dst src : Nat)                           -- 85
  | LongToDouble (dst src : Nat)                          -- 86
  | FloatToInt (dst src : Nat)                            -- 87
  | FloatToLong (dst src : Nat)                           -- 88
  | FloatToDouble (dst src : Nat)                         -- 89
  | DoubleToInt (dst src : Nat)                           -- 8a
  | DoubleToLong (dst src : Nat)                          -- 8b
  | DoubleToFloat (dst src : Nat)                         -- 8c
  | IntTobyte (dst src : Nat)                             -- 8d
  | IntTochar (dst src : Nat)                             -- 8e
  | IntToshort (dst src : Nat)                            -- 8f
  | AddInt (dst src1 src2 : Nat)                          -- 90
  | SubInt (dst src1 src2 : Nat)                          -- 91
  | MulInt (dst src1 src2 : Nat)                          -- 92
  | DivInt (dst src1 src2 : Nat)                          -- 93
  | RemInt (dst src1 src2 : Nat)                          -- 94
  | AndInt (dst src1 src2 : Nat)                          -- 95
  | OrInt (dst src1 src2 : Nat)                           -- 96
  | XorInt (dst src1 src2 : Nat)                          -- 97
  | ShlInt (dst src1 src2 : Nat)                          -- 98
  | ShrInt (dst src1 src2 : Nat)                          -- 99
  | UshrInt (dst src1 src2 : Nat)                         -- 9a
  | AddLong (dst src1 src2 : Nat)                         -- 9b
  | SubLong (dst src1 src2 : Nat)                         -- 9c
  | MulLong (dst src1 src2 : Nat)                         -- 9d
  | DivLong (dst src1 src2 : Nat)                         -- 9e
  | RemLong (dst src1 src2 : Nat)                         -- 9f
  | AndLong (dst src1 src2 : Nat)                         -- a0
  | OrLong (dst src1 src2 : Nat)                          -- a1
  | XorLong (dst src1 src2 : Nat)                         -- a2
  | ShlLong (dst src1 src2 : Nat)                         -- a3
  | ShrLong (dst src1 src2 : Nat)                         -- a4
  | UshrLong (dst src1 src2 : Nat)                        -- a5
  | AddFloat (dst src1 src2 : Nat)                        -- a6
  | SubFloat (dst src1 src2 : Nat)                        -- a7
  | MulFloat (dst src1 src2 : Nat)                        -- a8
  | DivFloat (dst src1 src2 : Nat)                        -- a9
  | RemFloat (dst src1 src2 : Nat)                        -- aa
  | AddDouble (dst src1 src2 : Nat)                       -- ab
  | SubDouble (dst src1 src2 : Nat)                       -- ac
  | MulDouble (dst src1 src2 : Nat)                       -- ad
  | DivDouble (dst src1 src2 : Nat)                       -- ae
  | RemDouble (dst src1 src2 : Nat)                       -- af
  | AddInt2 (dst src : Nat)                               -- b0
  | SubInt2 (dst src : Nat)                               -- b1
  | MulInt2 (dst src : Nat)                               -- b2
  | DivInt2 (dst src : Nat)                               -- b3
  | RemInt2 (dst src : Nat)                               -- b4
  | AndInt2 (dst src : Nat)                               -- b5
  | OrInt2 (dst src : Nat)                                -- b6
  | XorInt2 (dst src : Nat)                               -- b7
  | ShlInt2 (dst src : Nat)                               -- b8
  | ShrInt2 (dst src : Nat)                               -- b9
  | UShrInt2 (dst src : Nat)                              -- ba
  | AddLong2 (dst src : Nat)                              -- bb
  | SubLong2 (dst src : Nat)                              -- bc
  | MulLong2 (dst src : Nat)                              -- bd
  | DivLong2 (dst src : Nat)                              -- be
  | RemLong2 (dst src : Nat)                              -- bf
  | AndLong2 (dst src : Nat)                              -- c0
  | OrLong2 (dst src : Nat)                               -- c1
  | XorLong2 (dst src : Nat)                              -- c2
  | ShlLong2 (dst src : Nat)                              -- c3
  | ShrLong2 (dst src : Nat)                              -- c4
  | UShrLong2 (dst src : Nat)                             -- c5
  | AddFloat2 (dst src : Nat)                             -- c6
  | SubFloat2 (dst src : Nat)                             -- c7
  | MulFloat2 (dst src : Nat)                             -- c8
  | DivFloat2 (dst src : Nat)                             -- c9
  | RemFloat2 (dst src : Nat)                             -- ca
  | AddDouble2 (dst src : Nat)                            -- cb
  | SubDouble2 (dst src : Nat)                            -- cc
  | MulDouble2 (dst src : Nat)                            -- cd
  | DivDouble2 (dst src : Nat)                            -- ce
  | RemDouble2 (dst src : Nat)                            -- cf
  | AddInt16 (dst src : Nat) (lit : Int)                  -- d0
  | RsubInt16 (dst src : Nat) (lit : Int)                 -- d1
  | MulInt16 (dst src : Nat) (lit : Int)                  -- d2
  | DivInt16 (dst src : Nat) (lit : Int)                  -- d3
  | RemInt16 (dst src : Nat) (lit : Int)                  -- d4
  | AndInt16 (dst src : Nat) (lit : Int)                  -- d5
  | OrInt16 (dst src : Nat) (lit : Int)                   -- d6
  | XorInt16 (dst src : Nat) (lit : Int)                  -- d7
  | AddInt8 (dst src : Nat) (lit : Int)                   -- d8
  | RsubInt8 (dst src : Nat) (lit : Int)                  -- d9
  | MulInt8 (dst src : Nat) (lit : Int)                   -- da
  | DivInt8 (dst src : Nat) (lit : Int)                   -- db
  | RemInt8 (dst src : Nat) (lit : Int)                   -- dc
  | AndInt8 (dst src : Nat) (lit : Int)                   -- dd
  | OrInt8 (dst src : Nat) (lit : Int)                    -- de
  | XorInt8 (dst src : Nat) (lit : Int)                   -- df
  | ShlInt8 (dst src : Nat) (lit : Int)                   -- e0
  | ShrInt8 (dst src : Nat) (lit : Int)                   -- e1
  | UshrInt8 (dst src : Nat) (lit : Int)                  -- e2

/-- Outcome of `decode_one` on a slice: the instruction and the advanced
slice, a typed error together with the slice state at the point of
return, or a Rust panic. -/
inductive DResult where
  | ok (i : Instruction) (rest : List Nat)
  | err (e : DError) (rest : List Nat)
  | panic

/-- `Instruction::len` (decode.rs lines 978-1199): length in u16 code
units needed to encode/decode. -/
def instLen : Instruction → Nat
  | .Nop => 1
  | .Move _ _ => 1
  | .MoveFrom16 _ _ => 2
  | .Move16 _ _ => 3
  | .MoveWide _ _ => 1
  | .MoveWideFrom16 _ _ => 2
  | .MoveWide16 _ _ => 3
  | .MoveObject _ _ => 1
  | .MoveObjectFrom16 _ _ => 2
  | .MoveObject16 _ _ => 3
  | .MoveResult _ => 1
  | .MoveResultWide _ => 1
  | .MoveResultObject _ => 1
  | .MoveException _ => 1
  | .ReturnVoid => 1
  | .Return _ => 1
  | .ReturnWide _ => 1
  | .ReturnObject _ => 1
  | .Const4 _ _ => 1
  | .Const16 _ _ => 2
  | .Const _ _ => 3
  | .ConstHigh16 _ _ => 2
  | .ConstWide16 _ _ => 2
  | .ConstWide32 _ _ => 3
  | .ConstWide _ _ => 5
  | .ConstWideHigh16 _ _ => 2
  | .ConstString _ _ => 2
  | .ConstStringJumbo _ _ => 3
  | .ConstClass _ _ => 2
  | .MonitorEnter _ => 1
  | .MonitorExit _ => 1
  | .CheckCast _ _ => 2
  | .InstanceOf _ _ _ => 2
  | .ArrayLength _ _ => 1
  | .NewInstance _ _ => 2
  | .NewArray _ _ _ => 2
  | .FilledNewArray _ _ _ => 3
  | .FilledNewArrayRange _ _ => 3
  | .FillArrayData _ _ => 3
  | .Throw _ => 1
  | .Goto _ => 1
  | .Goto16 _ => 2
  | .Goto32 _ => 3
  | .PackedSwitch _ _ => 3
  | .SparseSwitch _ _ => 3
  | .CmplFloat _ _ _ => 2
  | .CmpgFloat _ _ _ => 2
  | .CmplDouble _ _ _ => 2
  | .CmpgDouble _ _ _ => 2
  | .CmpLong _ _ _ => 2
  | .IfEq _ _ _ => 2
  | .IfNe _ _ _ => 2
  | .IfLt _ _ _ => 2
  | .IfGe _ _ _ => 2
  | .IfGt _ _ _ => 2
  | .IfLe _ _ _ => 2
  | .IfEqz _ _ => 2
  | .IfNez _ _ => 2
  | .IfLtz _ _ => 2
  | .IfGez _ _ => 2
  | .IfGtz _ _ => 2
  | .IfLez _ _ => 2
  | .AGet _ _ _ => 2
  | .AGetWide _ _ _ => 2
  | .AGetObject _ _ _ => 2
  | .AGetBoolean _ _ _ => 2
  | .AGetByte _ _ _ => 2
  | .AGetChar _ _ _ => 2
  | .AGetShort _ _ _ => 2
  | .APut _ _ _ => 2
  | .APutWide _ _ _ => 2
  | .APutObject _ _ _ => 2
  | .APutBoolean _ _ _ => 2
  | .APutByte _ _ _ => 2
  | .APutChar _ _ _ => 2
  | .APutShort _ _ _ => 2
  | .IGet _ _ _ => 2
  | .IGetWide _ _ _ => 2
  | .IGetObject _ _ _ => 2
  | .IGetBoolean _ _ _ => 2
  | .IGetByte _ _ _ => 2
  | .IGetChar _ _ _ => 2
  | .IGetShort _ _ _ => 2
  | .IPut _ _ _ => 2
  | .IPutWide _ _ _ => 2
  | .IPutObject _ _ _ => 2
  | .IPutBoolean _ _ _ => 2
  | .IPutByte _ _ _ => 2
  | .IPutChar _ _ _ => 2
  | .IPutShort _ _ _ => 2
  | .SGet _ _ => 2
  | .SGetWide _ _ => 2
  | .SGetObject _ _ => 2
  | .SGetBoolean _ _ => 2
  | .SGetByte _ _ => 2
  | .SGetChar _ _ => 2
  | .SGetShort _ _ => 2
  | .SPut _ _ => 2
  | .SPutWide _ _ => 2
  | .SPutObject _ _ => 2
  | .SPutBoolean _ _ => 2
  | .SPutByte _ _ => 2
  | .SPutChar _ _ => 2
  | .SPutShort _ _ => 2
  | .InvokeVirtual _ _ _ => 3
  | .InvokeSuper _ _ _ => 3
  | .InvokeDirect _ _ _ => 3
  | .InvokeStatic _ _ _ => 3
  | .InvokeInterface _ _ _ => 3
  | .InvokeVirtualRange _ _ => 3
  | .InvokeSuperRange _ _ => 3
  | .InvokeDirectRange _ _ => 3
  | .InvokeStaticRange _ _ => 3
  | .InvokeInterfaceRange _ _ => 3
  | .NegInt _ _ => 1
  | .NotInt _ _ => 1
  | .NegLong _ _ => 1
  | .NotLong _ _ => 1
  | .NegFloat _ _ => 1
  | .NegDouble _ _ => 1
  | .IntToLong _ _ => 1
  | .IntToFloat _ _ => 1
  | .IntToDouble _ _ => 1
  | .LongToInt _ _ => 1
  | .LongToFloat _ _ => 1
  | .LongToDouble _ _ => 1
  | .FloatToInt _ _ => 1
  | .FloatToLong _ _ => 1
  | .FloatToDouble _ _ => 1
  | .DoubleToInt _ _ => 1
  | .DoubleToLong _ _ => 1
  | .DoubleToFloat _ _ => 1
  | .IntTobyte _ _ => 1
  | .IntTochar _ _ => 1
  | .IntToshort _ _ => 1
  | .AddInt _ _ _ => 2
  | .SubInt _ _ _ => 2
  | .MulInt _ _ _ => 2
  | .DivInt _ _ _ => 2
  | .RemInt _ _ _ => 2
  | .AndInt _ _ _ => 2
  | .OrInt _ _ _ => 2
  | .XorInt _ _ _ => 2
  | .ShlInt _ _ _ => 2
  | .ShrInt _ _ _ => 2
  | .UshrInt _ _ _ => 2
  | .AddLong _ _ _ => 2
  | .SubLong _ _ _ => 2
  | .MulLong _ _ _ => 2
  | .DivLong _ _ _ => 2
  | .RemLong _ _ _ => 2
  | .AndLong _ _ _ => 2
  | .OrLong _ _ _ => 2
  | .XorLong _ _ _ => 2
  | .ShlLong _ _ _ => 2
  | .ShrLong _ _ _ => 2
  | .UshrLong _ _ _ => 2
  | .AddFloat _ _ _ => 2
  | .SubFloat _ _ _ => 2
  | .MulFloat _ _ _ => 2
  | .DivFloat _ _ _ => 2
  | .RemFloat _ _ _ => 2
  | .AddDouble _ _ _ => 2
  | .SubDouble _ _ _ => 2
  | .MulDouble _ _ _ => 2
  | .DivDouble _ _ _ => 2
  | .RemDouble _ _ _ => 2
  | .AddInt2 _ _ => 1
  | .SubInt2 _ _ => 1
  | .MulInt2 _ _ => 1
  | .DivInt2 _ _ => 1
  | .RemInt2 _ _ => 1
  | .AndInt2 _ _ => 1
  | .OrInt2 _ _ => 1
  | .XorInt2 _ _ => 1
  | .ShlInt2 _ _ => 1
  | .ShrInt2 _ _ => 1
  | .UShrInt2 _ _ => 1
  | .AddLong2 _ _ => 1
  | .SubLong2 _ _ => 1
  | .MulLong2 _ _ => 1
  | .DivLong2 _ _ => 1
  | .RemLong2 _ _ => 1
  | .AndLong2 _ _ => 1
  | .OrLong2 _ _ => 1
  | .XorLong2 _ _ => 1
  | .ShlLong2 _ _ => 1
  | .ShrLong2 _ _ => 1
  | .UShrLong2 _ _ => 1
  | .AddFloat2 _ _ => 1
  | .SubFloat2 _ _ => 1
  | .MulFloat2 _ _ => 1
  | .DivFloat2 _ _ => 1
  | .RemFloat2 _ _ => 1
  | .AddDouble2 _ _ => 1
  | .SubDouble2 _ _ => 1
  | .MulDouble2 _ _ => 1
  | .DivDouble2 _ _ => 1
  | .RemDouble2 _ _ => 1
  | .AddInt16 _ _ _ => 2
  | .RsubInt16 _ _ _ => 2
  | .MulInt16 _ _ _ => 2
  | .DivInt16 _ _ _ => 2
  | .RemInt16 _ _ _ => 2
  | .AndInt16 _ _ _ => 2
  | .OrInt16 _ _ _ => 2
  | .XorInt16 _ _ _ => 2
  | .AddInt8 _ _ _ => 2
  | .RsubInt8 _ _ _ => 2
  | .MulInt8 _ _ _ => 2
  | .DivInt8 _ _ _ => 2
  | .RemInt8 _ _ _ => 2
  | .AndInt8 _ _ _ => 2
  | .OrInt8 _ _ _ => 2
  | .XorInt8 _ _ _ => 2
  | .ShlInt8 _ _ _ => 2
  | .ShrInt8 _ _ _ => 2
  | .UshrInt8 _ _ _ => 2

/-- `ControlFlow` (lib.rs lines 252-261), keeping the signed offsets as
mathematical integers. -/
inductive ControlFlowM where
  | terminate
  | goTo (t : Int)
  | branch (t : Int)
  | fallThrough
deriving DecidableEq

/-- `Instruction::control_flow` (lib.rs lines 266-293). -/
def controlFlow : Instruction → ControlFlowM
  | .ReturnVoid => .terminate
  | .Return _ => .terminate
  | .ReturnWide _ => .terminate
  | .ReturnObject _ => .terminate
  | .Throw _ => .terminate
  | .Goto t => .goTo t
  | .Goto16 t => .goTo t
  | .Goto32 t => .goTo t
  | .IfEq _ _ t => .branch t
  | .IfNe _ _ t => .branch t
  | .IfLt _ _ t => .branch t
  | .IfGe _ _ t => .branch t
  | .IfGt _ _ t => .branch t
  | .IfLe _ _ t => .branch t
  | .IfEqz _ t => .branch t
  | .IfNez _ t => .branch t
  | .IfLtz _ t => .branch t
  | .IfGez _ t => .branch t
  | .IfGtz _ t => .branch t
  | .IfLez _ t => .branch t
  | _ => .fallThrough

/-!
## Format primitives (`decode.rs`, `mod d`)

Each primitive consumes from the slice exactly as the Rust pattern match
does.  `x >> 8` on a `u16` is `x / 256`; `x >> 4` is `x / 16`;
`x & 0xf` is `x % 16`; `(hi as u32) << 16 | lo as u32` is
`hi * 65536 + lo`.
-/

/-- `d::consume_u16` (decode.rs lines 1433-1441). -/
def consume_u16 (l : List Nat) : Pr Nat :=
  match l with
  | a :: rest => .ok (asU16 a) rest
  | [] => .fail .truncated l

/-- `d::consume_u32` (decode.rs lines 1444-1454). -/
def consume_u32 (l : List Nat) : Pr Nat :=
  match l with
  | al :: ah :: rest => .ok (asU16 ah * 65536 + asU16 al) rest
  | _ => .fail .truncated l

/-- `d::aa_op` (decode.rs lines 1461-1471): returns `AA`, the high byte
of the first code unit (`(a >> 8) as u8`). -/
def aa_op (l : List Nat) : Pr Nat :=
  match l with
  | a :: rest => .ok (asU8 (asU16 a / 256)) rest
  | [] => .fail .truncated l

/-- `d::ba_op` (decode.rs lines 1478-1484): returns `(B, A)` where
`B = AA >> 4` and `A = AA & 0xf`. -/
def ba_op (l : List Nat) : Pr (Nat × Nat) :=
  match aa_op l with
  | .ok ab rest => .ok (ab / 16, ab % 16) rest
  | .fail e rest => .fail e rest

/-- `d::zz_op` (decode.rs lines 1491-1499): `AA` must be zero.  Note the
slice has already been advanced by `aa_op` when `Encoding` is returned. -/
def zz_op (l : List Nat) : Pr Unit :=
  match aa_op l with
  | .ok aa rest => if aa ≠ 0 then .fail .encoding rest else .ok () rest
  | .fail e rest => .fail e rest

/-- `d::aa_op_bbbb` (decode.rs lines 1506-1516). -/
def aa_op_bbbb (l : List Nat) : Pr (Nat × Nat) :=
  match l with
  | a :: bbbb :: rest => .ok (asU8 (asU16 a / 256), asU16 bbbb) rest
  | _ => .fail .truncated l

/-- `d::aa_op_ccbb` (decode.rs lines 1523-1530): returns `(AA, CC, BB)`. -/
def aa_op_ccbb (l : List Nat) : Pr (Nat × Nat × Nat) :=
  match aa_op_bbbb l with
  | .ok (aa, ccbb) rest => .ok (aa, asU8 (ccbb / 256), asU8 ccbb) rest
  | .fail e rest => .fail e rest

/-- `d::ba_op_cccc` (decode.rs lines 1537-1543): returns `(B, A, CCCC)`. -/
def ba_op_cccc (l : List Nat) : Pr (Nat × Nat × Nat) :=
  match aa_op_bbbb l with
  | .ok (ba, cccc) rest => .ok (ba / 16, ba % 16, cccc) rest
  | .fail e rest => .fail e rest

/-- `d::zz_op_aaaa` (decode.rs lines 1550-1558). -/
def zz_op_aaaa (l : List Nat) : Pr Nat :=
  match aa_op_bbbb l with
  | .ok (zz, aaaa) rest => if zz ≠ 0 then .fail .encoding rest else .ok aaaa rest
  | .fail e rest => .fail e rest

/-- `d::aa_op_bbbbbbbb` (decode.rs lines 1565-1576). -/
def aa_op_bbbbbbbb (l : List Nat) : Pr (Nat × Nat) :=
  match l with
  | a :: bl :: bh :: rest => .ok (asU8 (asU16 a / 256), asU16 bh * 65536 + asU16 bl) rest
  | _ => .fail .truncated l

/-- `d::zz_op_aaaaaaaa` (decode.rs lines 1583-1591). -/
def zz_op_aaaaaaaa (l : List Nat) : Pr Nat :=
  match aa_op_bbbbbbbb l with
  | .ok (zz, a8) rest => if zz ≠ 0 then .fail .encoding rest else .ok a8 rest
  | .fail e rest => .fail e rest

/-- `d::aa_op_ccccbbbb` (decode.rs lines 1601-1608): returns
`(AA, BBBB, CCCC)` — note the swap relative to encoding order. -/
def aa_op_ccccbbbb (l : List Nat) : Pr (Nat × Nat × Nat) :=
  match aa_op_bbbbbbbb l with
  | .ok (aa, cb) rest => .ok (aa, asU16 cb, asU16 (cb / 65536)) rest
  | .fail e rest => .fail e rest

/-- `d::ag_op_bbbbfedc` (decode.rs lines 1615-1630): returns
`(A, G, BBBB, F, E, D, C)`. -/
def ag_op_bbbbfedc (l : List Nat) : Pr (Nat × Nat × Nat × Nat × Nat × Nat × Nat) :=
  match l with
  | agop :: b :: fedc :: rest =>
    .ok (asU8 (asU16 agop / 4096 % 16), asU8 (asU16 agop / 256 % 16), asU16 b,
         asU8 (asU16 fedc / 4096 % 16), asU8 (asU16 fedc / 256 % 16),
         asU8 (asU16 fedc / 16 % 16), asU8 (asU16 fedc % 16)) rest
  | _ => .fail .truncated l

/-- `d::zz_op_aaaabbbb` (decode.rs lines 1637-1645). -/
def zz_op_aaaabbbb (l : List Nat) : Pr (Nat × Nat) :=
  match aa_op_ccccbbbb l with
  | .ok (zz, aaaa, bbbb) rest => if zz ≠ 0 then .fail .encoding rest else .ok (aaaa, bbbb) rest
  | .fail e rest => .fail e rest

/-- `d::aa_op_bbbbbbbbbbbbbbbb` (decode.rs lines 1652-1667). -/
def aa_op_bbbbbbbbbbbbbbbb (l : List Nat) : Pr (Nat × Nat) :=
  match l with
  | a :: b0 :: b1 :: b2 :: b3 :: rest =>
    .ok (asU8 (asU16 a / 256),
         asU16 b3 * 281474976710656 + asU16 b2 * 4294967296 + asU16 b1 * 65536 + asU16 b0) rest
  | _ => .fail .truncated l

/-- Run a format primitive and build the instruction from its values;
the `?` operator of the source propagates a primitive failure together
with the slice state the primitive left behind. -/
def viaP {α : Type} (prim : List Nat → Pr α) (mk : α → Instruction) (l : List Nat) : DResult :=
  match prim l with
  | .ok v rest => .ok (mk v) rest
  | .fail e rest => .err e rest

/-- The `opcode::NOP` arm of `decode_one` (decode.rs lines 53-105): a
true no-op, or one of the three inline payload tables.  All three table
sub-arms end in `todo!("handle inline metadata?")`, i.e. a panic; only
their truncation checks ever return. -/
def nopArm (l : List Nat) : DResult :=
  match aa_op l with
  | .fail e rest => .err e rest
  | .ok aa r1 =>
    if aa = 0x00 then .ok .Nop r1
    else if aa = 0x01 then
      -- packed-switch-payload
      match consume_u16 r1 with
      | .fail e r => .err e r
      | .ok size r2 =>
        match consume_u32 r2 with
        | .fail e r => .err e r
        | .ok _first_key r3 =>
          -- num_codes = 2 u16 per u32, times the table length
          if r3.length < 2 * size then .err .truncated r3
          else .panic   -- todo!("handle inline metadata?")
    else if aa = 0x02 then
      -- sparse-switch-payload
      match consume_u16 r1 with
      | .fail e r => .err e r
      | .ok size r2 =>
        -- num_codes = 2 u16 per u32, times 2 tables of equal length
        if r2.length < 2 * 2 * size then .err .truncated r2
        else .panic   -- todo!("handle inline metadata?")
    else if aa = 0x03 then
      -- fill-array-data-payload
      match consume_u16 r1 with
      | .fail e r => .err e r
      | .ok element_width r2 =>
        match consume_u32 r2 with
        | .fail e r => .err e r
        | .ok size r3 =>
          -- code_size = (element_width * size + 1) / 2
          if r3.length < (element_width * size + 1) / 2 then .err .truncated r3
          else .panic   -- todo!("handle inline metadata?")
    else .err .encoding r1

/-- The dispatch body of `decode_one` (decode.rs lines 52-971), one arm
per opcode constant from `mod opcode`, in source order.  The final
wildcard arm is `todo!("handle opcode {unk:#x?}")`, i.e. a panic. -/
def decodeTail (op : Nat) (l : List Nat) : DResult :=
  if op = 0x00 then nopArm l else
  if op = 0x01 then viaP ba_op (fun ⟨src, dst⟩ => .Move dst src) l else
  if op = 0x02 then viaP aa_op_bbbb (fun ⟨dst, src⟩ => .MoveFrom16 dst src) l else
  if op = 0x03 then viaP zz_op_aaaabbbb (fun ⟨dst, src⟩ => .Move16 dst src) l else
  if op = 0x04 then viaP ba_op (fun ⟨src, dst⟩ => .MoveWide dst src) l else
  if op = 0x05 then viaP aa_op_bbbb (fun ⟨dst, src⟩ => .MoveWideFrom16 dst src) l else
  if op = 0x06 then viaP zz_op_aaaabbbb (fun ⟨dst, src⟩ => .MoveWide16 dst src) l else
  if op = 0x07 then viaP ba_op (fun ⟨src, dst⟩ => .MoveObject dst src) l else
  if op = 0x08 then viaP aa_op_bbbb (fun ⟨dst, src⟩ => .MoveObjectFrom16 dst src) l else
  if op = 0x09 then viaP zz_op_aaaabbbb (fun ⟨dst, src⟩ => .MoveObject16 dst src) l else
  if op = 0x0a then viaP aa_op (fun dst => .MoveResult dst) l else
  if op = 0x0b then viaP aa_op (fun dst => .MoveResultWide dst) l else
  if op = 0x0c then viaP aa_op (fun dst => .MoveResultObject dst) l else
  if op = 0x0d then viaP aa_op (fun dst => .MoveException dst) l else
  if op = 0x0e then viaP zz_op (fun _ => .ReturnVoid) l else
  if op = 0x0f then viaP aa_op (fun reg => .Return reg) l else
  if op = 0x10 then viaP aa_op (fun reg => .ReturnWide reg) l else
  if op = 0x11 then viaP aa_op (fun reg => .ReturnObject reg) l else
  if op = 0x12 then
    -- sign extend the 4-bit literal to i8: `src | 0xf0` when bit 3 set
    viaP ba_op (fun ⟨src, dst⟩ => .Const4 dst (toI8 (if 8 ≤ src then 240 + src else src))) l else
  if op = 0x13 then viaP aa_op_bbbb (fun ⟨dst, src⟩ => .Const16 dst (toI16 src)) l else
  if op = 0x14 then viaP aa_op_bbbbbbbb (fun ⟨dst, src⟩ => .Const dst src) l else
  if op = 0x15 then viaP aa_op_bbbb (fun ⟨dst, src⟩ => .ConstHigh16 dst (toI16 src)) l else
  if op = 0x16 then viaP aa_op_bbbb (fun ⟨dst, src⟩ => .ConstWide16 dst (toI16 src)) l else
  if op = 0x17 then viaP aa_op_bbbbbbbb (fun ⟨dst, src⟩ => .ConstWide32 dst src) l else
  if op = 0x18 then viaP aa_op_bbbbbbbbbbbbbbbb (fun ⟨dst, src⟩ => .ConstWide dst src) l else
  if op = 0x19 then viaP aa_op_bbbb (fun ⟨dst, src⟩ => .ConstWideHigh16 dst src) l else
  if op = 0x1a then viaP aa_op_bbbb (fun ⟨dst, src⟩ => .ConstString dst src) l else
  if op = 0x1b then viaP aa_op_bbbbbbbb (fun ⟨dst, src⟩ => .ConstStringJumbo dst src) l else
  if op = 0x1c then viaP aa_op_bbbb (fun ⟨dst, cls⟩ => .ConstClass dst cls) l else
  if op = 0x1d then viaP aa_op (fun reg => .MonitorEnter reg) l else
  if op = 0x1e then viaP aa_op (fun reg => .MonitorExit reg) l else
  if op = 0x1f then viaP aa_op_bbbb (fun ⟨reg, ty⟩ => .CheckCast reg ty) l else
  if op = 0x20 then viaP ba_op_cccc (fun ⟨src, dst, ty⟩ => .InstanceOf dst src ty) l else
  if op = 0x21 then viaP ba_op (fun ⟨dst, src⟩ => .ArrayLength dst src) l else
  if op = 0x22 then viaP aa_op_bbbb (fun ⟨reg, ty⟩ => .NewInstance reg ty) l else
  if op = 0x23 then viaP ba_op_cccc (fun ⟨size, dst, ty⟩ => .NewArray dst size ty) l else
  if op = 0x24 then
    viaP ag_op_bbbbfedc
      (fun ⟨nargs, g, ty, f, e, d, c⟩ => .FilledNewArray ty nargs [c, d, e, f, g]) l else
  if op = 0x25 then
    viaP aa_op_ccccbbbb
      (fun ⟨count, ty, start⟩ =>
        .FilledNewArrayRange ty ((List.range count).map (fun r => start + r))) l else
  if op = 0x26 then viaP aa_op_bbbbbbbb (fun ⟨dst, table⟩ => .FillArrayData dst (toI32 table)) l else
  if op = 0x27 then viaP aa_op (fun reg => .Throw reg) l else
  if op = 0x28 then viaP aa_op (fun dst => .Goto (toI8 dst)) l else
  if op = 0x29 then viaP zz_op_aaaa (fun dst => .Goto16 (toI16 dst)) l else
  if op = 0x2a then viaP zz_op_aaaaaaaa (fun dst => .Goto32 (toI32 dst)) l else
  if op = 0x2b then viaP aa_op_bbbbbbbb (fun ⟨reg, table⟩ => .PackedSwitch reg (toI32 table)) l else
  if op = 0x2c then viaP aa_op_bbbbbbbb (fun ⟨reg, table⟩ => .SparseSwitch reg (toI32 table)) l else
  if op = 0x2d then viaP aa_op_ccbb (fun ⟨dst, src2, src1⟩ => .CmplFloat dst src1 src2) l else
  if op = 0x2e then viaP aa_op_ccbb (fun ⟨dst, src2, src1⟩ => .CmpgFloat dst src1 src2) l else
  if op = 0x2f then viaP aa_op_ccbb (fun ⟨dst, src2, src1⟩ => .CmplDouble dst src1 src2) l else
  if op = 0x30 then viaP aa_op_ccbb (fun ⟨dst, src2, src1⟩ => .CmpgDouble dst src1 src2) l else
  if op = 0x31 then viaP aa_op_ccbb (fun ⟨dst, src2, src1⟩ => .CmpLong dst src1 src2) l else
  if op = 0x32 then viaP ba_op_cccc (fun ⟨b, a, off⟩ => .IfEq a b (toI16 off)) l else
  if op = 0x33 then viaP ba_op_cccc (fun ⟨b, a, off⟩ => .IfNe a b (toI16 off)) l else
  if op = 0x34 then viaP ba_op_cccc (fun ⟨b, a, off⟩ => .IfLt a b (toI16 off)) l else
  if op = 0x35 then viaP ba_op_cccc (fun ⟨b, a, off⟩ => .IfGe a b (toI16 off)) l else
  if op = 0x36 then viaP ba_op_cccc (fun ⟨b, a, off⟩ => .IfGt a b (toI16 off)) l else
  if op = 0x37 then viaP ba_op_cccc (fun ⟨b, a, off⟩ => .IfLe a b (toI16 off)) l else
  if op = 0x38 then viaP aa_op_bbbb (fun ⟨reg, off⟩ => .IfEqz reg (toI16 off)) l else
  if op = 0x39 then viaP aa_op_bbbb (fun ⟨reg, off⟩ => .IfNez reg (toI16 off)) l else
  if op = 0x3a then viaP aa_op_bbbb (fun ⟨reg, off⟩ => .IfLtz reg (toI16 off)) l else
  if op = 0x3b then viaP aa_op_bbbb (fun ⟨reg, off⟩ => .IfGez reg (toI16 off)) l else
  if op = 0x3c then viaP aa_op_bbbb (fun ⟨reg, off⟩ => .IfGtz reg (toI16 off)) l else
  if op = 0x3d then viaP aa_op_bbbb (fun ⟨reg, off⟩ => .IfLez reg (toI16 off)) l else
  if op = 0x44 then viaP aa_op_ccbb (fun ⟨dst, src2, src1⟩ => .AGet dst src1 src2) l else
  if op = 0x45 then viaP aa_op_ccbb (fun ⟨dst, src2, src1⟩ => .AGetWide dst src1 src2) l else
  if op = 0x46 then viaP aa_op_ccbb (fun ⟨dst, src2, src1⟩ => .AGetObject dst src1 src2) l else
  if op = 0x47 then viaP aa_op_ccbb (fun ⟨dst, src2, src1⟩ => .AGetBoolean dst src1 src2) l else
  if op = 0x48 then viaP aa_op_ccbb (fun ⟨dst, src2, src1⟩ => .AGetByte dst src1 src2) l else
  if op = 0x49 then viaP aa_op_ccbb (fun ⟨dst, src2, src1⟩ => .AGetChar dst src1 src2) l else
  if op = 0x4a then viaP aa_op_ccbb (fun ⟨dst, src2, src1⟩ => .AGetShort dst src1 src2) l else
  if op = 0x4b then viaP aa_op_ccbb (fun ⟨dst, src2, src1⟩ => .APut dst src1 src2) l else
  if op = 0x4c then viaP aa_op_ccbb (fun ⟨dst, src2, src1⟩ => .APutWide dst src1 src2) l else
  if op = 0x4d then viaP aa_op_ccbb (fun ⟨dst, src2, src1⟩ => .APutObject dst src1 src2) l else
  if op = 0x4e then viaP aa_op_ccbb (fun ⟨dst, src2, src1⟩ => .APutBoolean dst src1 src2) l else
  if op = 0x4f then viaP aa_op_ccbb (fun ⟨dst, src2, src1⟩ => .APutByte dst src1 src2) l else
  if op = 0x50 then viaP aa_op_ccbb (fun ⟨dst, src2, src1⟩ => .APutChar dst src1 src2) l else
  if op = 0x51 then viaP aa_op_ccbb (fun ⟨dst, src2, src1⟩ => .APutShort dst src1 src2) l else
  if op = 0x52 then viaP ba_op_cccc (fun ⟨src, dst, ty⟩ => .IGet dst src ty) l else
  if op = 0x53 then viaP ba_op_cccc (fun ⟨src, dst, ty⟩ => .IGetWide dst src ty) l else
  if op = 0x54 then viaP ba_op_cccc (fun ⟨src, dst, ty⟩ => .IGetObject dst src ty) l else
  if op = 0x55 then viaP ba_op_cccc (fun ⟨src, dst, ty⟩ => .IGetBoolean dst src ty) l else
  if op = 0x56 then viaP ba_op_cccc (fun ⟨src, dst, ty⟩ => .IGetByte dst src ty) l else
  if op = 0x57 then viaP ba_op_cccc (fun ⟨src, dst, ty⟩ => .IGetChar dst src ty) l else
  if op = 0x58 then viaP ba_op_cccc (fun ⟨src, dst, ty⟩ => .IGetShort dst src ty) l else
  if op = 0x59 then viaP ba_op_cccc (fun ⟨src, dst, ty⟩ => .IPut dst src ty) l else
  if op = 0x5a then viaP ba_op_cccc (fun ⟨src, dst, ty⟩ => .IPutWide dst src ty) l else
  if op = 0x5b then viaP ba_op_cccc (fun ⟨src, dst, ty⟩ => .IPutObject dst src ty) l else
  if op = 0x5c then viaP ba_op_cccc (fun ⟨src, dst, ty⟩ => .IPutBoolean dst src ty) l else
  if op = 0x5d then viaP ba_op_cccc (fun ⟨src, dst, ty⟩ => .IPutByte dst src ty) l else
  if op = 0x5e then viaP ba_op_cccc (fun ⟨src, dst, ty⟩ => .IPutChar dst src ty) l else
  if op = 0x5f then viaP ba_op_cccc (fun ⟨src, dst, ty⟩ => .IPutShort dst src ty) l else
  if op = 0x60 then viaP aa_op_bbbb (fun ⟨dst, field⟩ => .SGet dst field) l else
  if op = 0x61 then viaP aa_op_bbbb (fun ⟨dst, field⟩ => .SGetWide dst field) l else
  if op = 0x62 then viaP aa_op_bbbb (fun ⟨dst, field⟩ => .SGetObject dst field) l else
  if op = 0x63 then viaP aa_op_bbbb (fun ⟨dst, field⟩ => .SGetBoolean dst field) l else
  if op = 0x64 then viaP aa_op_bbbb (fun ⟨dst, field⟩ => .SGetByte dst field) l else
  if op = 0x65 then viaP aa_op_bbbb (fun ⟨dst, field⟩ => .SGetChar dst field) l else
  if op = 0x66 then viaP aa_op_bbbb (fun ⟨dst, field⟩ => .SGetShort dst field) l else
  if op = 0x67 then viaP aa_op_bbbb (fun ⟨dst, field⟩ => .SPut dst field) l else
  if op = 0x68 then viaP aa_op_bbbb (fun ⟨dst, field⟩ => .SPutWide dst field) l else
  if op = 0x69 then viaP aa_op_bbbb (fun ⟨dst, field⟩ => .SPutObject dst field) l else
  if op = 0x6a then viaP aa_op_bbbb (fun ⟨dst, field⟩ => .SPutBoolean dst field) l else
  if op = 0x6b then viaP aa_op_bbbb (fun ⟨dst, field⟩ => .SPutByte dst field) l else
  if op = 0x6c then viaP aa_op_bbbb (fun ⟨dst, field⟩ => .SPutChar dst field) l else
  if op = 0x6d then viaP aa_op_bbbb (fun ⟨dst, field⟩ => .SPutShort dst field) l else
  if op = 0x6e then
    viaP ag_op_bbbbfedc
      (fun ⟨nargs, g, method, f, e, d, c⟩ => .InvokeVirtual method nargs [c, d, e, f, g]) l else
  if op = 0x6f then
    viaP ag_op_bbbbfedc
      (fun ⟨nargs, g, method, f, e, d, c⟩ => .InvokeSuper method nargs [c, d, e, f, g]) l else
  if op = 0x70 then
    viaP ag_op_bbbbfedc
      (fun ⟨nargs, g, method, f, e, d, c⟩ => .InvokeDirect method nargs [c, d, e, f, g]) l else
  if op = 0x71 then
    viaP ag_op_bbbbfedc
      (fun ⟨nargs, g, method, f, e, d, c⟩ => .InvokeStatic method nargs [c, d, e, f, g]) l else
  if op = 0x72 then
    viaP ag_op_bbbbfedc
      (fun ⟨nargs, g, method, f, e, d, c⟩ => .InvokeInterface method nargs [c, d, e, f, g]) l else
  if op = 0x74 then
    viaP aa_op_ccccbbbb
      (fun ⟨count, method, start⟩ =>
        .InvokeVirtualRange method ((List.range count).map (fun r => start + r))) l else
  if op = 0x75 then
    viaP aa_op_ccccbbbb
      (fun ⟨count, method, start⟩ =>
        .InvokeSuperRange method ((List.range count).map (fun r => start + r))) l else
  if op = 0x76 then
    viaP aa_op_ccccbbbb
      (fun ⟨count, method, start⟩ =>
        .InvokeDirectRange method ((List.range count).map (fun r => start + r))) l else
  if op = 0x77 then
    viaP aa_op_ccccbbbb
      (fun ⟨count, method, start⟩ =>
        .InvokeStaticRange method ((List.range count).map (fun r => start + r))) l else
  if op = 0x78 then
    viaP aa_op_ccccbbbb
      (fun ⟨count, method, start⟩ =>
        .InvokeInterfaceRange method ((List.range count).map (fun r => start + r))) l else
  if op = 0x7b then viaP ba_op (fun ⟨src, dst⟩ => .NegInt dst src) l else
  if op = 0x7c then viaP ba_op (fun ⟨src, dst⟩ => .NotInt dst src) l else
  if op = 0x7d then viaP ba_op (fun ⟨src, dst⟩ => .NegLong dst src) l else
  if op = 0x7e then viaP ba_op (fun ⟨src, dst⟩ => .NotLong dst src) l else
  if op = 0x7f then viaP ba_op (fun ⟨src, dst⟩ => .NegFloat dst src) l else
  if op = 0x80 then viaP ba_op (fun ⟨src, dst⟩ => .NegDouble dst src) l else
  if op = 0x81 then viaP ba_op (fun ⟨src, dst⟩ => .IntToLong dst src) l else
  if op = 0x82 then viaP ba_op (fun ⟨src, dst⟩ => .IntToFloat dst src) l else
  if op = 0x83 then viaP ba_op (fun ⟨src, dst⟩ => .IntToDouble dst src) l else
  if op = 0x84 then viaP ba_op (fun ⟨src, dst⟩ => .LongToInt dst src) l else
  if op = 0x85 then viaP ba_op (fun ⟨src, dst⟩ => .LongToFloat dst src) l else
  if op = 0x86 then viaP ba_op (fun ⟨src, dst⟩ => .LongToDouble dst src) l else
  if op = 0x87 then viaP ba_op (fun ⟨src, dst⟩ => .FloatToInt dst src) l else
  if op = 0x88 then viaP ba_op (fun ⟨src, dst⟩ => .FloatToLong dst src) l else
  if op = 0x89 then viaP ba_op (fun ⟨src, dst⟩ => .FloatToDouble dst src) l else
  if op = 0x8a then viaP ba_op (fun ⟨src, dst⟩ => .DoubleToInt dst src) l else
  if op = 0x8b then viaP ba_op (fun ⟨src, dst⟩ => .DoubleToLong dst src) l else
  if op = 0x8c then viaP ba_op (fun ⟨src, dst⟩ => .DoubleToFloat dst src) l else
  if op = 0x8d then viaP ba_op (fun ⟨src, dst⟩ => .IntTobyte dst src) l else
  if op = 0x8e then viaP ba_op (fun ⟨src, dst⟩ => .IntTochar dst src) l else
  if op = 0x8f then viaP ba_op (fun ⟨src, dst⟩ => .IntToshort dst src) l else
  if op = 0x90 then viaP aa_op_ccbb (fun ⟨dst, src2, src1⟩ => .AddInt dst src1 src2) l else
  if op = 0x91 then viaP aa_op_ccbb (fun ⟨dst, src2, src1⟩ => .SubInt dst src1 src2) l else
  if op = 0x92 then viaP aa_op_ccbb (fun ⟨dst, src2, src1⟩ => .MulInt dst src1 src2) l else
  if op = 0x93 then viaP aa_op_ccbb (fun ⟨dst, src2, src1⟩ => .DivInt dst src1 src2) l else
  if op = 0x94 then viaP aa_op_ccbb (fun ⟨dst, src2, src1⟩ => .RemInt dst src1 src2) l else
  if op = 0x95 then viaP aa_op_ccbb (fun ⟨dst, src2, src1⟩ => .AndInt dst src1 src2) l else
  if op = 0x96 then viaP aa_op_ccbb (fun ⟨dst, src2, src1⟩ => .OrInt dst src1 src2) l else
  if op = 0x97 then viaP aa_op_ccbb (fun ⟨dst, src2, src1⟩ => .XorInt dst src1 src2) l else
  if op = 0x98 then viaP aa_op_ccbb (fun ⟨dst, src2, src1⟩ => .ShlInt dst src1 src2) l else
  if op = 0x99 then viaP aa_op_ccbb (fun ⟨dst, src2, src1⟩ => .ShrInt dst src1 src2) l else
  if op = 0x9a then viaP aa_op_ccbb (fun ⟨dst, src2, src1⟩ => .UshrInt dst src1 src2) l else
  if op = 0x9b then viaP aa_op_ccbb (fun ⟨dst, src2, src1⟩ => .AddLong dst src1 src2) l else
  if op = 0x9c then viaP aa_op_ccbb (fun ⟨dst, src2, src1⟩ => .SubLong dst src1 src2) l else
  if op = 0x9d then viaP aa_op_ccbb (fun ⟨dst, src2, src1⟩ => .MulLong dst src1 src2) l else
  if op = 0x9e then viaP aa_op_ccbb (fun ⟨dst, src2, src1⟩ => .DivLong dst src1 src2) l else
  if op = 0x9f then viaP aa_op_ccbb (fun ⟨dst, src2, src1⟩ => .RemLong dst src1 src2) l else
  if op = 0xa0 then viaP aa_op_ccbb (fun ⟨dst, src2, src1⟩ => .AndLong dst src1 src2) l else
  if op = 0xa1 then viaP aa_op_ccbb (fun ⟨dst, src2, src1⟩ => .OrLong dst src1 src2) l else
  if op = 0xa2 then viaP aa_op_ccbb (fun ⟨dst, src2, src1⟩ => .XorLong dst src1 src2) l else
  if op = 0xa3 then viaP aa_op_ccbb (fun ⟨dst, src2, src1⟩ => .ShlLong dst src1 src2) l else
  if op = 0xa4 then viaP aa_op_ccbb (fun ⟨dst, src2, src1⟩ => .ShrLong dst src1 src2) l else
  if op = 0xa5 then viaP aa_op_ccbb (fun ⟨dst, src2, src1⟩ => .UshrLong dst src1 src2) l else
  if op = 0xa6 then viaP aa_op_ccbb (fun ⟨dst, src2, src1⟩ => .AddFloat dst src1 src2) l else
  if op = 0xa7 then viaP aa_op_ccbb (fun ⟨dst, src2, src1⟩ => .SubFloat dst src1 src2) l else
  if op = 0xa8 then viaP aa_op_ccbb (fun ⟨dst, src2, src1⟩ => .MulFloat dst src1 src2) l else
  if op = 0xa9 then viaP aa_op_ccbb (fun ⟨dst, src2, src1⟩ => .DivFloat dst src1 src2) l else
  if op = 0xaa then viaP aa_op_ccbb (fun ⟨dst, src2, src1⟩ => .RemFloat dst src1 src2) l else
  if op = 0xab then viaP aa_op_ccbb (fun ⟨dst, src2, src1⟩ => .AddDouble dst src1 src2) l else
  if op = 0xac then viaP aa_op_ccbb (fun ⟨dst, src2, src1⟩ => .SubDouble dst src1 src2) l else
  if op = 0xad then viaP aa_op_ccbb (fun ⟨dst, src2, src1⟩ => .MulDouble dst src1 src2) l else
  if op = 0xae then viaP aa_op_ccbb (fun ⟨dst, src2, src1⟩ => .DivDouble dst src1 src2) l else
  if op = 0xaf then viaP aa_op_ccbb (fun ⟨dst, src2, src1⟩ => .RemDouble dst src1 src2) l else
  if op = 0xb0 then viaP ba_op (fun ⟨src, dst⟩ => .AddInt2 dst src) l else
  if op = 0xb1 then viaP ba_op (fun ⟨src, dst⟩ => .SubInt2 dst src) l else
  if op = 0xb2 then viaP ba_op (fun ⟨src, dst⟩ => .MulInt2 dst src) l else
  if op = 0xb3 then viaP ba_op (fun ⟨src, dst⟩ => .DivInt2 dst src) l else
  if op = 0xb4 then viaP ba_op (fun ⟨src, dst⟩ => .RemInt2 dst src) l else
  if op = 0xb5 then viaP ba_op (fun ⟨src, dst⟩ => .AndInt2 dst src) l else
  if op = 0xb6 then viaP ba_op (fun ⟨src, dst⟩ => .OrInt2 dst src) l else
  if op = 0xb7 then viaP ba_op (fun ⟨src, dst⟩ => .XorInt2 dst src) l else
  if op = 0xb8 then viaP ba_op (fun ⟨src, dst⟩ => .ShlInt2 dst src) l else
  if op = 0xb9 then viaP ba_op (fun ⟨src, dst⟩ => .ShrInt2 dst src) l else
  if op = 0xba then viaP ba_op (fun ⟨src, dst⟩ => .UShrInt2 dst src) l else
  if op = 0xbb then viaP ba_op (fun ⟨src, dst⟩ => .AddLong2 dst src) l else
  if op = 0xbc then viaP ba_op (fun ⟨src, dst⟩ => .SubLong2 dst src) l else
  if op = 0xbd then viaP ba_op (fun ⟨src, dst⟩ => .MulLong2 dst src) l else
  if op = 0xbe then viaP ba_op (fun ⟨src, dst⟩ => .DivLong2 dst src) l else
  if op = 0xbf then viaP ba_op (fun ⟨src, dst⟩ => .RemLong2 dst src) l else
  if op = 0xc0 then viaP ba_op (fun ⟨src, dst⟩ => .AndLong2 dst src) l else
  if op = 0xc1 then viaP ba_op (fun ⟨src, dst⟩ => .OrLong2 dst src) l else
  if op = 0xc2 then viaP ba_op (fun ⟨src, dst⟩ => .XorLong2 dst src) l else
  if op = 0xc3 then viaP ba_op (fun ⟨src, dst⟩ => .ShlLong2 dst src) l else
  if op = 0xc4 then viaP ba_op (fun ⟨src, dst⟩ => .ShrLong2 dst src) l else
  if op = 0xc5 then viaP ba_op (fun ⟨src, dst⟩ => .UShrLong2 dst src) l else
  if op = 0xc6 then viaP ba_op (fun ⟨src, dst⟩ => .AddFloat2 dst src) l else
  if op = 0xc7 then viaP ba_op (fun ⟨src, dst⟩ => .SubFloat2 dst src) l else
  if op = 0xc8 then viaP ba_op (fun ⟨src, dst⟩ => .MulFloat2 dst src) l else
  if op = 0xc9 then viaP ba_op (fun ⟨src, dst⟩ => .DivFloat2 dst src) l else
  if op = 0xca then viaP ba_op (fun ⟨src, dst⟩ => .RemFloat2 dst src) l else
  if op = 0xcb then viaP ba_op (fun ⟨src, dst⟩ => .AddDouble2 dst src) l else
  if op = 0xcc then viaP ba_op (fun ⟨src, dst⟩ => .SubDouble2 dst src) l else
  if op = 0xcd then viaP ba_op (fun ⟨src, dst⟩ => .MulDouble2 dst src) l else
  if op = 0xce then viaP ba_op (fun ⟨src, dst⟩ => .DivDouble2 dst src) l else
  if op = 0xcf then viaP ba_op (fun ⟨src, dst⟩ => .RemDouble2 dst src) l else
  if op = 0xd0 then viaP ba_op_cccc (fun ⟨src, dst, lit⟩ => .AddInt16 dst src (toI16 lit)) l else
  if op = 0xd1 then viaP ba_op_cccc (fun ⟨src, dst, lit⟩ => .RsubInt16 dst src (toI16 lit)) l else
  if op = 0xd2 then viaP ba_op_cccc (fun ⟨src, dst, lit⟩ => .MulInt16 dst src (toI16 lit)) l else
  if op = 0xd3 then viaP ba_op_cccc (fun ⟨src, dst, lit⟩ => .DivInt16 dst src (toI16 lit)) l else
  if op = 0xd4 then viaP ba_op_cccc (fun ⟨src, dst, lit⟩ => .RemInt16 dst src (toI16 lit)) l else
  if op = 0xd5 then viaP ba_op_cccc (fun ⟨src, dst, lit⟩ => .AndInt16 dst src (toI16 lit)) l else
  if op = 0xd6 then viaP ba_op_cccc (fun ⟨src, dst, lit⟩ => .OrInt16 dst src (toI16 lit)) l else
  if op = 0xd7 then viaP ba_op_cccc (fun ⟨src, dst, lit⟩ => .XorInt16 dst src (toI16 lit)) l else
  if op = 0xd8 then viaP aa_op_ccbb (fun ⟨dst, lit, src⟩ => .AddInt8 dst src (toI8 lit)) l else
  if op = 0xd9 then viaP aa_op_ccbb (fun ⟨dst, lit, src⟩ => .RsubInt8 dst src (toI8 lit)) l else
  if op = 0xda then viaP aa_op_ccbb (fun ⟨dst, lit, src⟩ => .MulInt8 dst src (toI8 lit)) l else
  if op = 0xdb then viaP aa_op_ccbb (fun ⟨dst, lit, src⟩ => .DivInt8 dst src (toI8 lit)) l else
  if op = 0xdc then viaP aa_op_ccbb (fun ⟨dst, lit, src⟩ => .RemInt8 dst src (toI8 lit)) l else
  if op = 0xdd then viaP aa_op_ccbb (fun ⟨dst, lit, src⟩ => .AndInt8 dst src (toI8 lit)) l else
  if op = 0xde then viaP aa_op_ccbb (fun ⟨dst, lit, src⟩ => .OrInt8 dst src (toI8 lit)) l else
  if op = 0xdf then viaP aa_op_ccbb (fun ⟨dst, lit, src⟩ => .XorInt8 dst src (toI8 lit)) l else
  if op = 0xe0 then viaP aa_op_ccbb (fun ⟨dst, lit, src⟩ => .ShlInt8 dst src (toI8 lit)) l else
  if op = 0xe1 then viaP aa_op_ccbb (fun ⟨dst, lit, src⟩ => .ShrInt8 dst src (toI8 lit)) l else
  if op = 0xe2 then viaP aa_op_ccbb (fun ⟨dst, lit, src⟩ => .UshrInt8 dst src (toI8 lit)) l else
  .panic   -- todo!("handle opcode {unk:#x?}")

/-- `decode_one` (decode.rs lines 50-974).  The very first statement of
the source is `let op = bytecode[0] as u8;`, which panics (index out of
bounds) on an empty slice. -/
def decodeOne (l : List Nat) : DResult :=
  match l with
  | [] => .panic   -- bytecode[0] panics on the empty slice
  | w :: _ => decodeTail (asU8 w) l

example : decodeOne [0x0108, 0x001f] = .ok (.MoveObjectFrom16 1 31) [] := rfl
example : decodeOne [0x2071, 0x4455, 0x0030] = .ok (.InvokeStatic 0x4455 2 [0, 3, 0, 0, 0]) [] := rfl
example : decodeOne [0x7b12] = .ok (.Const4 11 7) [] := rfl
example : decodeOne [0x1039, 0x0401] = .ok (.IfNez 16 1025) [] := rfl
example : decodeOne [0x030f] = .ok (.Return 3) [] := rfl
example : decodeOne [0x2054, 0xbeef] = .ok (.IGetObject 0 2 0xbeef) [] := rfl
example : decodeOne [] = .panic := rfl
example : decodeOne [0x003e] = .panic := rfl
example : decodeOne [0x0013] = .err .truncated [0x0013] := rfl
example : decodeOne [0x0100] = .err .truncated [] := rfl
example : decodeOne [0x0300, 2, 3, 0, 17, 18, 19] = .panic := rfl

/-!
## Inversion lemmas for the format primitives

For each primitive: how many units a success consumes, that a failure
is `Truncated`/`Encoding` (never `Metadata`) with a known slice state,
and that a too-short slice yields `Truncated` without consumption.
-/

theorem consume_u16_ok_len (l : List Nat) : ∀ v r, consume_u16 l = .ok v r → l.length = r.length + 1 := by
  intro v r h
  cases l with
  | nil => simp [consume_u16] at h
  | cons a t => simp only [consume_u16, Pr.ok.injEq] at h; simp [h.2]

theorem consume_u16_fail (l : List Nat) : ∀ e r, consume_u16 l = .fail e r → e = .truncated ∧ r = l := by
  intro e r h
  cases l with
  | nil => simp only [consume_u16, Pr.fail.injEq] at h; exact ⟨h.1.symm, h.2.symm⟩
  | cons a t => simp [consume_u16] at h

theorem consume_u16_short (l : List Nat) (h : l.length < 1) : consume_u16 l = .fail .truncated l := by
  cases l with
  | nil => rfl
  | cons a t => simp at h

theorem consume_u32_ok_len (l : List Nat) : ∀ v r, consume_u32 l = .ok v r → l.length = r.length + 2 := by
  intro v r h
  match l with
  | [] => simp [consume_u32] at h
  | [a] => simp [consume_u32] at h
  | a :: b :: t => simp only [consume_u32, Pr.ok.injEq] at h; simp [h.2]

theorem consume_u32_fail (l : List Nat) : ∀ e r, consume_u32 l = .fail e r → e = .truncated ∧ r = l := by
  intro e r h
  match l with
  | [] => simp only [consume_u32, Pr.fail.injEq] at h; exact ⟨h.1.symm, h.2.symm⟩
  | [a] => simp only [consume_u32, Pr.fail.injEq] at h; exact ⟨h.1.symm, h.2.symm⟩
  | a :: b :: t => simp [consume_u32] at h

theorem aa_op_ok_len (l : List Nat) : ∀ v r, aa_op l = .ok v r → l.length = r.length + 1 := by
  intro v r h
  cases l with
  | nil => simp [aa_op] at h
  | cons a t => simp only [aa_op, Pr.ok.injEq] at h; simp [h.2]

theorem aa_op_fail (l : List Nat) : ∀ e r, aa_op l = .fail e r → e = .truncated ∧ r = l := by
  intro e r h
  cases l with
  | nil => simp only [aa_op, Pr.fail.injEq] at h; exact ⟨h.1.symm, h.2.symm⟩
  | cons a t => simp [aa_op] at h

theorem aa_op_short (l : List Nat) (h : l.length < 1) : aa_op l = .fail .truncated l := by
  cases l with
  | nil => rfl
  | cons a t => simp at h

theorem ba_op_ok_len (l : List Nat) : ∀ v r, ba_op l = .ok v r → l.length = r.length + 1 := by
  intro v r h
  unfold ba_op at h
  split at h
  case _ ab rest ha => cases h; exact aa_op_ok_len l _ _ ha
  case _ e rest ha => cases h

theorem ba_op_fail (l : List Nat) : ∀ e r, ba_op l = .fail e r → e = .truncated ∧ r = l := by
  intro e r h
  unfold ba_op at h
  split at h
  case _ ab rest ha => cases h
  case _ e' rest ha => cases h; exact aa_op_fail l _ _ ha

theorem ba_op_short (l : List Nat) (h : l.length < 1) : ba_op l = .fail .truncated l := by
  unfold ba_op
  rw [aa_op_short l h]

/-- Weak failure characterization (no `Metadata`, `Truncated` consumes
nothing) from the strong one. -/
theorem failW_of_strong {α : Type} {P : List Nat → Pr α} {l : List Nat}
    (hs : ∀ e r, P l = .fail e r → e = .truncated ∧ r = l) :
    ∀ e r, P l = .fail e r → (∀ n, e ≠ .metadata n) ∧ (e = .truncated → r = l) := by
  intro e r h
  rcases hs e r h with ⟨he, hr⟩
  subst he
  exact ⟨by simp, fun _ => hr⟩

theorem zz_op_ok_len (l : List Nat) : ∀ v r, zz_op l = .ok v r → l.length = r.length + 1 := by
  intro v r h
  unfold zz_op at h
  split at h
  case _ ab rest ha =>
    split at h
    · cases h
    · cases h; exact aa_op_ok_len l _ _ ha
  case _ e rest ha => cases h

theorem zz_op_failW (l : List Nat) :
    ∀ e r, zz_op l = .fail e r → (∀ n, e ≠ .metadata n) ∧ (e = .truncated → r = l) := by
  intro e r h
  unfold zz_op at h
  split at h
  case _ ab rest ha =>
    split at h
    · cases h; exact ⟨by simp, fun ht => by cases ht⟩
    · cases h
  case _ e' rest ha => cases h; exact (failW_of_strong (aa_op_fail l)) _ _ ha

theorem zz_op_short (l : List Nat) (h : l.length < 1) : zz_op l = .fail .truncated l := by
  unfold zz_op
  rw [aa_op_short l h]

theorem aa_op_bbbb_ok_len (l : List Nat) : ∀ v r, aa_op_bbbb l = .ok v r → l.length = r.length + 2 := by
  intro v r h
  match l with
  | [] => simp [aa_op_bbbb] at h
  | [a] => simp [aa_op_bbbb] at h
  | a :: b :: t => simp only [aa_op_bbbb, Pr.ok.injEq] at h; simp [h.2]

theorem aa_op_bbbb_fail (l : List Nat) : ∀ e r, aa_op_bbbb l = .fail e r → e = .truncated ∧ r = l := by
  intro e r h
  match l with
  | [] => simp only [aa_op_bbbb, Pr.fail.injEq] at h; exact ⟨h.1.symm, h.2.symm⟩
  | [a] => simp only [aa_op_bbbb, Pr.fail.injEq] at h; exact ⟨h.1.symm, h.2.symm⟩
  | a :: b :: t => simp [aa_op_bbbb] at h

theorem aa_op_bbbb_short (l : List Nat) (h : l.length < 2) : aa_op_bbbb l = .fail .truncated l := by
  match l with
  | [] => rfl
  | [a] => rfl
  | a :: b :: t => simp at h; omega

theorem aa_op_ccbb_ok_len (l : List Nat) : ∀ v r, aa_op_ccbb l = .ok v r → l.length = r.length + 2 := by
  intro v r h
  unfold aa_op_ccbb at h
  split at h
  case _ aa ccbb rest ha => cases h; exact aa_op_bbbb_ok_len l _ _ ha
  case _ e rest ha => cases h

theorem aa_op_ccbb_fail (l : List Nat) : ∀ e r, aa_op_ccbb l = .fail e r → e = .truncated ∧ r = l := by
  intro e r h
  unfold aa_op_ccbb at h
  split at h
  case _ aa ccbb rest ha => cases h
  case _ e' rest ha => cases h; exact aa_op_bbbb_fail l _ _ ha

theorem aa_op_ccbb_short (l : List Nat) (h : l.length < 2) : aa_op_ccbb l = .fail .truncated l := by
  unfold aa_op_ccbb
  rw [aa_op_bbbb_short l h]

theorem ba_op_cccc_ok_len (l : List Nat) : ∀ v r, ba_op_cccc l = .ok v r → l.length = r.length + 2 := by
  intro v r h
  unfold ba_op_cccc at h
  split at h
  case _ ba cccc rest ha => cases h; exact aa_op_bbbb_ok_len l _ _ ha
  case _ e rest ha => cases h

theorem ba_op_cccc_fail (l : List Nat) : ∀ e r, ba_op_cccc l = .fail e r → e = .truncated ∧ r = l := by
  intro e r h
  unfold ba_op_cccc at h
  split at h
  case _ ba cccc rest ha => cases h
  case _ e' rest ha => cases h; exact aa_op_bbbb_fail l _ _ ha

theorem ba_op_cccc_short (l : List Nat) (h : l.length < 2) : ba_op_cccc l = .fail .truncated l := by
  unfold ba_op_cccc
  rw [aa_op_bbbb_short l h]

theorem zz_op_aaaa_ok_len (l : List Nat) : ∀ v r, zz_op_aaaa l = .ok v r → l.length = r.length + 2 := by
  intro v r h
  unfold zz_op_aaaa at h
  split at h
  case _ zz aaaa rest ha =>
    split at h
    · cases h
    · cases h; exact aa_op_bbbb_ok_len l _ _ ha
  case _ e rest ha => cases h

theorem zz_op_aaaa_failW (l : List Nat) :
    ∀ e r, zz_op_aaaa l = .fail e r → (∀ n, e ≠ .metadata n) ∧ (e = .truncated → r = l) := by
  intro e r h
  unfold zz_op_aaaa at h
  split at h
  case _ zz aaaa rest ha =>
    split at h
    · cases h; exact ⟨by simp, fun ht => by cases ht⟩
    · cases h
  case _ e' rest ha => cases h; exact (failW_of_strong (aa_op_bbbb_fail l)) _ _ ha

theorem zz_op_aaaa_short (l : List Nat) (h : l.length < 2) : zz_op_aaaa l = .fail .truncated l := by
  unfold zz_op_aaaa
  rw [aa_op_bbbb_short l h]

theorem aa_op_bbbbbbbb_ok_len (l : List Nat) : ∀ v r, aa_op_bbbbbbbb l = .ok v r → l.length = r.length + 3 := by
  intro v r h
  match l with
  | [] => simp [aa_op_bbbbbbbb] at h
  | [a] => simp [aa_op_bbbbbbbb] at h
  | [a, b] => simp [aa_op_bbbbbbbb] at h
  | a :: b :: c :: t => simp only [aa_op_bbbbbbbb, Pr.ok.injEq] at h; simp [h.2]

theorem aa_op_bbbbbbbb_fail (l : List Nat) : ∀ e r, aa_op_bbbbbbbb l = .fail e r → e = .truncated ∧ r = l := by
  intro e r h
  match l with
  | [] => simp only [aa_op_bbbbbbbb, Pr.fail.injEq] at h; exact ⟨h.1.symm, h.2.symm⟩
  | [a] => simp only [aa_op_bbbbbbbb, Pr.fail.injEq] at h; exact ⟨h.1.symm, h.2.symm⟩
  | [a, b] => simp only [aa_op_bbbbbbbb, Pr.fail.injEq] at h; exact ⟨h.1.symm, h.2.symm⟩
  | a :: b :: c :: t => simp [aa_op_bbbbbbbb] at h

theorem aa_op_bbbbbbbb_short (l : List Nat) (h : l.length < 3) : aa_op_bbbbbbbb l = .fail .truncated l := by
  match l with
  | [] => rfl
  | [a] => rfl
  | [a, b] => rfl
  | a :: b :: c :: t => simp at h; omega

theorem zz_op_aaaaaaaa_ok_len (l : List Nat) : ∀ v r, zz_op_aaaaaaaa l = .ok v r → l.length = r.length + 3 := by
  intro v r h
  unfold zz_op_aaaaaaaa at h
  split at h
  case _ zz a8 rest ha =>
    split at h
    · cases h
    · cases h; exact aa_op_bbbbbbbb_ok_len l _ _ ha
  case _ e rest ha => cases h

theorem zz_op_aaaaaaaa_failW (l : List Nat) :
    ∀ e r, zz_op_aaaaaaaa l = .fail e r → (∀ n, e ≠ .metadata n) ∧ (e = .truncated → r = l) := by
  intro e r h
  unfold zz_op_aaaaaaaa at h
  split at h
  case _ zz a8 rest ha =>
    split at h
    · cases h; exact ⟨by simp, fun ht => by cases ht⟩
    · cases h
  case _ e' rest ha => cases h; exact (failW_of_strong (aa_op_bbbbbbbb_fail l)) _ _ ha

theorem zz_op_aaaaaaaa_short (l : List Nat) (h : l.length < 3) : zz_op_aaaaaaaa l = .fail .truncated l := by
  unfold zz_op_aaaaaaaa
  rw [aa_op_bbbbbbbb_short l h]

theorem aa_op_ccccbbbb_ok_len (l : List Nat) : ∀ v r, aa_op_ccccbbbb l = .ok v r → l.length = r.length + 3 := by
  intro v r h
  unfold aa_op_ccccbbbb at h
  split at h
  case _ aa cb rest ha => cases h; exact aa_op_bbbbbbbb_ok_len l _ _ ha
  case _ e rest ha => cases h

theorem aa_op_ccccbbbb_fail (l : List Nat) : ∀ e r, aa_op_ccccbbbb l = .fail e r → e = .truncated ∧ r = l := by
  intro e r h
  unfold aa_op_ccccbbbb at h
  split at h
  case _ aa cb rest ha => cases h
  case _ e' rest ha => cases h; exact aa_op_bbbbbbbb_fail l _ _ ha

theorem aa_op_ccccbbbb_short (l : List Nat) (h : l.length < 3) : aa_op_ccccbbbb l = .fail .truncated l := by
  unfold aa_op_ccccbbbb
  rw [aa_op_bbbbbbbb_short l h]

theorem ag_op_bbbbfedc_ok_len (l : List Nat) : ∀ v r, ag_op_bbbbfedc l = .ok v r → l.length = r.length + 3 := by
  intro v r h
  match l with
  | [] => simp [ag_op_bbbbfedc] at h
  | [a] => simp [ag_op_bbbbfedc] at h
  | [a, b] => simp [ag_op_bbbbfedc] at h
  | a :: b :: c :: t => simp only [ag_op_bbbbfedc, Pr.ok.injEq] at h; simp [h.2]

theorem ag_op_bbbbfedc_fail (l : List Nat) : ∀ e r, ag_op_bbbbfedc l = .fail e r → e = .truncated ∧ r = l := by
  intro e r h
  match l with
  | [] => simp only [ag_op_bbbbfedc, Pr.fail.injEq] at h; exact ⟨h.1.symm, h.2.symm⟩
  | [a] => simp only [ag_op_bbbbfedc, Pr.fail.injEq] at h; exact ⟨h.1.symm, h.2.symm⟩
  | [a, b] => simp only [ag_op_bbbbfedc, Pr.fail.injEq] at h; exact ⟨h.1.symm, h.2.symm⟩
  | a :: b :: c :: t => simp [ag_op_bbbbfedc] at h

theorem ag_op_bbbbfedc_short (l : List Nat) (h : l.length < 3) : ag_op_bbbbfedc l = .fail .truncated l := by
  match l with
  | [] => rfl
  | [a] => rfl
  | [a, b] => rfl
  | a :: b :: c :: t => simp at h; omega

theorem zz_op_aaaabbbb_ok_len (l : List Nat) : ∀ v r, zz_op_aaaabbbb l = .ok v r → l.length = r.length + 3 := by
  intro v r h
  unfold zz_op_aaaabbbb at h
  split at h
  case _ zz aaaa bbbb rest ha =>
    split at h
    · cases h
    · cases h; exact aa_op_ccccbbbb_ok_len l _ _ ha
  case _ e rest ha => cases h

theorem zz_op_aaaabbbb_failW (l : List Nat) :
    ∀ e r, zz_op_aaaabbbb l = .fail e r → (∀ n, e ≠ .metadata n) ∧ (e = .truncated → r = l) := by
  intro e r h
  unfold zz_op_aaaabbbb at h
  split at h
  case _ zz aaaa bbbb rest ha =>
    split at h
    · cases h; exact ⟨by simp, fun ht => by cases ht⟩
    · cases h
  case _ e' rest ha => cases h; exact (failW_of_strong (aa_op_ccccbbbb_fail l)) _ _ ha

theorem zz_op_aaaabbbb_short (l : List Nat) (h : l.length < 3) : zz_op_aaaabbbb l = .fail .truncated l := by
  unfold zz_op_aaaabbbb
  rw [aa_op_ccccbbbb_short l h]

theorem aa_op_b16_ok_len (l : List Nat) : ∀ v r, aa_op_bbbbbbbbbbbbbbbb l = .ok v r → l.length = r.length + 5 := by
  intro v r h
  match l with
  | [] => simp [aa_op_bbbbbbbbbbbbbbbb] at h
  | [a] => simp [aa_op_bbbbbbbbbbbbbbbb] at h
  | [a, b] => simp [aa_op_bbbbbbbbbbbbbbbb] at h
  | [a, b, c] => simp [aa_op_bbbbbbbbbbbbbbbb] at h
  | [a, b, c, d] => simp [aa_op_bbbbbbbbbbbbbbbb] at h
  | a :: b :: c :: d :: e :: t => simp only [aa_op_bbbbbbbbbbbbbbbb, Pr.ok.injEq] at h; simp [h.2]

theorem aa_op_b16_fail (l : List Nat) : ∀ e r, aa_op_bbbbbbbbbbbbbbbb l = .fail e r → e = .truncated ∧ r = l := by
  intro e r h
  match l with
  | [] => simp only [aa_op_bbbbbbbbbbbbbbbb, Pr.fail.injEq] at h; exact ⟨h.1.symm, h.2.symm⟩
  | [a] => simp only [aa_op_bbbbbbbbbbbbbbbb, Pr.fail.injEq] at h; exact ⟨h.1.symm, h.2.symm⟩
  | [a, b] => simp only [aa_op_bbbbbbbbbbbbbbbb, Pr.fail.injEq] at h; exact ⟨h.1.symm, h.2.symm⟩
  | [a, b, c] => simp only [aa_op_bbbbbbbbbbbbbbbb, Pr.fail.injEq] at h; exact ⟨h.1.symm, h.2.symm⟩
  | [a, b, c, d] => simp only [aa_op_bbbbbbbbbbbbbbbb, Pr.fail.injEq] at h; exact ⟨h.1.symm, h.2.symm⟩
  | a :: b :: c :: d :: e' :: t => simp [aa_op_bbbbbbbbbbbbbbbb] at h

theorem aa_op_b16_short (l : List Nat) (h : l.length < 5) : aa_op_bbbbbbbbbbbbbbbb l = .fail .truncated l := by
  match l with
  | [] => rfl
  | [a] => rfl
  | [a, b] => rfl
  | [a, b, c] => rfl
  | [a, b, c, d] => rfl
  | a :: b :: c :: d :: e :: t => simp at h; omega

theorem viaP_len {α : Type} {prim : List Nat → Pr α} {mk : α → Instruction} {l : List Nat}
    {i : Instruction} {rest : List Nat} {k : Nat}
    (hp : ∀ v r, prim l = .ok v r → l.length = r.length + k)
    (h : viaP prim mk l = .ok i rest)
    (hk : ∀ v, instLen (mk v) = k) : instLen i + rest.length = l.length := by
  unfold viaP at h
  split at h
  case _ v r hpr => have hcons := hp v r hpr; cases h; rw [hk v]; omega
  case _ e r hpr => cases h

theorem nopArm_ok (l : List Nat) :
    ∀ i rest, nopArm l = .ok i rest → i = .Nop ∧ l.length = rest.length + 1 := by
  intro i rest h
  unfold nopArm at h
  split at h
  case _ e r ha => cases h
  case _ aa r1 ha =>
    split_ifs at h with h0 h1 h2 h3
    · cases h; exact ⟨rfl, aa_op_ok_len l _ _ ha⟩
    all_goals repeat' (split at h)
    all_goals cases h


/-- The number of code units the format primitive of each mapped opcode
requires before it can succeed (1, 2, 3 or 5); unmapped opcodes give 0.
Follows the dispatch of `decode_one` arm by arm. -/
def minLen (op : Nat) : Nat :=
  if op = 0x0 then 1 else
  if op = 0x1 then 1 else
  if op = 0x2 then 2 else
  if op = 0x3 then 3 else
  if op = 0x4 then 1 else
  if op = 0x5 then 2 else
  if op = 0x6 then 3 else
  if op = 0x7 then 1 else
  if op = 0x8 then 2 else
  if op = 0x9 then 3 else
  if op = 0xa then 1 else
  if op = 0xb then 1 else
  if op = 0xc then 1 else
  if op = 0xd then 1 else
  if op = 0xe then 1 else
  if op = 0xf then 1 else
  if op = 0x10 then 1 else
  if op = 0x11 then 1 else
  if op = 0x12 then 1 else
  if op = 0x13 then 2 else
  if op = 0x14 then 3 else
  if op = 0x15 then 2 else
  if op = 0x16 then 2 else
  if op = 0x17 then 3 else
  if op = 0x18 then 5 else
  if op = 0x19 then 2 else
  if op = 0x1a then 2 else
  if op = 0x1b then 3 else
  if op = 0x1c then 2 else
  if op = 0x1d then 1 else
  if op = 0x1e then 1 else
  if op = 0x1f then 2 else
  if op = 0x20 then 2 else
  if op = 0x21 then 1 else
  if op = 0x22 then 2 else
  if op = 0x23 then 2 else
  if op = 0x24 then 3 else
  if op = 0x25 then 3 else
  if op = 0x26 then 3 else
  if op = 0x27 then 1 else
  if op = 0x28 then 1 else
  if op = 0x29 then 2 else
  if op = 0x2a then 3 else
  if op = 0x2b then 3 else
  if op = 0x2c then 3 else
  if op = 0x2d then 2 else
  if op = 0x2e then 2 else
  if op = 0x2f then 2 else
  if op = 0x30 then 2 else
  if op = 0x31 then 2 else
  if op = 0x32 then 2 else
  if op = 0x33 then 2 else
  if op = 0x34 then 2 else
  if op = 0x35 then 2 else
  if op = 0x36 then 2 else
  if op = 0x37 then 2 else
  if op = 0x38 then 2 else
  if op = 0x39 then 2 else
  if op = 0x3a then 2 else
  if op = 0x3b then 2 else
  if op = 0x3c then 2 else
  if op = 0x3d then 2 else
  if op = 0x44 then 2 else
  if op = 0x45 then 2 else
  if op = 0x46 then 2 else
  if op = 0x47 then 2 else
  if op = 0x48 then 2 else
  if op = 0x49 then 2 else
  if op = 0x4a then 2 else
  if op = 0x4b then 2 else
  if op = 0x4c then 2 else
  if op = 0x4d then 2 else
  if op = 0x4e then 2 else
  if op = 0x4f then 2 else
  if op = 0x50 then 2 else
  if op = 0x51 then 2 else
  if op = 0x52 then 2 else
  if op = 0x53 then 2 else
  if op = 0x54 then 2 else
  if op = 0x55 then 2 else
  if op = 0x56 then 2 else
  if op = 0x57 then 2 else
  if op = 0x58 then 2 else
  if op = 0x59 then 2 else
  if op = 0x5a then 2 else
  if op = 0x5b then 2 else
  if op = 0x5c then 2 else
  if op = 0x5d then 2 else
  if op = 0x5e then 2 else
  if op = 0x5f then 2 else
  if op = 0x60 then 2 else
  if op = 0x61 then 2 else
  if op = 0x62 then 2 else
  if op = 0x63 then 2 else
  if op = 0x64 then 2 else
  if op = 0x65 then 2 else
  if op = 0x66 then 2 else
  if op = 0x67 then 2 else
  if op = 0x68 then 2 else
  if op = 0x69 then 2 else
  if op = 0x6a then 2 else
  if op = 0x6b then 2 else
  if op = 0x6c then 2 else
  if op = 0x6d then 2 else
  if op = 0x6e then 3 else
  if op = 0x6f then 3 else
  if op = 0x70 then 3 else
  if op = 0x71 then 3 else
  if op = 0x72 then 3 else
  if op = 0x74 then 3 else
  if op = 0x75 then 3 else
  if op = 0x76 then 3 else
  if op = 0x77 then 3 else
  if op = 0x78 then 3 else
  if op = 0x7b then 1 else
  if op = 0x7c then 1 else
  if op = 0x7d then 1 else
  if op = 0x7e then 1 else
  if op = 0x7f then 1 else
  if op = 0x80 then 1 else
  if op = 0x81 then 1 else
  if op = 0x82 then 1 else
  if op = 0x83 then 1 else
  if op = 0x84 then 1 else
  if op = 0x85 then 1 else
  if op = 0x86 then 1 else
  if op = 0x87 then 1 else
  if op = 0x88 then 1 else
  if op = 0x89 then 1 else
  if op = 0x8a then 1 else
  if op = 0x8b then 1 else
  if op = 0x8c then 1 else
  if op = 0x8d then 1 else
  if op = 0x8e then 1 else
  if op = 0x8f then 1 else
  if op = 0x90 then 2 else
  if op = 0x91 then 2 else
  if op = 0x92 then 2 else
  if op = 0x93 then 2 else
  if op = 0x94 then 2 else
  if op = 0x95 then 2 else
  if op = 0x96 then 2 else
  if op = 0x97 then 2 else
  if op = 0x98 then 2 else
  if op = 0x99 then 2 else
  if op = 0x9a then 2 else
  if op = 0x9b then 2 else
  if op = 0x9c then 2 else
  if op = 0x9d then 2 else
  if op = 0x9e then 2 else
  if op = 0x9f then 2 else
  if op = 0xa0 then 2 else
  if op = 0xa1 then 2 else
  if op = 0xa2 then 2 else
  if op = 0xa3 then 2 else
  if op = 0xa4 then 2 else
  if op = 0xa5 then 2 else
  if op = 0xa6 then 2 else
  if op = 0xa7 then 2 else
  if op = 0xa8 then 2 else
  if op = 0xa9 then 2 else
  if op = 0xaa then 2 else
  if op = 0xab then 2 else
  if op = 0xac then 2 else
  if op = 0xad then 2 else
  if op = 0xae then 2 else
  if op = 0xaf then 2 else
  if op = 0xb0 then 1 else
  if op = 0xb1 then 1 else
  if op = 0xb2 then 1 else
  if op = 0xb3 then 1 else
  if op = 0xb4 then 1 else
  if op = 0xb5 then 1 else
  if op = 0xb6 then 1 else
  if op = 0xb7 then 1 else
  if op = 0xb8 then 1 else
  if op = 0xb9 then 1 else
  if op = 0xba then 1 else
  if op = 0xbb then 1 else
  if op = 0xbc then 1 else
  if op = 0xbd then 1 else
  if op = 0xbe then 1 else
  if op = 0xbf then 1 else
  if op = 0xc0 then 1 else
  if op = 0xc1 then 1 else
  if op = 0xc2 then 1 else
  if op = 0xc3 then 1 else
  if op = 0xc4 then 1 else
  if op = 0xc5 then 1 else
  if op = 0xc6 then 1 else
  if op = 0xc7 then 1 else
  if op = 0xc8 then 1 else
  if op = 0xc9 then 1 else
  if op = 0xca then 1 else
  if op = 0xcb then 1 else
  if op = 0xcc then 1 else
  if op = 0xcd then 1 else
  if op = 0xce then 1 else
  if op = 0xcf then 1 else
  if op = 0xd0 then 2 else
  if op = 0xd1 then 2 else
  if op = 0xd2 then 2 else
  if op = 0xd3 then 2 else
  if op = 0xd4 then 2 else
  if op = 0xd5 then 2 else
  if op = 0xd6 then 2 else
  if op = 0xd7 then 2 else
  if op = 0xd8 then 2 else
  if op = 0xd9 then 2 else
  if op = 0xda then 2 else
  if op = 0xdb then 2 else
  if op = 0xdc then 2 else
  if op = 0xdd then 2 else
  if op = 0xde then 2 else
  if op = 0xdf then 2 else
  if op = 0xe0 then 2 else
  if op = 0xe1 then 2 else
  if op = 0xe2 then 2 else
  0

theorem viaP_err {α : Type} {prim : List Nat → Pr α} {mk : α → Instruction} {l : List Nat}
    {e : DError} {rest : List Nat} (h : viaP prim mk l = .err e rest) : prim l = .fail e rest := by
  unfold viaP at h
  split at h
  case _ v r hpr => cases h
  case _ e' r hpr => cases h; exact hpr

theorem viaP_errW {α : Type} {prim : List Nat → Pr α} {mk : α → Instruction} {l : List Nat}
    {e : DError} {rest : List Nat}
    (hw : ∀ e r, prim l = .fail e r → (∀ n, e ≠ .metadata n) ∧ (e = .truncated → r = l))
    (h : viaP prim mk l = .err e rest) :
    (∀ n, e ≠ .metadata n) ∧ (e = .truncated → rest = l) :=
  hw _ _ (viaP_err h)

theorem viaP_short {α : Type} {prim : List Nat → Pr α} {mk : α → Instruction} {l : List Nat}
    (hp : prim l = .fail .truncated l) : viaP prim mk l = .err .truncated l := by
  unfold viaP; rw [hp]

theorem nopArm_errW (l : List Nat) :
    ∀ e rest, nopArm l = .err e rest → ∀ n, e ≠ .metadata n := by
  intro e rest h n hn
  subst hn
  unfold nopArm at h
  repeat' (split at h)
  all_goals first
    | (cases h; done)
    | (cases h; rename_i heq; exact DError.noConfusion (consume_u16_fail _ _ _ heq).1)
    | (cases h; rename_i heq; exact DError.noConfusion (consume_u32_fail _ _ _ heq).1)
    | (cases h; rename_i heq; exact DError.noConfusion (aa_op_fail _ _ _ heq).1)

set_option maxHeartbeats 8000000 in
/-- For every opcode byte, a successful decode's declared instruction
length matches the units its format primitive consumed. -/
theorem decodeTail_len (op : Nat) (hop : op < 256) (l : List Nat) :
    ∀ i rest, decodeTail op l = .ok i rest → instLen i + rest.length = l.length := by
  intro i rest h
  interval_cases op
  · obtain ⟨hi, hl⟩ := nopArm_ok _ i rest h; subst hi; simp only [instLen]; omega
  · exact viaP_len (ba_op_ok_len _) h (fun ⟨a, b⟩ => rfl)
  · exact viaP_len (aa_op_bbbb_ok_len _) h (fun ⟨a, b⟩ => rfl)
  · exact viaP_len (zz_op_aaaabbbb_ok_len _) h (fun ⟨a, b⟩ => rfl)
  · exact viaP_len (ba_op_ok_len _) h (fun ⟨a, b⟩ => rfl)
  · exact viaP_len (aa_op_bbbb_ok_len _) h (fun ⟨a, b⟩ => rfl)
  · exact viaP_len (zz_op_aaaabbbb_ok_len _) h (fun ⟨a, b⟩ => rfl)
  · exact viaP_len (ba_op_ok_len _) h (fun ⟨a, b⟩ => rfl)
  · exact viaP_len (aa_op_bbbb_ok_len _) h (fun ⟨a, b⟩ => rfl)
  · exact viaP_len (zz_op_aaaabbbb_ok_len _) h (fun ⟨a, b⟩ => rfl)
  · exact viaP_len (aa_op_ok_len _) h (fun v => rfl)
  · exact viaP_len (aa_op_ok_len _) h (fun v => rfl)
  · exact viaP_len (aa_op_ok_len _) h (fun v => rfl)
  · exact viaP_len (aa_op_ok_len _) h (fun v => rfl)
  · exact viaP_len (zz_op_ok_len _) h (fun v => rfl)
  · exact viaP_len (aa_op_ok_len _) h (fun v => rfl)
  · exact viaP_len (aa_op_ok_len _) h (fun v => rfl)
  · exact viaP_len (aa_op_ok_len _) h (fun v => rfl)
  · exact viaP_len (ba_op_ok_len _) h (fun ⟨a, b⟩ => rfl)
  · exact viaP_len (aa_op_bbbb_ok_len _) h (fun ⟨a, b⟩ => rfl)
  · exact viaP_len (aa_op_bbbbbbbb_ok_len _) h (fun ⟨a, b⟩ => rfl)
  · exact viaP_len (aa_op_bbbb_ok_len _) h (fun ⟨a, b⟩ => rfl)
  · exact viaP_len (aa_op_bbbb_ok_len _) h (fun ⟨a, b⟩ => rfl)
  · exact viaP_len (aa_op_bbbbbbbb_ok_len _) h (fun ⟨a, b⟩ => rfl)
  · exact viaP_len (aa_op_b16_ok_len _) h (fun ⟨a, b⟩ => rfl)
  · exact viaP_len (aa_op_bbbb_ok_len _) h (fun ⟨a, b⟩ => rfl)
  · exact viaP_len (aa_op_bbbb_ok_len _) h (fun ⟨a, b⟩ => rfl)
  · exact viaP_len (aa_op_bbbbbbbb_ok_len _) h (fun ⟨a, b⟩ => rfl)
  · exact viaP_len (aa_op_bbbb_ok_len _) h (fun ⟨a, b⟩ => rfl)
  · exact viaP_len (aa_op_ok_len _) h (fun v => rfl)
  · exact viaP_len (aa_op_ok_len _) h (fun v => rfl)
  · exact viaP_len (aa_op_bbbb_ok_len _) h (fun ⟨a, b⟩ => rfl)
  · exact viaP_len (ba_op_cccc_ok_len _) h (fun ⟨a, b, c⟩ => rfl)
  · exact viaP_len (ba_op_ok_len _) h (fun ⟨a, b⟩ => rfl)
  · exact viaP_len (aa_op_bbbb_ok_len _) h (fun ⟨a, b⟩ => rfl)
  · exact viaP_len (ba_op_cccc_ok_len _) h (fun ⟨a, b, c⟩ => rfl)
  · exact viaP_len (ag_op_bbbbfedc_ok_len _) h (fun ⟨a, g, m, f, e, d, c⟩ => rfl)
  · exact viaP_len (aa_op_ccccbbbb_ok_len _) h (fun ⟨a, b, c⟩ => rfl)
  · exact viaP_len (aa_op_bbbbbbbb_ok_len _) h (fun ⟨a, b⟩ => rfl)
  · exact viaP_len (aa_op_ok_len _) h (fun v => rfl)
  · exact viaP_len (aa_op_ok_len _) h (fun v => rfl)
  · exact viaP_len (zz_op_aaaa_ok_len _) h (fun v => rfl)
  · exact viaP_len (zz_op_aaaaaaaa_ok_len _) h (fun v => rfl)
  · exact viaP_len (aa_op_bbbbbbbb_ok_len _) h (fun ⟨a, b⟩ => rfl)
  · exact viaP_len (aa_op_bbbbbbbb_ok_len _) h (fun ⟨a, b⟩ => rfl)
  · exact viaP_len (aa_op_ccbb_ok_len _) h (fun ⟨a, b, c⟩ => rfl)
  · exact viaP_len (aa_op_ccbb_ok_len _) h (fun ⟨a, b, c⟩ => rfl)
  · exact viaP_len (aa_op_ccbb_ok_len _) h (fun ⟨a, b, c⟩ => rfl)
  · exact viaP_len (aa_op_ccbb_ok_len _) h (fun ⟨a, b, c⟩ => rfl)
  · exact viaP_len (aa_op_ccbb_ok_len _) h (fun ⟨a, b, c⟩ => rfl)
  · exact viaP_len (ba_op_cccc_ok_len _) h (fun ⟨a, b, c⟩ => rfl)
  · exact viaP_len (ba_op_cccc_ok_len _) h (fun ⟨a, b, c⟩ => rfl)
  · exact viaP_len (ba_op_cccc_ok_len _) h (fun ⟨a, b, c⟩ => rfl)
  · exact viaP_len (ba_op_cccc_ok_len _) h (fun ⟨a, b, c⟩ => rfl)
  · exact viaP_len (ba_op_cccc_ok_len _) h (fun ⟨a, b, c⟩ => rfl)
  · exact viaP_len (ba_op_cccc_ok_len _) h (fun ⟨a, b, c⟩ => rfl)
  · exact viaP_len (aa_op_bbbb_ok_len _) h (fun ⟨a, b⟩ => rfl)
  · exact viaP_len (aa_op_bbbb_ok_len _) h (fun ⟨a, b⟩ => rfl)
  · exact viaP_len (aa_op_bbbb_ok_len _) h (fun ⟨a, b⟩ => rfl)
  · exact viaP_len (aa_op_bbbb_ok_len _) h (fun ⟨a, b⟩ => rfl)
  · exact viaP_len (aa_op_bbbb_ok_len _) h (fun ⟨a, b⟩ => rfl)
  · exact viaP_len (aa_op_bbbb_ok_len _) h (fun ⟨a, b⟩ => rfl)
  · exact DResult.noConfusion h
  · exact DResult.noConfusion h
  · exact DResult.noConfusion h
  · exact DResult.noConfusion h
  · exact DResult.noConfusion h
  · exact DResult.noConfusion h
  · exact viaP_len (aa_op_ccbb_ok_len _) h (fun ⟨a, b, c⟩ => rfl)
  · exact viaP_len (aa_op_ccbb_ok_len _) h (fun ⟨a, b, c⟩ => rfl)
  · exact viaP_len (aa_op_ccbb_ok_len _) h (fun ⟨a, b, c⟩ => rfl)
  · exact viaP_len (aa_op_ccbb_ok_len _) h (fun ⟨a, b, c⟩ => rfl)
  · exact viaP_len (aa_op_ccbb_ok_len _) h (fun ⟨a, b, c⟩ => rfl)
  · exact viaP_len (aa_op_ccbb_ok_len _) h (fun ⟨a, b, c⟩ => rfl)
  · exact viaP_len (aa_op_ccbb_ok_len _) h (fun ⟨a, b, c⟩ => rfl)
  · exact viaP_len (aa_op_ccbb_ok_len _) h (fun ⟨a, b, c⟩ => rfl)
  · exact viaP_len (aa_op_ccbb_ok_len _) h (fun ⟨a, b, c⟩ => rfl)
  · exact viaP_len (aa_op_ccbb_ok_len _) h (fun ⟨a, b, c⟩ => rfl)
  · exact viaP_len (aa_op_ccbb_ok_len _) h (fun ⟨a, b, c⟩ => rfl)
  · exact viaP_len (aa_op_ccbb_ok_len _) h (fun ⟨a, b, c⟩ => rfl)
  · exact viaP_len (aa_op_ccbb_ok_len _) h (fun ⟨a, b, c⟩ => rfl)
  · exact viaP_len (aa_op_ccbb_ok_len _) h (fun ⟨a, b, c⟩ => rfl)
  · exact viaP_len (ba_op_cccc_ok_len _) h (fun ⟨a, b, c⟩ => rfl)
  · exact viaP_len (ba_op_cccc_ok_len _) h (fun ⟨a, b, c⟩ => rfl)
  · exact viaP_len (ba_op_cccc_ok_len _) h (fun ⟨a, b, c⟩ => rfl)
  · exact viaP_len (ba_op_cccc_ok_len _) h (fun ⟨a, b, c⟩ => rfl)
  · exact viaP_len (ba_op_cccc_ok_len _) h (fun ⟨a, b, c⟩ => rfl)
  · exact viaP_len (ba_op_cccc_ok_len _) h (fun ⟨a, b, c⟩ => rfl)
  · exact viaP_len (ba_op_cccc_ok_len _) h (fun ⟨a, b, c⟩ => rfl)
  · exact viaP_len (ba_op_cccc_ok_len _) h (fun ⟨a, b, c⟩ => rfl)
  · exact viaP_len (ba_op_cccc_ok_len _) h (fun ⟨a, b, c⟩ => rfl)
  · exact viaP_len (ba_op_cccc_ok_len _) h (fun ⟨a, b, c⟩ => rfl)
  · exact viaP_len (ba_op_cccc_ok_len _) h (fun ⟨a, b, c⟩ => rfl)
  · exact viaP_len (ba_op_cccc_ok_len _) h (fun ⟨a, b, c⟩ => rfl)
  · exact viaP_len (ba_op_cccc_ok_len _) h (fun ⟨a, b, c⟩ => rfl)
  · exact viaP_len (ba_op_cccc_ok_len _) h (fun ⟨a, b, c⟩ => rfl)
  · exact viaP_len (aa_op_bbbb_ok_len _) h (fun ⟨a, b⟩ => rfl)
  · exact viaP_len (aa_op_bbbb_ok_len _) h (fun ⟨a, b⟩ => rfl)
  · exact viaP_len (aa_op_bbbb_ok_len _) h (fun ⟨a, b⟩ => rfl)
  · exact viaP_len (aa_op_bbbb_ok_len _) h (fun ⟨a, b⟩ => rfl)
  · exact viaP_len (aa_op_bbbb_ok_len _) h (fun ⟨a, b⟩ => rfl)
  · exact viaP_len (aa_op_bbbb_ok_len _) h (fun ⟨a, b⟩ => rfl)
  · exact viaP_len (aa_op_bbbb_ok_len _) h (fun ⟨a, b⟩ => rfl)
  · exact viaP_len (aa_op_bbbb_ok_len _) h (fun ⟨a, b⟩ => rfl)
  · exact viaP_len (aa_op_bbbb_ok_len _) h (fun ⟨a, b⟩ => rfl)
  · exact viaP_len (aa_op_bbbb_ok_len _) h (fun ⟨a, b⟩ => rfl)
  · exact viaP_len (aa_op_bbbb_ok_len _) h (fun ⟨a, b⟩ => rfl)
  · exact viaP_len (aa_op_bbbb_ok_len _) h (fun ⟨a, b⟩ => rfl)
  · exact viaP_len (aa_op_bbbb_ok_len _) h (fun ⟨a, b⟩ => rfl)
  · exact viaP_len (aa_op_bbbb_ok_len _) h (fun ⟨a, b⟩ => rfl)
  · exact viaP_len (ag_op_bbbbfedc_ok_len _) h (fun ⟨a, g, m, f, e, d, c⟩ => rfl)
  · exact viaP_len (ag_op_bbbbfedc_ok_len _) h (fun ⟨a, g, m, f, e, d, c⟩ => rfl)
  · exact viaP_len (ag_op_bbbbfedc_ok_len _) h (fun ⟨a, g, m, f, e, d, c⟩ => rfl)
  · exact viaP_len (ag_op_bbbbfedc_ok_len _) h (fun ⟨a, g, m, f, e, d, c⟩ => rfl)
  · exact viaP_len (ag_op_bbbbfedc_ok_len _) h (fun ⟨a, g, m, f, e, d, c⟩ => rfl)
  · exact DResult.noConfusion h
  · exact viaP_len (aa_op_ccccbbbb_ok_len _) h (fun ⟨a, b, c⟩ => rfl)
  · exact viaP_len (aa_op_ccccbbbb_ok_len _) h (fun ⟨a, b, c⟩ => rfl)
  · exact viaP_len (aa_op_ccccbbbb_ok_len _) h (fun ⟨a, b, c⟩ => rfl)
  · exact viaP_len (aa_op_ccccbbbb_ok_len _) h (fun ⟨a, b, c⟩ => rfl)
  · exact viaP_len (aa_op_ccccbbbb_ok_len _) h (fun ⟨a, b, c⟩ => rfl)
  · exact DResult.noConfusion h
  · exact DResult.noConfusion h
  · exact viaP_len (ba_op_ok_len _) h (fun ⟨a, b⟩ => rfl)
  · exact viaP_len (ba_op_ok_len _) h (fun ⟨a, b⟩ => rfl)
  · exact viaP_len (ba_op_ok_len _) h (fun ⟨a, b⟩ => rfl)
  · exact viaP_len (ba_op_ok_len _) h (fun ⟨a, b⟩ => rfl)
  · exact viaP_len (ba_op_ok_len _) h (fun ⟨a, b⟩ => rfl)
  · exact viaP_len (ba_op_ok_len _) h (fun ⟨a, b⟩ => rfl)
  · exact viaP_len (ba_op_ok_len _) h (fun ⟨a, b⟩ => rfl)
  · exact viaP_len (ba_op_ok_len _) h (fun ⟨a, b⟩ => rfl)
  · exact viaP_len (ba_op_ok_len _) h (fun ⟨a, b⟩ => rfl)
  · exact viaP_len (ba_op_ok_len _) h (fun ⟨a, b⟩ => rfl)
  · exact viaP_len (ba_op_ok_len _) h (fun ⟨a, b⟩ => rfl)
  · exact viaP_len (ba_op_ok_len _) h (fun ⟨a, b⟩ => rfl)
  · exact viaP_len (ba_op_ok_len _) h (fun ⟨a, b⟩ => rfl)
  · exact viaP_len (ba_op_ok_len _) h (fun ⟨a, b⟩ => rfl)
  · exact viaP_len (ba_op_ok_len _) h (fun ⟨a, b⟩ => rfl)
  · exact viaP_len (ba_op_ok_len _) h (fun ⟨a, b⟩ => rfl)
  · exact viaP_len (ba_op_ok_len _) h (fun ⟨a, b⟩ => rfl)
  · exact viaP_len (ba_op_ok_len _) h (fun ⟨a, b⟩ => rfl)
  · exact viaP_len (ba_op_ok_len _) h (fun ⟨a, b⟩ => rfl)
  · exact viaP_len (ba_op_ok_len _) h (fun ⟨a, b⟩ => rfl)
  · exact viaP_len (ba_op_ok_len _) h (fun ⟨a, b⟩ => rfl)
  · exact viaP_len (aa_op_ccbb_ok_len _) h (fun ⟨a, b, c⟩ => rfl)
  · exact viaP_len (aa_op_ccbb_ok_len _) h (fun ⟨a, b, c⟩ => rfl)
  · exact viaP_len (aa_op_ccbb_ok_len _) h (fun ⟨a, b, c⟩ => rfl)
  · exact viaP_len (aa_op_ccbb_ok_len _) h (fun ⟨a, b, c⟩ => rfl)
  · exact viaP_len (aa_op_ccbb_ok_len _) h (fun ⟨a, b, c⟩ => rfl)
  · exact viaP_len (aa_op_ccbb_ok_len _) h (fun ⟨a, b, c⟩ => rfl)
  · exact viaP_len (aa_op_ccbb_ok_len _) h (fun ⟨a, b, c⟩ => rfl)
  · exact viaP_len (aa_op_ccbb_ok_len _) h (fun ⟨a, b, c⟩ => rfl)
  · exact viaP_len (aa_op_ccbb_ok_len _) h (fun ⟨a, b, c⟩ => rfl)
  · exact viaP_len (aa_op_ccbb_ok_len _) h (fun ⟨a, b, c⟩ => rfl)
  · exact viaP_len (aa_op_ccbb_ok_len _) h (fun ⟨a, b, c⟩ => rfl)
  · exact viaP_len (aa_op_ccbb_ok_len _) h (fun ⟨a, b, c⟩ => rfl)
  · exact viaP_len (aa_op_ccbb_ok_len _) h (fun ⟨a, b, c⟩ => rfl)
  · exact viaP_len (aa_op_ccbb_ok_len _) h (fun ⟨a, b, c⟩ => rfl)
  · exact viaP_len (aa_op_ccbb_ok_len _) h (fun ⟨a, b, c⟩ => rfl)
  · exact viaP_len (aa_op_ccbb_ok_len _) h (fun ⟨a, b, c⟩ => rfl)
  · exact viaP_len (aa_op_ccbb_ok_len _) h (fun ⟨a, b, c⟩ => rfl)
  · exact viaP_len (aa_op_ccbb_ok_len _) h (fun ⟨a, b, c⟩ => rfl)
  · exact viaP_len (aa_op_ccbb_ok_len _) h (fun ⟨a, b, c⟩ => rfl)
  · exact viaP_len (aa_op_ccbb_ok_len _) h (fun ⟨a, b, c⟩ => rfl)
  · exact viaP_len (aa_op_ccbb_ok_len _) h (fun ⟨a, b, c⟩ => rfl)
  · exact viaP_len (aa_op_ccbb_ok_len _) h (fun ⟨a, b, c⟩ => rfl)
  · exact viaP_len (aa_op_ccbb_ok_len _) h (fun ⟨a, b, c⟩ => rfl)
  · exact viaP_len (aa_op_ccbb_ok_len _) h (fun ⟨a, b, c⟩ => rfl)
  · exact viaP_len (aa_op_ccbb_ok_len _) h (fun ⟨a, b, c⟩ => rfl)
  · exact viaP_len (aa_op_ccbb_ok_len _) h (fun ⟨a, b, c⟩ => rfl)
  · exact viaP_len (aa_op_ccbb_ok_len _) h (fun ⟨a, b, c⟩ => rfl)
  · exact viaP_len (aa_op_ccbb_ok_len _) h (fun ⟨a, b, c⟩ => rfl)
  · exact viaP_len (aa_op_ccbb_ok_len _) h (fun ⟨a, b, c⟩ => rfl)
  · exact viaP_len (aa_op_ccbb_ok_len _) h (fun ⟨a, b, c⟩ => rfl)
  · exact viaP_len (aa_op_ccbb_ok_len _) h (fun ⟨a, b, c⟩ => rfl)
  · exact viaP_len (aa_op_ccbb_ok_len _) h (fun ⟨a, b, c⟩ => rfl)
  · exact viaP_len (ba_op_ok_len _) h (fun ⟨a, b⟩ => rfl)
  · exact viaP_len (ba_op_ok_len _) h (fun ⟨a, b⟩ => rfl)
  · exact viaP_len (ba_op_ok_len _) h (fun ⟨a, b⟩ => rfl)
  · exact viaP_len (ba_op_ok_len _) h (fun ⟨a, b⟩ => rfl)
  · exact viaP_len (ba_op_ok_len _) h (fun ⟨a, b⟩ => rfl)
  · exact viaP_len (ba_op_ok_len _) h (fun ⟨a, b⟩ => rfl)
  · exact viaP_len (ba_op_ok_len _) h (fun ⟨a, b⟩ => rfl)
  · exact viaP_len (ba_op_ok_len _) h (fun ⟨a, b⟩ => rfl)
  · exact viaP_len (ba_op_ok_len _) h (fun ⟨a, b⟩ => rfl)
  · exact viaP_len (ba_op_ok_len _) h (fun ⟨a, b⟩ => rfl)
  · exact viaP_len (ba_op_ok_len _) h (fun ⟨a, b⟩ => rfl)
  · exact viaP_len (ba_op_ok_len _) h (fun ⟨a, b⟩ => rfl)
  · exact viaP_len (ba_op_ok_len _) h (fun ⟨a, b⟩ => rfl)
  · exact viaP_len (ba_op_ok_len _) h (fun ⟨a, b⟩ => rfl)
  · exact viaP_len (ba_op_ok_len _) h (fun ⟨a, b⟩ => rfl)
  · exact viaP_len (ba_op_ok_len _) h (fun ⟨a, b⟩ => rfl)
  · exact viaP_len (ba_op_ok_len _) h (fun ⟨a, b⟩ => rfl)
  · exact viaP_len (ba_op_ok_len _) h (fun ⟨a, b⟩ => rfl)
  · exact viaP_len (ba_op_ok_len _) h (fun ⟨a, b⟩ => rfl)
  · exact viaP_len (ba_op_ok_len _) h (fun ⟨a, b⟩ => rfl)
  · exact viaP_len (ba_op_ok_len _) h (fun ⟨a, b⟩ => rfl)
  · exact viaP_len (ba_op_ok_len _) h (fun ⟨a, b⟩ => rfl)
  · exact viaP_len (ba_op_ok_len _) h (fun ⟨a, b⟩ => rfl)
  · exact viaP_len (ba_op_ok_len _) h (fun ⟨a, b⟩ => rfl)
  · exact viaP_len (ba_op_ok_len _) h (fun ⟨a, b⟩ => rfl)
  · exact viaP_len (ba_op_ok_len _) h (fun ⟨a, b⟩ => rfl)
  · exact viaP_len (ba_op_ok_len _) h (fun ⟨a, b⟩ => rfl)
  · exact viaP_len (ba_op_ok_len _) h (fun ⟨a, b⟩ => rfl)
  · exact viaP_len (ba_op_ok_len _) h (fun ⟨a, b⟩ => rfl)
  · exact viaP_len (ba_op_ok_len _) h (fun ⟨a, b⟩ => rfl)
  · exact viaP_len (ba_op_ok_len _) h (fun ⟨a, b⟩ => rfl)
  · exact viaP_len (ba_op_ok_len _) h (fun ⟨a, b⟩ => rfl)
  · exact viaP_len (ba_op_cccc_ok_len _) h (fun ⟨a, b, c⟩ => rfl)
  · exact viaP_len (ba_op_cccc_ok_len _) h (fun ⟨a, b, c⟩ => rfl)
  · exact viaP_len (ba_op_cccc_ok_len _) h (fun ⟨a, b, c⟩ => rfl)
  · exact viaP_len (ba_op_cccc_ok_len _) h (fun ⟨a, b, c⟩ => rfl)
  · exact viaP_len (ba_op_cccc_ok_len _) h (fun ⟨a, b, c⟩ => rfl)
  · exact viaP_len (ba_op_cccc_ok_len _) h (fun ⟨a, b, c⟩ => rfl)
  · exact viaP_len (ba_op_cccc_ok_len _) h (fun ⟨a, b, c⟩ => rfl)
  · exact viaP_len (ba_op_cccc_ok_len _) h (fun ⟨a, b, c⟩ => rfl)
  · exact viaP_len (aa_op_ccbb_ok_len _) h (fun ⟨a, b, c⟩ => rfl)
  · exact viaP_len (aa_op_ccbb_ok_len _) h (fun ⟨a, b, c⟩ => rfl)
  · exact viaP_len (aa_op_ccbb_ok_len _) h (fun ⟨a, b, c⟩ => rfl)
  · exact viaP_len (aa_op_ccbb_ok_len _) h (fun ⟨a, b, c⟩ => rfl)
  · exact viaP_len (aa_op_ccbb_ok_len _) h (fun ⟨a, b, c⟩ => rfl)
  · exact viaP_len (aa_op_ccbb_ok_len _) h (fun ⟨a, b, c⟩ => rfl)
  · exact viaP_len (aa_op_ccbb_ok_len _) h (fun ⟨a, b, c⟩ => rfl)
  · exact viaP_len (aa_op_ccbb_ok_len _) h (fun ⟨a, b, c⟩ => rfl)
  · exact viaP_len (aa_op_ccbb_ok_len _) h (fun ⟨a, b, c⟩ => rfl)
  · exact viaP_len (aa_op_ccbb_ok_len _) h (fun ⟨a, b, c⟩ => rfl)
  · exact viaP_len (aa_op_ccbb_ok_len _) h (fun ⟨a, b, c⟩ => rfl)
  · exact DResult.noConfusion h
  · exact DResult.noConfusion h
  · exact DResult.noConfusion h
  · exact DResult.noConfusion h
  · exact DResult.noConfusion h
  · exact DResult.noConfusion h
  · exact DResult.noConfusion h
  · exact DResult.noConfusion h
  · exact DResult.noConfusion h
  · exact DResult.noConfusion h
  · exact DResult.noConfusion h
  · exact DResult.noConfusion h
  · exact DResult.noConfusion h
  · exact DResult.noConfusion h
  · exact DResult.noConfusion h
  · exact DResult.noConfusion h
  · exact DResult.noConfusion h
  · exact DResult.noConfusion h
  · exact DResult.noConfusion h
  · exact DResult.noConfusion h
  · exact DResult.noConfusion h
  · exact DResult.noConfusion h
  · exact DResult.noConfusion h
  · exact DResult.noConfusion h
  · exact DResult.noConfusion h
  · exact DResult.noConfusion h
  · exact DResult.noConfusion h
  · exact DResult.noConfusion h
  · exact DResult.noConfusion h

set_option maxHeartbeats 8000000 in
/-- Errors of the dispatch: never `Metadata`, and outside the opcode-0
payload arms a `Truncated` error leaves the slice unchanged. -/
theorem decodeTail_err (op : Nat) (hop256 : op < 256) (l : List Nat) :
    ∀ e rest, decodeTail op l = .err e rest →
      (∀ n, e ≠ .metadata n) ∧ (op ≠ 0 → e = .truncated → rest = l) := by
  intro e rest h
  interval_cases op
  · exact ⟨nopArm_errW l e rest h, fun hop _ => absurd rfl hop⟩
  · rcases viaP_errW (failW_of_strong (ba_op_fail l)) h with ⟨hm, ht⟩; exact ⟨hm, fun _ => ht⟩
  · rcases viaP_errW (failW_of_strong (aa_op_bbbb_fail l)) h with ⟨hm, ht⟩; exact ⟨hm, fun _ => ht⟩
  · rcases viaP_errW (zz_op_aaaabbbb_failW l) h with ⟨hm, ht⟩; exact ⟨hm, fun _ => ht⟩
  · rcases viaP_errW (failW_of_strong (ba_op_fail l)) h with ⟨hm, ht⟩; exact ⟨hm, fun _ => ht⟩
  · rcases viaP_errW (failW_of_strong (aa_op_bbbb_fail l)) h with ⟨hm, ht⟩; exact ⟨hm, fun _ => ht⟩
  · rcases viaP_errW (zz_op_aaaabbbb_failW l) h with ⟨hm, ht⟩; exact ⟨hm, fun _ => ht⟩
  · rcases viaP_errW (failW_of_strong (ba_op_fail l)) h with ⟨hm, ht⟩; exact ⟨hm, fun _ => ht⟩
  · rcases viaP_errW (failW_of_strong (aa_op_bbbb_fail l)) h with ⟨hm, ht⟩; exact ⟨hm, fun _ => ht⟩
  · rcases viaP_errW (zz_op_aaaabbbb_failW l) h with ⟨hm, ht⟩; exact ⟨hm, fun _ => ht⟩
  · rcases viaP_errW (failW_of_strong (aa_op_fail l)) h with ⟨hm, ht⟩; exact ⟨hm, fun _ => ht⟩
  · rcases viaP_errW (failW_of_strong (aa_op_fail l)) h with ⟨hm, ht⟩; exact ⟨hm, fun _ => ht⟩
  · rcases viaP_errW (failW_of_strong (aa_op_fail l)) h with ⟨hm, ht⟩; exact ⟨hm, fun _ => ht⟩
  · rcases viaP_errW (failW_of_strong (aa_op_fail l)) h with ⟨hm, ht⟩; exact ⟨hm, fun _ => ht⟩
  · rcases viaP_errW (zz_op_failW l) h with ⟨hm, ht⟩; exact ⟨hm, fun _ => ht⟩
  · rcases viaP_errW (failW_of_strong (aa_op_fail l)) h with ⟨hm, ht⟩; exact ⟨hm, fun _ => ht⟩
  · rcases viaP_errW (failW_of_strong (aa_op_fail l)) h with ⟨hm, ht⟩; exact ⟨hm, fun _ => ht⟩
  · rcases viaP_errW (failW_of_strong (aa_op_fail l)) h with ⟨hm, ht⟩; exact ⟨hm, fun _ => ht⟩
  · rcases viaP_errW (failW_of_strong (ba_op_fail l)) h with ⟨hm, ht⟩; exact ⟨hm, fun _ => ht⟩
  · rcases viaP_errW (failW_of_strong (aa_op_bbbb_fail l)) h with ⟨hm, ht⟩; exact ⟨hm, fun _ => ht⟩
  · rcases viaP_errW (failW_of_strong (aa_op_bbbbbbbb_fail l)) h with ⟨hm, ht⟩; exact ⟨hm, fun _ => ht⟩
  · rcases viaP_errW (failW_of_strong (aa_op_bbbb_fail l)) h with ⟨hm, ht⟩; exact ⟨hm, fun _ => ht⟩
  · rcases viaP_errW (failW_of_strong (aa_op_bbbb_fail l)) h with ⟨hm, ht⟩; exact ⟨hm, fun _ => ht⟩
  · rcases viaP_errW (failW_of_strong (aa_op_bbbbbbbb_fail l)) h with ⟨hm, ht⟩; exact ⟨hm, fun _ => ht⟩
  · rcases viaP_errW (failW_of_strong (aa_op_b16_fail l)) h with ⟨hm, ht⟩; exact ⟨hm, fun _ => ht⟩
  · rcases viaP_errW (failW_of_strong (aa_op_bbbb_fail l)) h with ⟨hm, ht⟩; exact ⟨hm, fun _ => ht⟩
  · rcases viaP_errW (failW_of_strong (aa_op_bbbb_fail l)) h with ⟨hm, ht⟩; exact ⟨hm, fun _ => ht⟩
  · rcases viaP_errW (failW_of_strong (aa_op_bbbbbbbb_fail l)) h with ⟨hm, ht⟩; exact ⟨hm, fun _ => ht⟩
  · rcases viaP_errW (failW_of_strong (aa_op_bbbb_fail l)) h with ⟨hm, ht⟩; exact ⟨hm, fun _ => ht⟩
  · rcases viaP_errW (failW_of_strong (aa_op_fail l)) h with ⟨hm, ht⟩; exact ⟨hm, fun _ => ht⟩
  · rcases viaP_errW (failW_of_strong (aa_op_fail l)) h with ⟨hm, ht⟩; exact ⟨hm, fun _ => ht⟩
  · rcases viaP_errW (failW_of_strong (aa_op_bbbb_fail l)) h with ⟨hm, ht⟩; exact ⟨hm, fun _ => ht⟩
  · rcases viaP_errW (failW_of_strong (ba_op_cccc_fail l)) h with ⟨hm, ht⟩; exact ⟨hm, fun _ => ht⟩
  · rcases viaP_errW (failW_of_strong (ba_op_fail l)) h with ⟨hm, ht⟩; exact ⟨hm, fun _ => ht⟩
  · rcases viaP_errW (failW_of_strong (aa_op_bbbb_fail l)) h with ⟨hm, ht⟩; exact ⟨hm, fun _ => ht⟩
  · rcases viaP_errW (failW_of_strong (ba_op_cccc_fail l)) h with ⟨hm, ht⟩; exact ⟨hm, fun _ => ht⟩
  · rcases viaP_errW (failW_of_strong (ag_op_bbbbfedc_fail l)) h with ⟨hm, ht⟩; exact ⟨hm, fun _ => ht⟩
  · rcases viaP_errW (failW_of_strong (aa_op_ccccbbbb_fail l)) h with ⟨hm, ht⟩; exact ⟨hm, fun _ => ht⟩
  · rcases viaP_errW (failW_of_strong (aa_op_bbbbbbbb_fail l)) h with ⟨hm, ht⟩; exact ⟨hm, fun _ => ht⟩
  · rcases viaP_errW (failW_of_strong (aa_op_fail l)) h with ⟨hm, ht⟩; exact ⟨hm, fun _ => ht⟩
  · rcases viaP_errW (failW_of_strong (aa_op_fail l)) h with ⟨hm, ht⟩; exact ⟨hm, fun _ => ht⟩
  · rcases viaP_errW (zz_op_aaaa_failW l) h with ⟨hm, ht⟩; exact ⟨hm, fun _ => ht⟩
  · rcases viaP_errW (zz_op_aaaaaaaa_failW l) h with ⟨hm, ht⟩; exact ⟨hm, fun _ => ht⟩
  · rcases viaP_errW (failW_of_strong (aa_op_bbbbbbbb_fail l)) h with ⟨hm, ht⟩; exact ⟨hm, fun _ => ht⟩
  · rcases viaP_errW (failW_of_strong (aa_op_bbbbbbbb_fail l)) h with ⟨hm, ht⟩; exact ⟨hm, fun _ => ht⟩
  · rcases viaP_errW (failW_of_strong (aa_op_ccbb_fail l)) h with ⟨hm, ht⟩; exact ⟨hm, fun _ => ht⟩
  · rcases viaP_errW (failW_of_strong (aa_op_ccbb_fail l)) h with ⟨hm, ht⟩; exact ⟨hm, fun _ => ht⟩
  · rcases viaP_errW (failW_of_strong (aa_op_ccbb_fail l)) h with ⟨hm, ht⟩; exact ⟨hm, fun _ => ht⟩
  · rcases viaP_errW (failW_of_strong (aa_op_ccbb_fail l)) h with ⟨hm, ht⟩; exact ⟨hm, fun _ => ht⟩
  · rcases viaP_errW (failW_of_strong (aa_op_ccbb_fail l)) h with ⟨hm, ht⟩; exact ⟨hm, fun _ => ht⟩
  · rcases viaP_errW (failW_of_strong (ba_op_cccc_fail l)) h with ⟨hm, ht⟩; exact ⟨hm, fun _ => ht⟩
  · rcases viaP_errW (failW_of_strong (ba_op_cccc_fail l)) h with ⟨hm, ht⟩; exact ⟨hm, fun _ => ht⟩
  · rcases viaP_errW (failW_of_strong (ba_op_cccc_fail l)) h with ⟨hm, ht⟩; exact ⟨hm, fun _ => ht⟩
  · rcases viaP_errW (failW_of_strong (ba_op_cccc_fail l)) h with ⟨hm, ht⟩; exact ⟨hm, fun _ => ht⟩
  · rcases viaP_errW (failW_of_strong (ba_op_cccc_fail l)) h with ⟨hm, ht⟩; exact ⟨hm, fun _ => ht⟩
  · rcases viaP_errW (failW_of_strong (ba_op_cccc_fail l)) h with ⟨hm, ht⟩; exact ⟨hm, fun _ => ht⟩
  · rcases viaP_errW (failW_of_strong (aa_op_bbbb_fail l)) h with ⟨hm, ht⟩; exact ⟨hm, fun _ => ht⟩
  · rcases viaP_errW (failW_of_strong (aa_op_bbbb_fail l)) h with ⟨hm, ht⟩; exact ⟨hm, fun _ => ht⟩
  · rcases viaP_errW (failW_of_strong (aa_op_bbbb_fail l)) h with ⟨hm, ht⟩; exact ⟨hm, fun _ => ht⟩
  · rcases viaP_errW (failW_of_strong (aa_op_bbbb_fail l)) h with ⟨hm, ht⟩; exact ⟨hm, fun _ => ht⟩
  · rcases viaP_errW (failW_of_strong (aa_op_bbbb_fail l)) h with ⟨hm, ht⟩; exact ⟨hm, fun _ => ht⟩
  · rcases viaP_errW (failW_of_strong (aa_op_bbbb_fail l)) h with ⟨hm, ht⟩; exact ⟨hm, fun _ => ht⟩
  · exact DResult.noConfusion h
  · exact DResult.noConfusion h
  · exact DResult.noConfusion h
  · exact DResult.noConfusion h
  · exact DResult.noConfusion h
  · exact DResult.noConfusion h
  · rcases viaP_errW (failW_of_strong (aa_op_ccbb_fail l)) h with ⟨hm, ht⟩; exact ⟨hm, fun _ => ht⟩
  · rcases viaP_errW (failW_of_strong (aa_op_ccbb_fail l)) h with ⟨hm, ht⟩; exact ⟨hm, fun _ => ht⟩
  · rcases viaP_errW (failW_of_strong (aa_op_ccbb_fail l)) h with ⟨hm, ht⟩; exact ⟨hm, fun _ => ht⟩
  · rcases viaP_errW (failW_of_strong (aa_op_ccbb_fail l)) h with ⟨hm, ht⟩; exact ⟨hm, fun _ => ht⟩
  · rcases viaP_errW (failW_of_strong (aa_op_ccbb_fail l)) h with ⟨hm, ht⟩; exact ⟨hm, fun _ => ht⟩
  · rcases viaP_errW (failW_of_strong (aa_op_ccbb_fail l)) h with ⟨hm, ht⟩; exact ⟨hm, fun _ => ht⟩
  · rcases viaP_errW (failW_of_strong (aa_op_ccbb_fail l)) h with ⟨hm, ht⟩; exact ⟨hm, fun _ => ht⟩
  · rcases viaP_errW (failW_of_strong (aa_op_ccbb_fail l)) h with ⟨hm, ht⟩; exact ⟨hm, fun _ => ht⟩
  · rcases viaP_errW (failW_of_strong (aa_op_ccbb_fail l)) h with ⟨hm, ht⟩; exact ⟨hm, fun _ => ht⟩
  · rcases viaP_errW (failW_of_strong (aa_op_ccbb_fail l)) h with ⟨hm, ht⟩; exact ⟨hm, fun _ => ht⟩
  · rcases viaP_errW (failW_of_strong (aa_op_ccbb_fail l)) h with ⟨hm, ht⟩; exact ⟨hm, fun _ => ht⟩
  · rcases viaP_errW (failW_of_strong (aa_op_ccbb_fail l)) h with ⟨hm, ht⟩; exact ⟨hm, fun _ => ht⟩
  · rcases viaP_errW (failW_of_strong (aa_op_ccbb_fail l)) h with ⟨hm, ht⟩; exact ⟨hm, fun _ => ht⟩
  · rcases viaP_errW (failW_of_strong (aa_op_ccbb_fail l)) h with ⟨hm, ht⟩; exact ⟨hm, fun _ => ht⟩
  · rcases viaP_errW (failW_of_strong (ba_op_cccc_fail l)) h with ⟨hm, ht⟩; exact ⟨hm, fun _ => ht⟩
  · rcases viaP_errW (failW_of_strong (ba_op_cccc_fail l)) h with ⟨hm, ht⟩; exact ⟨hm, fun _ => ht⟩
  · rcases viaP_errW (failW_of_strong (ba_op_cccc_fail l)) h with ⟨hm, ht⟩; exact ⟨hm, fun _ => ht⟩
  · rcases viaP_errW (failW_of_strong (ba_op_cccc_fail l)) h with ⟨hm, ht⟩; exact ⟨hm, fun _ => ht⟩
  · rcases viaP_errW (failW_of_strong (ba_op_cccc_fail l)) h with ⟨hm, ht⟩; exact ⟨hm, fun _ => ht⟩
  · rcases viaP_errW (failW_of_strong (ba_op_cccc_fail l)) h with ⟨hm, ht⟩; exact ⟨hm, fun _ => ht⟩
  · rcases viaP_errW (failW_of_strong (ba_op_cccc_fail l)) h with ⟨hm, ht⟩; exact ⟨hm, fun _ => ht⟩
  · rcases viaP_errW (failW_of_strong (ba_op_cccc_fail l)) h with ⟨hm, ht⟩; exact ⟨hm, fun _ => ht⟩
  · rcases viaP_errW (failW_of_strong (ba_op_cccc_fail l)) h with ⟨hm, ht⟩; exact ⟨hm, fun _ => ht⟩
  · rcases viaP_errW (failW_of_strong (ba_op_cccc_fail l)) h with ⟨hm, ht⟩; exact ⟨hm, fun _ => ht⟩
  · rcases viaP_errW (failW_of_strong (ba_op_cccc_fail l)) h with ⟨hm, ht⟩; exact ⟨hm, fun _ => ht⟩
  · rcases viaP_errW (failW_of_strong (ba_op_cccc_fail l)) h with ⟨hm, ht⟩; exact ⟨hm, fun _ => ht⟩
  · rcases viaP_errW (failW_of_strong (ba_op_cccc_fail l)) h with ⟨hm, ht⟩; exact ⟨hm, fun _ => ht⟩
  · rcases viaP_errW (failW_of_strong (ba_op_cccc_fail l)) h with ⟨hm, ht⟩; exact ⟨hm, fun _ => ht⟩
  · rcases viaP_errW (failW_of_strong (aa_op_bbbb_fail l)) h with ⟨hm, ht⟩; exact ⟨hm, fun _ => ht⟩
  · rcases viaP_errW (failW_of_strong (aa_op_bbbb_fail l)) h with ⟨hm, ht⟩; exact ⟨hm, fun _ => ht⟩
  · rcases viaP_errW (failW_of_strong (aa_op_bbbb_fail l)) h with ⟨hm, ht⟩; exact ⟨hm, fun _ => ht⟩
  · rcases viaP_errW (failW_of_strong (aa_op_bbbb_fail l)) h with ⟨hm, ht⟩; exact ⟨hm, fun _ => ht⟩
  · rcases viaP_errW (failW_of_strong (aa_op_bbbb_fail l)) h with ⟨hm, ht⟩; exact ⟨hm, fun _ => ht⟩
  · rcases viaP_errW (failW_of_strong (aa_op_bbbb_fail l)) h with ⟨hm, ht⟩; exact ⟨hm, fun _ => ht⟩
  · rcases viaP_errW (failW_of_strong (aa_op_bbbb_fail l)) h with ⟨hm, ht⟩; exact ⟨hm, fun _ => ht⟩
  · rcases viaP_errW (failW_of_strong (aa_op_bbbb_fail l)) h with ⟨hm, ht⟩; exact ⟨hm, fun _ => ht⟩
  · rcases viaP_errW (failW_of_strong (aa_op_bbbb_fail l)) h with ⟨hm, ht⟩; exact ⟨hm, fun _ => ht⟩
  · rcases viaP_errW (failW_of_strong (aa_op_bbbb_fail l)) h with ⟨hm, ht⟩; exact ⟨hm, fun _ => ht⟩
  · rcases viaP_errW (failW_of_strong (aa_op_bbbb_fail l)) h with ⟨hm, ht⟩; exact ⟨hm, fun _ => ht⟩
  · rcases viaP_errW (failW_of_strong (aa_op_bbbb_fail l)) h with ⟨hm, ht⟩; exact ⟨hm, fun _ => ht⟩
  · rcases viaP_errW (failW_of_strong (aa_op_bbbb_fail l)) h with ⟨hm, ht⟩; exact ⟨hm, fun _ => ht⟩
  · rcases viaP_errW (failW_of_strong (aa_op_bbbb_fail l)) h with ⟨hm, ht⟩; exact ⟨hm, fun _ => ht⟩
  · rcases viaP_errW (failW_of_strong (ag_op_bbbbfedc_fail l)) h with ⟨hm, ht⟩; exact ⟨hm, fun _ => ht⟩
  · rcases viaP_errW (failW_of_strong (ag_op_bbbbfedc_fail l)) h with ⟨hm, ht⟩; exact ⟨hm, fun _ => ht⟩
  · rcases viaP_errW (failW_of_strong (ag_op_bbbbfedc_fail l)) h with ⟨hm, ht⟩; exact ⟨hm, fun _ => ht⟩
  · rcases viaP_errW (failW_of_strong (ag_op_bbbbfedc_fail l)) h with ⟨hm, ht⟩; exact ⟨hm, fun _ => ht⟩
  · rcases viaP_errW (failW_of_strong (ag_op_bbbbfedc_fail l)) h with ⟨hm, ht⟩; exact ⟨hm, fun _ => ht⟩
  · exact DResult.noConfusion h
  · rcases viaP_errW (failW_of_strong (aa_op_ccccbbbb_fail l)) h with ⟨hm, ht⟩; exact ⟨hm, fun _ => ht⟩
  · rcases viaP_errW (failW_of_strong (aa_op_ccccbbbb_fail l)) h with ⟨hm, ht⟩; exact ⟨hm, fun _ => ht⟩
  · rcases viaP_errW (failW_of_strong (aa_op_ccccbbbb_fail l)) h with ⟨hm, ht⟩; exact ⟨hm, fun _ => ht⟩
  · rcases viaP_errW (failW_of_strong (aa_op_ccccbbbb_fail l)) h with ⟨hm, ht⟩; exact ⟨hm, fun _ => ht⟩
  · rcases viaP_errW (failW_of_strong (aa_op_ccccbbbb_fail l)) h with ⟨hm, ht⟩; exact ⟨hm, fun _ => ht⟩
  · exact DResult.noConfusion h
  · exact DResult.noConfusion h
  · rcases viaP_errW (failW_of_strong (ba_op_fail l)) h with ⟨hm, ht⟩; exact ⟨hm, fun _ => ht⟩
  · rcases viaP_errW (failW_of_strong (ba_op_fail l)) h with ⟨hm, ht⟩; exact ⟨hm, fun _ => ht⟩
  · rcases viaP_errW (failW_of_strong (ba_op_fail l)) h with ⟨hm, ht⟩; exact ⟨hm, fun _ => ht⟩
  · rcases viaP_errW (failW_of_strong (ba_op_fail l)) h with ⟨hm, ht⟩; exact ⟨hm, fun _ => ht⟩
  · rcases viaP_errW (failW_of_strong (ba_op_fail l)) h with ⟨hm, ht⟩; exact ⟨hm, fun _ => ht⟩
  · rcases viaP_errW (failW_of_strong (ba_op_fail l)) h with ⟨hm, ht⟩; exact ⟨hm, fun _ => ht⟩
  · rcases viaP_errW (failW_of_strong (ba_op_fail l)) h with ⟨hm, ht⟩; exact ⟨hm, fun _ => ht⟩
  · rcases viaP_errW (failW_of_strong (ba_op_fail l)) h with ⟨hm, ht⟩; exact ⟨hm, fun _ => ht⟩
  · rcases viaP_errW (failW_of_strong (ba_op_fail l)) h with ⟨hm, ht⟩; exact ⟨hm, fun _ => ht⟩
  · rcases viaP_errW (failW_of_strong (ba_op_fail l)) h with ⟨hm, ht⟩; exact ⟨hm, fun _ => ht⟩
  · rcases viaP_errW (failW_of_strong (ba_op_fail l)) h with ⟨hm, ht⟩; exact ⟨hm, fun _ => ht⟩
  · rcases viaP_errW (failW_of_strong (ba_op_fail l)) h with ⟨hm, ht⟩; exact ⟨hm, fun _ => ht⟩
  · rcases viaP_errW (failW_of_strong (ba_op_fail l)) h with ⟨hm, ht⟩; exact ⟨hm, fun _ => ht⟩
  · rcases viaP_errW (failW_of_strong (ba_op_fail l)) h with ⟨hm, ht⟩; exact ⟨hm, fun _ => ht⟩
  · rcases viaP_errW (failW_of_strong (ba_op_fail l)) h with ⟨hm, ht⟩; exact ⟨hm, fun _ => ht⟩
  · rcases viaP_errW (failW_of_strong (ba_op_fail l)) h with ⟨hm, ht⟩; exact ⟨hm, fun _ => ht⟩
  · rcases viaP_errW (failW_of_strong (ba_op_fail l)) h with ⟨hm, ht⟩; exact ⟨hm, fun _ => ht⟩
  · rcases viaP_errW (failW_of_strong (ba_op_fail l)) h with ⟨hm, ht⟩; exact ⟨hm, fun _ => ht⟩
  · rcases viaP_errW (failW_of_strong (ba_op_fail l)) h with ⟨hm, ht⟩; exact ⟨hm, fun _ => ht⟩
  · rcases viaP_errW (failW_of_strong (ba_op_fail l)) h with ⟨hm, ht⟩; exact ⟨hm, fun _ => ht⟩
  · rcases viaP_errW (failW_of_strong (ba_op_fail l)) h with ⟨hm, ht⟩; exact ⟨hm, fun _ => ht⟩
  · rcases viaP_errW (failW_of_strong (aa_op_ccbb_fail l)) h with ⟨hm, ht⟩; exact ⟨hm, fun _ => ht⟩
  · rcases viaP_errW (failW_of_strong (aa_op_ccbb_fail l)) h with ⟨hm, ht⟩; exact ⟨hm, fun _ => ht⟩
  · rcases viaP_errW (failW_of_strong (aa_op_ccbb_fail l)) h with ⟨hm, ht⟩; exact ⟨hm, fun _ => ht⟩
  · rcases viaP_errW (failW_of_strong (aa_op_ccbb_fail l)) h with ⟨hm, ht⟩; exact ⟨hm, fun _ => ht⟩
  · rcases viaP_errW (failW_of_strong (aa_op_ccbb_fail l)) h with ⟨hm, ht⟩; exact ⟨hm, fun _ => ht⟩
  · rcases viaP_errW (failW_of_strong (aa_op_ccbb_fail l)) h with ⟨hm, ht⟩; exact ⟨hm, fun _ => ht⟩
  · rcases viaP_errW (failW_of_strong (aa_op_ccbb_fail l)) h with ⟨hm, ht⟩; exact ⟨hm, fun _ => ht⟩
  · rcases viaP_errW (failW_of_strong (aa_op_ccbb_fail l)) h with ⟨hm, ht⟩; exact ⟨hm, fun _ => ht⟩
  · rcases viaP_errW (failW_of_strong (aa_op_ccbb_fail l)) h with ⟨hm, ht⟩; exact ⟨hm, fun _ => ht⟩
  · rcases viaP_errW (failW_of_strong (aa_op_ccbb_fail l)) h with ⟨hm, ht⟩; exact ⟨hm, fun _ => ht⟩
  · rcases viaP_errW (failW_of_strong (aa_op_ccbb_fail l)) h with ⟨hm, ht⟩; exact ⟨hm, fun _ => ht⟩
  · rcases viaP_errW (failW_of_strong (aa_op_ccbb_fail l)) h with ⟨hm, ht⟩; exact ⟨hm, fun _ => ht⟩
  · rcases viaP_errW (failW_of_strong (aa_op_ccbb_fail l)) h with ⟨hm, ht⟩; exact ⟨hm, fun _ => ht⟩
  · rcases viaP_errW (failW_of_strong (aa_op_ccbb_fail l)) h with ⟨hm, ht⟩; exact ⟨hm, fun _ => ht⟩
  · rcases viaP_errW (failW_of_strong (aa_op_ccbb_fail l)) h with ⟨hm, ht⟩; exact ⟨hm, fun _ => ht⟩
  · rcases viaP_errW (failW_of_strong (aa_op_ccbb_fail l)) h with ⟨hm, ht⟩; exact ⟨hm, fun _ => ht⟩
  · rcases viaP_errW (failW_of_strong (aa_op_ccbb_fail l)) h with ⟨hm, ht⟩; exact ⟨hm, fun _ => ht⟩
  · rcases viaP_errW (failW_of_strong (aa_op_ccbb_fail l)) h with ⟨hm, ht⟩; exact ⟨hm, fun _ => ht⟩
  · rcases viaP_errW (failW_of_strong (aa_op_ccbb_fail l)) h with ⟨hm, ht⟩; exact ⟨hm, fun _ => ht⟩
  · rcases viaP_errW (failW_of_strong (aa_op_ccbb_fail l)) h with ⟨hm, ht⟩; exact ⟨hm, fun _ => ht⟩
  · rcases viaP_errW (failW_of_strong (aa_op_ccbb_fail l)) h with ⟨hm, ht⟩; exact ⟨hm, fun _ => ht⟩
  · rcases viaP_errW (failW_of_strong (aa_op_ccbb_fail l)) h with ⟨hm, ht⟩; exact ⟨hm, fun _ => ht⟩
  · rcases viaP_errW (failW_of_strong (aa_op_ccbb_fail l)) h with ⟨hm, ht⟩; exact ⟨hm, fun _ => ht⟩
  · rcases viaP_errW (failW_of_strong (aa_op_ccbb_fail l)) h with ⟨hm, ht⟩; exact ⟨hm, fun _ => ht⟩
  · rcases viaP_errW (failW_of_strong (aa_op_ccbb_fail l)) h with ⟨hm, ht⟩; exact ⟨hm, fun _ => ht⟩
  · rcases viaP_errW (failW_of_strong (aa_op_ccbb_fail l)) h with ⟨hm, ht⟩; exact ⟨hm, fun _ => ht⟩
  · rcases viaP_errW (failW_of_strong (aa_op_ccbb_fail l)) h with ⟨hm, ht⟩; exact ⟨hm, fun _ => ht⟩
  · rcases viaP_errW (failW_of_strong (aa_op_ccbb_fail l)) h with ⟨hm, ht⟩; exact ⟨hm, fun _ => ht⟩
  · rcases viaP_errW (failW_of_strong (aa_op_ccbb_fail l)) h with ⟨hm, ht⟩; exact ⟨hm, fun _ => ht⟩
  · rcases viaP_errW (failW_of_strong (aa_op_ccbb_fail l)) h with ⟨hm, ht⟩; exact ⟨hm, fun _ => ht⟩
  · rcases viaP_errW (failW_of_strong (aa_op_ccbb_fail l)) h with ⟨hm, ht⟩; exact ⟨hm, fun _ => ht⟩
  · rcases viaP_errW (failW_of_strong (aa_op_ccbb_fail l)) h with ⟨hm, ht⟩; exact ⟨hm, fun _ => ht⟩
  · rcases viaP_errW (failW_of_strong (ba_op_fail l)) h with ⟨hm, ht⟩; exact ⟨hm, fun _ => ht⟩
  · rcases viaP_errW (failW_of_strong (ba_op_fail l)) h with ⟨hm, ht⟩; exact ⟨hm, fun _ => ht⟩
  · rcases viaP_errW (failW_of_strong (ba_op_fail l)) h with ⟨hm, ht⟩; exact ⟨hm, fun _ => ht⟩
  · rcases viaP_errW (failW_of_strong (ba_op_fail l)) h with ⟨hm, ht⟩; exact ⟨hm, fun _ => ht⟩
  · rcases viaP_errW (failW_of_strong (ba_op_fail l)) h with ⟨hm, ht⟩; exact ⟨hm, fun _ => ht⟩
  · rcases viaP_errW (failW_of_strong (ba_op_fail l)) h with ⟨hm, ht⟩; exact ⟨hm, fun _ => ht⟩
  · rcases viaP_errW (failW_of_strong (ba_op_fail l)) h with ⟨hm, ht⟩; exact ⟨hm, fun _ => ht⟩
  · rcases viaP_errW (failW_of_strong (ba_op_fail l)) h with ⟨hm, ht⟩; exact ⟨hm, fun _ => ht⟩
  · rcases viaP_errW (failW_of_strong (ba_op_fail l)) h with ⟨hm, ht⟩; exact ⟨hm, fun _ => ht⟩
  · rcases viaP_errW (failW_of_strong (ba_op_fail l)) h with ⟨hm, ht⟩; exact ⟨hm, fun _ => ht⟩
  · rcases viaP_errW (failW_of_strong (ba_op_fail l)) h with ⟨hm, ht⟩; exact ⟨hm, fun _ => ht⟩
  · rcases viaP_errW (failW_of_strong (ba_op_fail l)) h with ⟨hm, ht⟩; exact ⟨hm, fun _ => ht⟩
  · rcases viaP_errW (failW_of_strong (ba_op_fail l)) h with ⟨hm, ht⟩; exact ⟨hm, fun _ => ht⟩
  · rcases viaP_errW (failW_of_strong (ba_op_fail l)) h with ⟨hm, ht⟩; exact ⟨hm, fun _ => ht⟩
  · rcases viaP_errW (failW_of_strong (ba_op_fail l)) h with ⟨hm, ht⟩; exact ⟨hm, fun _ => ht⟩
  · rcases viaP_errW (failW_of_strong (ba_op_fail l)) h with ⟨hm, ht⟩; exact ⟨hm, fun _ => ht⟩
  · rcases viaP_errW (failW_of_strong (ba_op_fail l)) h with ⟨hm, ht⟩; exact ⟨hm, fun _ => ht⟩
  · rcases viaP_errW (failW_of_strong (ba_op_fail l)) h with ⟨hm, ht⟩; exact ⟨hm, fun _ => ht⟩
  · rcases viaP_errW (failW_of_strong (ba_op_fail l)) h with ⟨hm, ht⟩; exact ⟨hm, fun _ => ht⟩
  · rcases viaP_errW (failW_of_strong (ba_op_fail l)) h with ⟨hm, ht⟩; exact ⟨hm, fun _ => ht⟩
  · rcases viaP_errW (failW_of_strong (ba_op_fail l)) h with ⟨hm, ht⟩; exact ⟨hm, fun _ => ht⟩
  · rcases viaP_errW (failW_of_strong (ba_op_fail l)) h with ⟨hm, ht⟩; exact ⟨hm, fun _ => ht⟩
  · rcases viaP_errW (failW_of_strong (ba_op_fail l)) h with ⟨hm, ht⟩; exact ⟨hm, fun _ => ht⟩
  · rcases viaP_errW (failW_of_strong (ba_op_fail l)) h with ⟨hm, ht⟩; exact ⟨hm, fun _ => ht⟩
  · rcases viaP_errW (failW_of_strong (ba_op_fail l)) h with ⟨hm, ht⟩; exact ⟨hm, fun _ => ht⟩
  · rcases viaP_errW (failW_of_strong (ba_op_fail l)) h with ⟨hm, ht⟩; exact ⟨hm, fun _ => ht⟩
  · rcases viaP_errW (failW_of_strong (ba_op_fail l)) h with ⟨hm, ht⟩; exact ⟨hm, fun _ => ht⟩
  · rcases viaP_errW (failW_of_strong (ba_op_fail l)) h with ⟨hm, ht⟩; exact ⟨hm, fun _ => ht⟩
  · rcases viaP_errW (failW_of_strong (ba_op_fail l)) h with ⟨hm, ht⟩; exact ⟨hm, fun _ => ht⟩
  · rcases viaP_errW (failW_of_strong (ba_op_fail l)) h with ⟨hm, ht⟩; exact ⟨hm, fun _ => ht⟩
  · rcases viaP_errW (failW_of_strong (ba_op_fail l)) h with ⟨hm, ht⟩; exact ⟨hm, fun _ => ht⟩
  · rcases viaP_errW (failW_of_strong (ba_op_fail l)) h with ⟨hm, ht⟩; exact ⟨hm, fun _ => ht⟩
  · rcases viaP_errW (failW_of_strong (ba_op_cccc_fail l)) h with ⟨hm, ht⟩; exact ⟨hm, fun _ => ht⟩
  · rcases viaP_errW (failW_of_strong (ba_op_cccc_fail l)) h with ⟨hm, ht⟩; exact ⟨hm, fun _ => ht⟩
  · rcases viaP_errW (failW_of_strong (ba_op_cccc_fail l)) h with ⟨hm, ht⟩; exact ⟨hm, fun _ => ht⟩
  · rcases viaP_errW (failW_of_strong (ba_op_cccc_fail l)) h with ⟨hm, ht⟩; exact ⟨hm, fun _ => ht⟩
  · rcases viaP_errW (failW_of_strong (ba_op_cccc_fail l)) h with ⟨hm, ht⟩; exact ⟨hm, fun _ => ht⟩
  · rcases viaP_errW (failW_of_strong (ba_op_cccc_fail l)) h with ⟨hm, ht⟩; exact ⟨hm, fun _ => ht⟩
  · rcases viaP_errW (failW_of_strong (ba_op_cccc_fail l)) h with ⟨hm, ht⟩; exact ⟨hm, fun _ => ht⟩
  · rcases viaP_errW (failW_of_strong (ba_op_cccc_fail l)) h with ⟨hm, ht⟩; exact ⟨hm, fun _ => ht⟩
  · rcases viaP_errW (failW_of_strong (aa_op_ccbb_fail l)) h with ⟨hm, ht⟩; exact ⟨hm, fun _ => ht⟩
  · rcases viaP_errW (failW_of_strong (aa_op_ccbb_fail l)) h with ⟨hm, ht⟩; exact ⟨hm, fun _ => ht⟩
  · rcases viaP_errW (failW_of_strong (aa_op_ccbb_fail l)) h with ⟨hm, ht⟩; exact ⟨hm, fun _ => ht⟩
  · rcases viaP_errW (failW_of_strong (aa_op_ccbb_fail l)) h with ⟨hm, ht⟩; exact ⟨hm, fun _ => ht⟩
  · rcases viaP_errW (failW_of_strong (aa_op_ccbb_fail l)) h with ⟨hm, ht⟩; exact ⟨hm, fun _ => ht⟩
  · rcases viaP_errW (failW_of_strong (aa_op_ccbb_fail l)) h with ⟨hm, ht⟩; exact ⟨hm, fun _ => ht⟩
  · rcases viaP_errW (failW_of_strong (aa_op_ccbb_fail l)) h with ⟨hm, ht⟩; exact ⟨hm, fun _ => ht⟩
  · rcases viaP_errW (failW_of_strong (aa_op_ccbb_fail l)) h with ⟨hm, ht⟩; exact ⟨hm, fun _ => ht⟩
  · rcases viaP_errW (failW_of_strong (aa_op_ccbb_fail l)) h with ⟨hm, ht⟩; exact ⟨hm, fun _ => ht⟩
  · rcases viaP_errW (failW_of_strong (aa_op_ccbb_fail l)) h with ⟨hm, ht⟩; exact ⟨hm, fun _ => ht⟩
  · rcases viaP_errW (failW_of_strong (aa_op_ccbb_fail l)) h with ⟨hm, ht⟩; exact ⟨hm, fun _ => ht⟩
  · exact DResult.noConfusion h
  · exact DResult.noConfusion h
  · exact DResult.noConfusion h
  · exact DResult.noConfusion h
  · exact DResult.noConfusion h
  · exact DResult.noConfusion h
  · exact DResult.noConfusion h
  · exact DResult.noConfusion h
  · exact DResult.noConfusion h
  · exact DResult.noConfusion h
  · exact DResult.noConfusion h
  · exact DResult.noConfusion h
  · exact DResult.noConfusion h
  · exact DResult.noConfusion h
  · exact DResult.noConfusion h
  · exact DResult.noConfusion h
  · exact DResult.noConfusion h
  · exact DResult.noConfusion h
  · exact DResult.noConfusion h
  · exact DResult.noConfusion h
  · exact DResult.noConfusion h
  · exact DResult.noConfusion h
  · exact DResult.noConfusion h
  · exact DResult.noConfusion h
  · exact DResult.noConfusion h
  · exact DResult.noConfusion h
  · exact DResult.noConfusion h
  · exact DResult.noConfusion h
  · exact DResult.noConfusion h

set_option maxHeartbeats 8000000 in
/-- A mapped non-zero opcode with fewer code units than its format
requires decodes to `Truncated` with nothing consumed. -/
theorem decodeTail_short (op : Nat) (hop256 : op < 256) (hop : op ≠ 0) (l : List Nat)
    (hlen : l.length < minLen op) : decodeTail op l = .err .truncated l := by
  interval_cases op
  · exact absurd rfl hop
  · exact viaP_short (ba_op_short l hlen)
  · exact viaP_short (aa_op_bbbb_short l hlen)
  · exact viaP_short (zz_op_aaaabbbb_short l hlen)
  · exact viaP_short (ba_op_short l hlen)
  · exact viaP_short (aa_op_bbbb_short l hlen)
  · exact viaP_short (zz_op_aaaabbbb_short l hlen)
  · exact viaP_short (ba_op_short l hlen)
  · exact viaP_short (aa_op_bbbb_short l hlen)
  · exact viaP_short (zz_op_aaaabbbb_short l hlen)
  · exact viaP_short (aa_op_short l hlen)
  · exact viaP_short (aa_op_short l hlen)
  · exact viaP_short (aa_op_short l hlen)
  · exact viaP_short (aa_op_short l hlen)
  · exact viaP_short (zz_op_short l hlen)
  · exact viaP_short (aa_op_short l hlen)
  · exact viaP_short (aa_op_short l hlen)
  · exact viaP_short (aa_op_short l hlen)
  · exact viaP_short (ba_op_short l hlen)
  · exact viaP_short (aa_op_bbbb_short l hlen)
  · exact viaP_short (aa_op_bbbbbbbb_short l hlen)
  · exact viaP_short (aa_op_bbbb_short l hlen)
  · exact viaP_short (aa_op_bbbb_short l hlen)
  · exact viaP_short (aa_op_bbbbbbbb_short l hlen)
  · exact viaP_short (aa_op_b16_short l hlen)
  · exact viaP_short (aa_op_bbbb_short l hlen)
  · exact viaP_short (aa_op_bbbb_short l hlen)
  · exact viaP_short (aa_op_bbbbbbbb_short l hlen)
  · exact viaP_short (aa_op_bbbb_short l hlen)
  · exact viaP_short (aa_op_short l hlen)
  · exact viaP_short (aa_op_short l hlen)
  · exact viaP_short (aa_op_bbbb_short l hlen)
  · exact viaP_short (ba_op_cccc_short l hlen)
  · exact viaP_short (ba_op_short l hlen)
  · exact viaP_short (aa_op_bbbb_short l hlen)
  · exact viaP_short (ba_op_cccc_short l hlen)
  · exact viaP_short (ag_op_bbbbfedc_short l hlen)
  · exact viaP_short (aa_op_ccccbbbb_short l hlen)
  · exact viaP_short (aa_op_bbbbbbbb_short l hlen)
  · exact viaP_short (aa_op_short l hlen)
  · exact viaP_short (aa_op_short l hlen)
  · exact viaP_short (zz_op_aaaa_short l hlen)
  · exact viaP_short (zz_op_aaaaaaaa_short l hlen)
  · exact viaP_short (aa_op_bbbbbbbb_short l hlen)
  · exact viaP_short (aa_op_bbbbbbbb_short l hlen)
  · exact viaP_short (aa_op_ccbb_short l hlen)
  · exact viaP_short (aa_op_ccbb_short l hlen)
  · exact viaP_short (aa_op_ccbb_short l hlen)
  · exact viaP_short (aa_op_ccbb_short l hlen)
  · exact viaP_short (aa_op_ccbb_short l hlen)
  · exact viaP_short (ba_op_cccc_short l hlen)
  · exact viaP_short (ba_op_cccc_short l hlen)
  · exact viaP_short (ba_op_cccc_short l hlen)
  · exact viaP_short (ba_op_cccc_short l hlen)
  · exact viaP_short (ba_op_cccc_short l hlen)
  · exact viaP_short (ba_op_cccc_short l hlen)
  · exact viaP_short (aa_op_bbbb_short l hlen)
  · exact viaP_short (aa_op_bbbb_short l hlen)
  · exact viaP_short (aa_op_bbbb_short l hlen)
  · exact viaP_short (aa_op_bbbb_short l hlen)
  · exact viaP_short (aa_op_bbbb_short l hlen)
  · exact viaP_short (aa_op_bbbb_short l hlen)
  · exact (Nat.not_lt_zero _ hlen).elim
  · exact (Nat.not_lt_zero _ hlen).elim
  · exact (Nat.not_lt_zero _ hlen).elim
  · exact (Nat.not_lt_zero _ hlen).elim
  · exact (Nat.not_lt_zero _ hlen).elim
  · exact (Nat.not_lt_zero _ hlen).elim
  · exact viaP_short (aa_op_ccbb_short l hlen)
  · exact viaP_short (aa_op_ccbb_short l hlen)
  · exact viaP_short (aa_op_ccbb_short l hlen)
  · exact viaP_short (aa_op_ccbb_short l hlen)
  · exact viaP_short (aa_op_ccbb_short l hlen)
  · exact viaP_short (aa_op_ccbb_short l hlen)
  · exact viaP_short (aa_op_ccbb_short l hlen)
  · exact viaP_short (aa_op_ccbb_short l hlen)
  · exact viaP_short (aa_op_ccbb_short l hlen)
  · exact viaP_short (aa_op_ccbb_short l hlen)
  · exact viaP_short (aa_op_ccbb_short l hlen)
  · exact viaP_short (aa_op_ccbb_short l hlen)
  · exact viaP_short (aa_op_ccbb_short l hlen)
  · exact viaP_short (aa_op_ccbb_short l hlen)
  · exact viaP_short (ba_op_cccc_short l hlen)
  · exact viaP_short (ba_op_cccc_short l hlen)
  · exact viaP_short (ba_op_cccc_short l hlen)
  · exact viaP_short (ba_op_cccc_short l hlen)
  · exact viaP_short (ba_op_cccc_short l hlen)
  · exact viaP_short (ba_op_cccc_short l hlen)
  · exact viaP_short (ba_op_cccc_short l hlen)
  · exact viaP_short (ba_op_cccc_short l hlen)
  · exact viaP_short (ba_op_cccc_short l hlen)
  · exact viaP_short (ba_op_cccc_short l hlen)
  · exact viaP_short (ba_op_cccc_short l hlen)
  · exact viaP_short (ba_op_cccc_short l hlen)
  · exact viaP_short (ba_op_cccc_short l hlen)
  · exact viaP_short (ba_op_cccc_short l hlen)
  · exact viaP_short (aa_op_bbbb_short l hlen)
  · exact viaP_short (aa_op_bbbb_short l hlen)
  · exact viaP_short (aa_op_bbbb_short l hlen)
  · exact viaP_short (aa_op_bbbb_short l hlen)
  · exact viaP_short (aa_op_bbbb_short l hlen)
  · exact viaP_short (aa_op_bbbb_short l hlen)
  · exact viaP_short (aa_op_bbbb_short l hlen)
  · exact viaP_short (aa_op_bbbb_short l hlen)
  · exact viaP_short (aa_op_bbbb_short l hlen)
  · exact viaP_short (aa_op_bbbb_short l hlen)
  · exact viaP_short (aa_op_bbbb_short l hlen)
  · exact viaP_short (aa_op_bbbb_short l hlen)
  · exact viaP_short (aa_op_bbbb_short l hlen)
  · exact viaP_short (aa_op_bbbb_short l hlen)
  · exact viaP_short (ag_op_bbbbfedc_short l hlen)
  · exact viaP_short (ag_op_bbbbfedc_short l hlen)
  · exact viaP_short (ag_op_bbbbfedc_short l hlen)
  · exact viaP_short (ag_op_bbbbfedc_short l hlen)
  · exact viaP_short (ag_op_bbbbfedc_short l hlen)
  · exact (Nat.not_lt_zero _ hlen).elim
  · exact viaP_short (aa_op_ccccbbbb_short l hlen)
  · exact viaP_short (aa_op_ccccbbbb_short l hlen)
  · exact viaP_short (aa_op_ccccbbbb_short l hlen)
  · exact viaP_short (aa_op_ccccbbbb_short l hlen)
  · exact viaP_short (aa_op_ccccbbbb_short l hlen)
  · exact (Nat.not_lt_zero _ hlen).elim
  · exact (Nat.not_lt_zero _ hlen).elim
  · exact viaP_short (ba_op_short l hlen)
  · exact viaP_short (ba_op_short l hlen)
  · exact viaP_short (ba_op_short l hlen)
  · exact viaP_short (ba_op_short l hlen)
  · exact viaP_short (ba_op_short l hlen)
  · exact viaP_short (ba_op_short l hlen)
  · exact viaP_short (ba_op_short l hlen)
  · exact viaP_short (ba_op_short l hlen)
  · exact viaP_short (ba_op_short l hlen)
  · exact viaP_short (ba_op_short l hlen)
  · exact viaP_short (ba_op_short l hlen)
  · exact viaP_short (ba_op_short l hlen)
  · exact viaP_short (ba_op_short l hlen)
  · exact viaP_short (ba_op_short l hlen)
  · exact viaP_short (ba_op_short l hlen)
  · exact viaP_short (ba_op_short l hlen)
  · exact viaP_short (ba_op_short l hlen)
  · exact viaP_short (ba_op_short l hlen)
  · exact viaP_short (ba_op_short l hlen)
  · exact viaP_short (ba_op_short l hlen)
  · exact viaP_short (ba_op_short l hlen)
  · exact viaP_short (aa_op_ccbb_short l hlen)
  · exact viaP_short (aa_op_ccbb_short l hlen)
  · exact viaP_short (aa_op_ccbb_short l hlen)
  · exact viaP_short (aa_op_ccbb_short l hlen)
  · exact viaP_short (aa_op_ccbb_short l hlen)
  · exact viaP_short (aa_op_ccbb_short l hlen)
  · exact viaP_short (aa_op_ccbb_short l hlen)
  · exact viaP_short (aa_op_ccbb_short l hlen)
  · exact viaP_short (aa_op_ccbb_short l hlen)
  · exact viaP_short (aa_op_ccbb_short l hlen)
  · exact viaP_short (aa_op_ccbb_short l hlen)
  · exact viaP_short (aa_op_ccbb_short l hlen)
  · exact viaP_short (aa_op_ccbb_short l hlen)
  · exact viaP_short (aa_op_ccbb_short l hlen)
  · exact viaP_short (aa_op_ccbb_short l hlen)
  · exact viaP_short (aa_op_ccbb_short l hlen)
  · exact viaP_short (aa_op_ccbb_short l hlen)
  · exact viaP_short (aa_op_ccbb_short l hlen)
  · exact viaP_short (aa_op_ccbb_short l hlen)
  · exact viaP_short (aa_op_ccbb_short l hlen)
  · exact viaP_short (aa_op_ccbb_short l hlen)
  · exact viaP_short (aa_op_ccbb_short l hlen)
  · exact viaP_short (aa_op_ccbb_short l hlen)
  · exact viaP_short (aa_op_ccbb_short l hlen)
  · exact viaP_short (aa_op_ccbb_short l hlen)
  · exact viaP_short (aa_op_ccbb_short l hlen)
  · exact viaP_short (aa_op_ccbb_short l hlen)
  · exact viaP_short (aa_op_ccbb_short l hlen)
  · exact viaP_short (aa_op_ccbb_short l hlen)
  · exact viaP_short (aa_op_ccbb_short l hlen)
  · exact viaP_short (aa_op_ccbb_short l hlen)
  · exact viaP_short (aa_op_ccbb_short l hlen)
  · exact viaP_short (ba_op_short l hlen)
  · exact viaP_short (ba_op_short l hlen)
  · exact viaP_short (ba_op_short l hlen)
  · exact viaP_short (ba_op_short l hlen)
  · exact viaP_short (ba_op_short l hlen)
  · exact viaP_short (ba_op_short l hlen)
  · exact viaP_short (ba_op_short l hlen)
  · exact viaP_short (ba_op_short l hlen)
  · exact viaP_short (ba_op_short l hlen)
  · exact viaP_short (ba_op_short l hlen)
  · exact viaP_short (ba_op_short l hlen)
  · exact viaP_short (ba_op_short l hlen)
  · exact viaP_short (ba_op_short l hlen)
  · exact viaP_short (ba_op_short l hlen)
  · exact viaP_short (ba_op_short l hlen)
  · exact viaP_short (ba_op_short l hlen)
  · exact viaP_short (ba_op_short l hlen)
  · exact viaP_short (ba_op_short l hlen)
  · exact viaP_short (ba_op_short l hlen)
  · exact viaP_short (ba_op_short l hlen)
  · exact viaP_short (ba_op_short l hlen)
  · exact viaP_short (ba_op_short l hlen)
  · exact viaP_short (ba_op_short l hlen)
  · exact viaP_short (ba_op_short l hlen)
  · exact viaP_short (ba_op_short l hlen)
  · exact viaP_short (ba_op_short l hlen)
  · exact viaP_short (ba_op_short l hlen)
  · exact viaP_short (ba_op_short l hlen)
  · exact viaP_short (ba_op_short l hlen)
  · exact viaP_short (ba_op_short l hlen)
  · exact viaP_short (ba_op_short l hlen)
  · exact viaP_short (ba_op_short l hlen)
  · exact viaP_short (ba_op_cccc_short l hlen)
  · exact viaP_short (ba_op_cccc_short l hlen)
  · exact viaP_short (ba_op_cccc_short l hlen)
  · exact viaP_short (ba_op_cccc_short l hlen)
  · exact viaP_short (ba_op_cccc_short l hlen)
  · exact viaP_short (ba_op_cccc_short l hlen)
  · exact viaP_short (ba_op_cccc_short l hlen)
  · exact viaP_short (ba_op_cccc_short l hlen)
  · exact viaP_short (aa_op_ccbb_short l hlen)
  · exact viaP_short (aa_op_ccbb_short l hlen)
  · exact viaP_short (aa_op_ccbb_short l hlen)
  · exact viaP_short (aa_op_ccbb_short l hlen)
  · exact viaP_short (aa_op_ccbb_short l hlen)
  · exact viaP_short (aa_op_ccbb_short l hlen)
  · exact viaP_short (aa_op_ccbb_short l hlen)
  · exact viaP_short (aa_op_ccbb_short l hlen)
  · exact viaP_short (aa_op_ccbb_short l hlen)
  · exact viaP_short (aa_op_ccbb_short l hlen)
  · exact viaP_short (aa_op_ccbb_short l hlen)
  · exact (Nat.not_lt_zero _ hlen).elim
  · exact (Nat.not_lt_zero _ hlen).elim
  · exact (Nat.not_lt_zero _ hlen).elim
  · exact (Nat.not_lt_zero _ hlen).elim
  · exact (Nat.not_lt_zero _ hlen).elim
  · exact (Nat.not_lt_zero _ hlen).elim
  · exact (Nat.not_lt_zero _ hlen).elim
  · exact (Nat.not_lt_zero _ hlen).elim
  · exact (Nat.not_lt_zero _ hlen).elim
  · exact (Nat.not_lt_zero _ hlen).elim
  · exact (Nat.not_lt_zero _ hlen).elim
  · exact (Nat.not_lt_zero _ hlen).elim
  · exact (Nat.not_lt_zero _ hlen).elim
  · exact (Nat.not_lt_zero _ hlen).elim
  · exact (Nat.not_lt_zero _ hlen).elim
  · exact (Nat.not_lt_zero _ hlen).elim
  · exact (Nat.not_lt_zero _ hlen).elim
  · exact (Nat.not_lt_zero _ hlen).elim
  · exact (Nat.not_lt_zero _ hlen).elim
  · exact (Nat.not_lt_zero _ hlen).elim
  · exact (Nat.not_lt_zero _ hlen).elim
  · exact (Nat.not_lt_zero _ hlen).elim
  · exact (Nat.not_lt_zero _ hlen).elim
  · exact (Nat.not_lt_zero _ hlen).elim
  · exact (Nat.not_lt_zero _ hlen).elim
  · exact (Nat.not_lt_zero _ hlen).elim
  · exact (Nat.not_lt_zero _ hlen).elim
  · exact (Nat.not_lt_zero _ hlen).elim
  · exact (Nat.not_lt_zero _ hlen).elim

/-!
## Decoder-level claims
-/

/-- Claim C5 — round-trip length: whenever `decode_one` succeeds with
instruction `i` and advanced slice `rest`, the declared `Instruction::len`
equals the number of code units consumed, i.e.
`instLen i = l.length - rest.length` (stated subtraction-free). -/
theorem decodeOne_len_eq_consumed (l : List Nat) (i : Instruction) (rest : List Nat)
    (h : decodeOne l = .ok i rest) : instLen i + rest.length = l.length := by
  match l with
  | [] => exact DResult.noConfusion h
  | w :: t => exact decodeTail_len (asU8 w) (Nat.mod_lt _ (by omega)) (w :: t) i rest h

/-- Witness for C5: decoding `return v3` (one unit) consumes one unit. -/
theorem decodeOne_len_eq_consumed_witness :
    instLen (.Return 3) + List.length ([] : List Nat) = List.length [0x030f] :=
  decodeOne_len_eq_consumed [0x030f] (.Return 3) [] rfl

/-- Claim C3 counterexample: the claim says every too-short buffer
(including the empty one) yields `Truncated` with nothing consumed.  In
fact `decode_one` panics on the empty buffer (`bytecode[0]` is out of
bounds), and on the packed-switch payload ident `[0x0100]` it returns
`Truncated` only after having consumed the first code unit (the slice
left behind is `[]`, not the original input). -/
theorem decodeOne_truncation_counterexample :
    decodeOne [] = .panic ∧ decodeOne [0x0100] = .err .truncated [] :=
  ⟨rfl, rfl⟩

/-- Claim C3, amended: for a nonempty buffer whose opcode byte is not
0x00, (1) any `Truncated` error leaves the input slice unchanged, and
(2) if fewer code units remain than the opcode's format requires
(`minLen`), decoding returns `Truncated` with the slice unchanged.  The
empty buffer (panic) and the opcode-0x00 payload headers (which consume
before failing) are the exceptions the counterexample forces. -/
theorem decodeOne_truncation_amended :
    (∀ w t e rest, asU8 w ≠ 0 → decodeOne (w :: t) = .err e rest →
        e = .truncated → rest = w :: t)
  ∧ (∀ w t, asU8 w ≠ 0 → (w :: t).length < minLen (asU8 w) →
        decodeOne (w :: t) = .err .truncated (w :: t)) := by
  constructor
  · intro w t e rest hop h ht
    exact (decodeTail_err (asU8 w) (Nat.mod_lt _ (by omega)) (w :: t) e rest h).2 hop ht
  · intro w t hop hlen
    exact decodeTail_short (asU8 w) (Nat.mod_lt _ (by omega)) hop (w :: t) hlen

/-- Witness for the amended C3 at `const/16` with only one of two units:
the error is `Truncated` and the slice is unchanged. -/
theorem decodeOne_truncation_amended_witness :
    ([0x0013] : List Nat) = [0x0013] ∧ decodeOne [0x0013] = .err .truncated [0x0013] :=
  ⟨decodeOne_truncation_amended.1 0x0013 [] .truncated [0x0013] (by decide) rfl rfl,
   decodeOne_truncation_amended.2 0x0013 [] (by decide) (by decide)⟩

/-- Claim C1 — the fill-array-data bug: on a complete fill-array-data
table with `element_width = 2`, `size = 3` (7 code units in total, as the
claim computes), `decode_one` does not return `Metadata { length: 7 }`;
it reaches `todo!("handle inline metadata?")` and panics.  Moreover no
input whatsoever makes `decode_one` return a `Metadata` error: the
variant is never constructed (decode.rs's `decode_all` match arm for it
is dead code). -/
theorem decodeOne_metadata_never_returned :
    decodeOne [0x0300, 0x0002, 0x0003, 0x0000, 0x1111, 0x2222, 0x3333] = .panic
  ∧ (∀ l n rest, decodeOne l ≠ .err (.metadata n) rest) := by
  refine ⟨rfl, ?_⟩
  intro l n rest h
  match l with
  | [] => exact DResult.noConfusion h
  | w :: t =>
    exact (decodeTail_err (asU8 w) (Nat.mod_lt _ (by omega)) (w :: t) _ rest h).1 n rfl

/-- Witness for C1's universal part at a concrete input. -/
theorem decodeOne_metadata_never_returned_witness :
    decodeOne [0x0012] ≠ .err (.metadata 7) [] :=
  decodeOne_metadata_never_returned.2 [0x0012] 7 []

/-- Claim C4 — unmapped opcodes: for every opcode byte with no mapped
format the source hits `todo!("handle opcode {unk:#x?}")`, i.e. panics,
instead of returning the `Encoding` error. -/
theorem decodeOne_unmapped_opcodes_panic :
    decodeOne [0x003e] = .panic ∧ decodeOne [0x003f] = .panic
  ∧ decodeOne [0x0040] = .panic ∧ decodeOne [0x0041] = .panic
  ∧ decodeOne [0x0042] = .panic ∧ decodeOne [0x0043] = .panic
  ∧ decodeOne [0x0073] = .panic ∧ decodeOne [0x0079] = .panic
  ∧ decodeOne [0x007a] = .panic ∧ decodeOne [0x00e3] = .panic
  ∧ decodeOne [0x00ff] = .panic :=
  ⟨rfl, rfl, rfl, rfl, rfl, rfl, rfl, rfl, rfl, rfl, rfl⟩

/-- Claim C8 — invoke-static register extraction: decoding the 35c
encoding `[0x2071, 0x4455, 0x0030]` yields `invoke-static` with
`nargs = 2` and argument list `[c, d, e, f, g] = [0, 3, 0, 0, 0]`, whose
first `nargs` entries are exactly `[0, 3]` in declared order even though
the raw `F|E|D|C` word `0x0030` stores them in the order 3-then-0. -/
theorem decodeOne_invoke_static_args :
    decodeOne [0x2071, 0x4455, 0x0030] = .ok (.InvokeStatic 0x4455 2 [0, 3, 0, 0, 0]) []
  ∧ List.take 2 [0, 3, 0, 0, 0] = [0, 3] :=
  ⟨rfl, rfl⟩


/-- Claim C9 — sign extension of literals: the 4-bit `const/4` literal,
the 16-bit `const/16` literal and the 8-bit `add-int/lit8` literal all
decode to their two's-complement value at the respective width: a value
with the high bit set becomes negative (nibble `0xf` gives `-1`). -/
theorem decodeOne_sign_extension :
    (∀ b a : Nat, b < 16 → a < 16 →
      decodeOne [(b * 16 + a) * 256 + 0x12] =
        .ok (.Const4 a (if 8 ≤ b then (b : Int) - 16 else (b : Int))) [])
  ∧ (∀ aa bbbb : Nat, aa < 256 → bbbb < 65536 →
      decodeOne [aa * 256 + 0x13, bbbb] =
        .ok (.Const16 aa (if 32768 ≤ bbbb then (bbbb : Int) - 65536 else (bbbb : Int))) [])
  ∧ (∀ aa cc bb : Nat, aa < 256 → cc < 256 → bb < 256 →
      decodeOne [aa * 256 + 0xd8, cc * 256 + bb] =
        .ok (.AddInt8 aa bb (if 128 ≤ cc then (cc : Int) - 256 else (cc : Int))) []) := by
  refine ⟨?_, ?_, ?_⟩
  · intro b a hb ha
    have e2 : asU8 ((b * 16 + a) * 256 + 0x12) = 0x12 := by unfold asU8; omega
    have h1 : decodeOne [(b * 16 + a) * 256 + 0x12] =
        viaP ba_op (fun ⟨src, dst⟩ => .Const4 dst (toI8 (if 8 ≤ src then 240 + src else src)))
          [(b * 16 + a) * 256 + 0x12] := by
      show decodeTail (asU8 ((b * 16 + a) * 256 + 0x12)) _ = _
      rw [e2]
      rfl
    rw [h1]
    have hab : asU8 (asU16 ((b * 16 + a) * 256 + 0x12) / 256) = b * 16 + a := by
      unfold asU8 asU16; omega
    simp only [viaP, ba_op, aa_op, hab]
    have h3 : (b * 16 + a) % 16 = a := by omega
    have h4 : (b * 16 + a) / 16 = b := by omega
    rw [h3, h4]
    have h5 : toI8 (if 8 ≤ b then 240 + b else b) =
        (if 8 ≤ b then (b : Int) - 16 else (b : Int)) := by
      unfold toI8
      split_ifs <;> omega
    rw [h5]
  · intro aa bbbb haa hbb
    have e2 : asU8 (aa * 256 + 0x13) = 0x13 := by unfold asU8; omega
    have h1 : decodeOne [aa * 256 + 0x13, bbbb] =
        viaP aa_op_bbbb (fun ⟨dst, src⟩ => .Const16 dst (toI16 src)) [aa * 256 + 0x13, bbbb] := by
      show decodeTail (asU8 (aa * 256 + 0x13)) _ = _
      rw [e2]
      rfl
    rw [h1]
    have hA : asU8 (asU16 (aa * 256 + 0x13) / 256) = aa := by unfold asU8 asU16; omega
    have hB : asU16 bbbb = bbbb := by unfold asU16; omega
    simp only [viaP, aa_op_bbbb, hA, hB]
    have h5 : toI16 bbbb = (if 32768 ≤ bbbb then (bbbb : Int) - 65536 else (bbbb : Int)) := by
      unfold toI16
      split_ifs <;> omega
    rw [h5]
  · intro aa cc bb haa hcc hbb
    have e2 : asU8 (aa * 256 + 0xd8) = 0xd8 := by unfold asU8; omega
    have h1 : decodeOne [aa * 256 + 0xd8, cc * 256 + bb] =
        viaP aa_op_ccbb (fun ⟨dst, lit, src⟩ => .AddInt8 dst src (toI8 lit))
          [aa * 256 + 0xd8, cc * 256 + bb] := by
      show decodeTail (asU8 (aa * 256 + 0xd8)) _ = _
      rw [e2]
      rfl
    rw [h1]
    have hA : asU8 (asU16 (aa * 256 + 0xd8) / 256) = aa := by unfold asU8 asU16; omega
    have hC : asU8 (asU16 (cc * 256 + bb) / 256) = cc := by unfold asU8 asU16; omega
    have hB : asU8 (asU16 (cc * 256 + bb)) = bb := by unfold asU8 asU16; omega
    simp only [viaP, aa_op_ccbb, aa_op_bbbb, hA, hB, hC]
    have h5 : toI8 cc = (if 128 ≤ cc then (cc : Int) - 256 else (cc : Int)) := by
      unfold toI8
      split_ifs <;> omega
    rw [h5]

/-- Witness for C9: nibble `0xf` in `const/4` decodes to literal `-1`;
`const/16` of `0x8000` decodes to `-32768`; `add-int/lit8` with literal
byte `0xff` decodes to `-1`. -/
theorem decodeOne_sign_extension_witness :
    decodeOne [(15 * 16 + 0) * 256 + 0x12] =
      .ok (.Const4 0 (if 8 ≤ 15 then (15 : Int) - 16 else (15 : Int))) []
  ∧ decodeOne [0 * 256 + 0x13, 0x8000] =
      .ok (.Const16 0 (if 32768 ≤ 0x8000 then ((0x8000 : Nat) : Int) - 65536 else ((0x8000 : Nat) : Int))) []
  ∧ decodeOne [0 * 256 + 0xd8, 0xff * 256 + 0] =
      .ok (.AddInt8 0 0 (if 128 ≤ 0xff then ((0xff : Nat) : Int) - 256 else ((0xff : Nat) : Int))) [] :=
  ⟨decodeOne_sign_extension.1 15 0 (by decide) (by decide),
   decodeOne_sign_extension.2.1 0 0x8000 (by decide) (by decide),
   decodeOne_sign_extension.2.2 0 0xff 0 (by decide) (by decide) (by decide)⟩

-- ==================== blocks.rs embedding ====================

/-- `NextBranch` (blocks.rs lines 26-38). -/
inductive NextBranch where
  | none
  | goto (t : Nat)
  | cond (t f : Nat)
deriving DecidableEq

/-- `NextBranch::iter` (blocks.rs lines 40-49), as the list of targets. -/
def NextBranch.iter : NextBranch → List Nat
  | .none => []
  | .goto t => [t]
  | .cond t f => [t, f]

/-- `BasicBlock` (blocks.rs lines 17-22). -/
structure BasicBlock where
  instructions : List Instruction
  next : NextBranch

/-- Total encoded length of a run of instructions, in code units. -/
def sumLens (l : List Instruction) : Nat := (l.map instLen).sum

/-- `BTreeMap::get`: the block map is an association list where an
insertion conses the new binding; lookup takes the most recent binding,
which models `BTreeMap::insert`'s replace semantics. -/
def lookupBB : List (Nat × BasicBlock) → Nat → Option BasicBlock
  | [], _ => Option.none
  | (a, bb) :: m, k => if a = k then some bb else lookupBB m k

/-- `BTreeSet` of pending addresses: a strictly sorted list; insertion
keeps it sorted and duplicate-free, `pop_first` is the head. -/
def sinsert (x : Nat) (s : List Nat) : List Nat :=
  match s with
  | [] => [x]
  | a :: rest =>
    if x < a then x :: a :: rest
    else if x = a then a :: rest
    else a :: sinsert x rest

/-- The loop body of `decode_bb` (blocks.rs lines 86-110), with explicit
fuel.  A decode error makes the source's `.unwrap()` panic; both that
panic and fuel exhaustion are `none`. -/
def decodeBBGo (bytecode : List Nat) (avoid : List Nat) (cursor : Nat) :
    Nat → Option BasicBlock
  | 0 => Option.none
  | fuel + 1 =>
    match decodeOne (bytecode.drop cursor) with
    | .ok inst _ =>
      match controlFlow inst with
      | .fallThrough =>
        if (cursor + instLen inst) ∈ avoid then
          some ⟨[inst], .goto (cursor + instLen inst)⟩
        else
          match decodeBBGo bytecode avoid (cursor + instLen inst) fuel with
          | some bb => some ⟨inst :: bb.instructions, bb.next⟩
          | Option.none => Option.none
      | .goTo t => some ⟨[inst], .goto (resolveTarget cursor t)⟩
      | .branch t => some ⟨[inst], .cond (resolveTarget cursor t) (cursor + instLen inst)⟩
      | .terminate => some ⟨[inst], .none⟩
    | .err _ _ => Option.none
    | .panic => Option.none

/-- `decode_bb` (blocks.rs lines 80-113).  Every fall-through step
consumes at least one code unit and decoding past the end of the buffer
panics, so `length + 1` rounds of fuel cover every terminating run. -/
def decodeBB (bytecode : List Nat) (entry_point : Nat) (avoid : List Nat) : Option BasicBlock :=
  decodeBBGo bytecode avoid entry_point (bytecode.length + 1)

/-- The target loop of `basic_blocks` (blocks.rs lines 68-72): insert
each exit target that is not yet a key of `bbs` into the pending set. -/
def addPending (bbs : List (Nat × BasicBlock)) : List Nat → List Nat → List Nat
  | p, [] => p
  | p, t :: ts => addPending bbs (if (lookupBB bbs t).isNone then sinsert t p else p) ts

/-- Outcome of `basic_blocks`: the finished map, or a panic (from the
`unwrap` on a decode failure; fuel exhaustion is also mapped here). -/
inductive BBResult where
  | done (m : List (Nat × BasicBlock))
  | panic

/-- The worklist loop of `basic_blocks` (blocks.rs lines 66-74). -/
def bbLoop (bytecode : List Nat) : Nat → List Nat → List (Nat × BasicBlock) → BBResult
  | 0, _, _ => .panic
  | fuel + 1, pending, bbs =>
    match pending with
    | [] => .done bbs
    | a :: rest =>
      match decodeBB bytecode a rest with
      | Option.none => .panic
      | some bb => bbLoop bytecode fuel (addPending bbs rest bb.next.iter) ((a, bb) :: bbs)

/-- `basic_blocks` (blocks.rs lines 59-77).  The fuel bound is generous:
each address is popped at most twice, and every popped address beyond
the buffer or the entry list panics immediately. -/
def basicBlocks (bytecode : List Nat) (entries : List Nat) : BBResult :=
  bbLoop bytecode (2 * (bytecode.length + entries.length) + 4)
    (entries.foldl (fun s e => sinsert e s) [0]) []

-- ==================== set/map lemmas ====================

theorem mem_sinsert (x y : Nat) (s : List Nat) : y ∈ sinsert x s ↔ y = x ∨ y ∈ s := by
  induction s with
  | nil => simp [sinsert]
  | cons a rest ih =>
    unfold sinsert
    split_ifs with h1 h2
    · simp [or_comm, or_assoc]
    · subst h2; simp
    · simp only [List.mem_cons, ih]
      tauto

theorem sorted_sinsert (x : Nat) (s : List Nat) (hs : List.Sorted (· < ·) s) :
    List.Sorted (· < ·) (sinsert x s) := by
  induction s with
  | nil => simp [sinsert]
  | cons a rest ih =>
    rcases List.sorted_cons.mp hs with ⟨ha, hrest⟩
    unfold sinsert
    split_ifs with h1 h2
    · refine List.sorted_cons.mpr ⟨?_, hs⟩
      intro b hb
      rcases List.mem_cons.mp hb with rfl | hb'
      · exact h1
      · exact lt_trans h1 (ha b hb')
    · exact hs
    · refine List.sorted_cons.mpr ⟨?_, ih hrest⟩
      intro b hb
      rcases (mem_sinsert x b rest).mp hb with rfl | hb'
      · omega
      · exact ha b hb'

theorem mem_addPending_of_mem (bbs : List (Nat × BasicBlock)) (p ts : List Nat) (y : Nat)
    (hy : y ∈ p) : y ∈ addPending bbs p ts := by
  induction ts generalizing p with
  | nil => exact hy
  | cons t ts ih =>
    unfold addPending
    split_ifs with h
    · exact ih _ ((mem_sinsert t y p).mpr (Or.inr hy))
    · exact ih _ hy

theorem addPending_covers (bbs : List (Nat × BasicBlock)) (p ts : List Nat) (t : Nat)
    (ht : t ∈ ts) : lookupBB bbs t ≠ Option.none ∨ t ∈ addPending bbs p ts := by
  induction ts generalizing p with
  | nil => cases ht
  | cons u ts ih =>
    rcases List.mem_cons.mp ht with rfl | ht'
    · by_cases h : (lookupBB bbs t).isNone
      · right
        unfold addPending
        rw [if_pos h]
        exact mem_addPending_of_mem _ _ _ _ ((mem_sinsert t t p).mpr (Or.inl rfl))
      · exact Or.inl (by simpa [Option.isNone_iff_eq_none] using h)
    · unfold addPending
      split_ifs with h
      · exact ih _ ht'
      · exact ih _ ht'

theorem mem_addPending (bbs : List (Nat × BasicBlock)) (p ts : List Nat) (y : Nat)
    (hy : y ∈ addPending bbs p ts) :
    y ∈ p ∨ (y ∈ ts ∧ lookupBB bbs y = Option.none) := by
  induction ts generalizing p with
  | nil => exact Or.inl hy
  | cons t ts ih =>
    unfold addPending at hy
    split_ifs at hy with h
    · rcases ih _ hy with h1 | h2
      · rcases (mem_sinsert t y p).mp h1 with rfl | h1'
        · exact Or.inr ⟨List.mem_cons_self _ _, by simpa [Option.isNone_iff_eq_none] using h⟩
        · exact Or.inl h1'
      · exact Or.inr ⟨List.mem_cons_of_mem _ h2.1, h2.2⟩
    · rcases ih _ hy with h1 | h2
      · exact Or.inl h1
      · exact Or.inr ⟨List.mem_cons_of_mem _ h2.1, h2.2⟩

theorem sorted_addPending (bbs : List (Nat × BasicBlock)) (p ts : List Nat)
    (hp : List.Sorted (· < ·) p) : List.Sorted (· < ·) (addPending bbs p ts) := by
  induction ts generalizing p with
  | nil => exact hp
  | cons t ts ih =>
    unfold addPending
    split_ifs with h
    · exact ih _ (sorted_sinsert t p hp)
    · exact ih _ hp

theorem mem_foldl_sinsert (entries : List Nat) :
    ∀ s y, y ∈ entries.foldl (fun s e => sinsert e s) s ↔ (y ∈ entries ∨ y ∈ s) := by
  induction entries with
  | nil => simp
  | cons e es ih =>
    intro s y
    simp only [List.foldl_cons, ih, mem_sinsert, List.mem_cons]
    tauto

theorem sorted_foldl_sinsert (entries : List Nat) :
    ∀ s, List.Sorted (· < ·) s → List.Sorted (· < ·) (entries.foldl (fun s e => sinsert e s) s) := by
  induction entries with
  | nil => exact fun s hs => hs
  | cons e es ih => exact fun s hs => ih _ (sorted_sinsert e s hs)

-- ==================== worklist lemmas ====================

/-- Whatever is pending or already resolved when the loop finishes
normally is a key of the final map. -/
theorem bbLoop_keys (bc : List Nat) (fuel : Nat) :
    ∀ pending bbs m, bbLoop bc fuel pending bbs = .done m →
      ∀ a, (a ∈ pending ∨ lookupBB bbs a ≠ Option.none) → lookupBB m a ≠ Option.none := by
  induction fuel with
  | zero => intro _ _ _ h; cases h
  | succ fuel ih =>
    intro pending bbs m h a ha
    unfold bbLoop at h
    split at h
    case _ =>
      cases h
      rcases ha with h1 | h2
      · cases h1
      · exact h2
    case _ p rest =>
      split at h
      case _ => cases h
      case _ bb hbb =>
        refine ih _ _ _ h a ?_
        rcases ha with h1 | h2
        · rcases List.mem_cons.mp h1 with rfl | h1'
          · right
            unfold lookupBB
            simp
          · exact Or.inl (mem_addPending_of_mem _ _ _ _ h1')
        · right
          unfold lookupBB
          split_ifs with he
          · simp
          · exact h2

/-- Every block of the final map was produced by `decode_bb` at its key
address (with some avoid set). -/
theorem bbLoop_origin (bc : List Nat) (fuel : Nat) :
    ∀ pending bbs m, bbLoop bc fuel pending bbs = .done m →
      (∀ a bb, lookupBB bbs a = some bb → ∃ avoid, decodeBB bc a avoid = some bb) →
      ∀ a bb, lookupBB m a = some bb → ∃ avoid, decodeBB bc a avoid = some bb := by
  induction fuel with
  | zero => intro _ _ _ h; cases h
  | succ fuel ih =>
    intro pending bbs m h hinv
    unfold bbLoop at h
    split at h
    case _ =>
      cases h
      exact hinv
    case _ p rest =>
      split at h
      case _ => cases h
      case _ bb hbb =>
        refine ih _ _ _ h ?_
        intro a bb' hl
        unfold lookupBB at hl
        split_ifs at hl with he
        · subst he
          cases hl
          exact ⟨rest, hbb⟩
        · exact hinv a bb' hl

/-- Successor closure: in a normally-finished map every branch target of
every block is again a key. -/
theorem bbLoop_closed (bc : List Nat) (fuel : Nat) :
    ∀ pending bbs m, bbLoop bc fuel pending bbs = .done m →
      (∀ a bb, lookupBB bbs a = some bb →
        ∀ t ∈ bb.next.iter, t ∈ pending ∨ lookupBB bbs t ≠ Option.none) →
      ∀ a bb, lookupBB m a = some bb → ∀ t ∈ bb.next.iter, lookupBB m t ≠ Option.none := by
  induction fuel with
  | zero => intro _ _ _ h; cases h
  | succ fuel ih =>
    intro pending bbs m h hinv
    unfold bbLoop at h
    split at h
    case _ =>
      cases h
      intro a bb hl t ht
      rcases hinv a bb hl t ht with h1 | h2
      · cases h1
      · exact h2
    case _ p rest =>
      split at h
      case _ => cases h
      case _ bb hbb =>
        refine ih _ _ _ h ?_
        intro a bb' hl t ht
        unfold lookupBB at hl
        split_ifs at hl with he
        · -- the freshly inserted block: targets were just added or known
          cases hl
          rcases addPending_covers bbs rest _ t ht with h1 | h2
          · right
            unfold lookupBB
            split_ifs with hp
            · simp
            · exact h1
          · exact Or.inl h2
        · rcases hinv a bb' hl t ht with h1 | h2
          · rcases List.mem_cons.mp h1 with rfl | h1'
            · right
              unfold lookupBB
              simp
            · exact Or.inl (mem_addPending_of_mem _ _ _ _ h1')
          · right
            unfold lookupBB
            split_ifs with hp
            · simp
            · exact h2

/-- A resolved block whose key is no longer pending survives to the
final map unchanged: the key can only be re-inserted into the pending
set while it is absent from the map. -/
theorem bbLoop_persist (bc : List Nat) (fuel : Nat) :
    ∀ pending bbs m s bb, bbLoop bc fuel pending bbs = .done m →
      lookupBB bbs s = some bb → s ∉ pending → lookupBB m s = some bb := by
  induction fuel with
  | zero => intro _ _ _ _ _ h; cases h
  | succ fuel ih =>
    intro pending bbs m s bb h hl hs
    unfold bbLoop at h
    split at h
    case _ =>
      cases h
      exact hl
    case _ p rest =>
      split at h
      case _ => cases h
      case _ bbp hbbp =>
        have hps : p ≠ s := fun he => hs (he ▸ List.mem_cons_self _ _)
        refine ih _ _ _ s bb h ?_ ?_
        · unfold lookupBB
          rw [if_neg hps]
          exact hl
        · intro hmem
          rcases mem_addPending bbs rest bbp.next.iter s hmem with h1 | h2
          · exact hs (List.mem_cons_of_mem _ h1)
          · rw [hl] at h2
            cases h2.2


theorem getLast?_cons_ne_nil {α : Type} (a : α) (l : List α) (h : l ≠ []) :
    (a :: l).getLast? = l.getLast? := by
  cases l with
  | nil => cases h rfl
  | cons b t => exact List.getLast?_cons_cons

theorem dropLast_cons_ne_nil {α : Type} (a : α) (l : List α) (h : l ≠ []) :
    (a :: l).dropLast = a :: l.dropLast := by
  cases l with
  | nil => cases h rfl
  | cons b t => rfl

/-- Every instruction's encoded length is at least one code unit. -/
theorem instLen_pos (i : Instruction) : 1 ≤ instLen i := by
  cases i <;> simp [instLen]

/-- The first instruction of a decoded block is the instruction decoded
at the block's start address. -/
theorem decodeBBGo_head (bc avoid : List Nat) :
    ∀ fuel cursor bb, decodeBBGo bc avoid cursor fuel = some bb →
      ∀ i r, decodeOne (bc.drop cursor) = .ok i r → bb.instructions.head? = some i := by
  intro fuel
  induction fuel with
  | zero => intro _ _ h; cases h
  | succ fuel ih =>
    intro cursor bb h i r hd
    unfold decodeBBGo at h
    split at h
    case _ inst r' hinst =>
      rw [hinst] at hd
      cases hd
      split at h
      case _ =>
        split_ifs at h
        · cases h; rfl
        · split at h
          case _ bb' hbb' => cases h; rfl
          case _ => cases h
      case _ t hcf => cases h; rfl
      case _ t hcf => cases h; rfl
      case _ hcf => cases h; rfl
    case _ e r' hinst => cases h
    case _ hinst => cases h

/-- The exit descriptor of a decoded block, related to the control flow
of its final instruction: a `GoTo`/`Branch` target is resolved relative
to the address of the final instruction itself (`cursor` at the moment
the branch is decoded), not the address after it. -/
theorem decodeBBGo_last (bc avoid : List Nat) :
    ∀ fuel cursor bb, decodeBBGo bc avoid cursor fuel = some bb →
      bb.instructions ≠ []
      ∧ ∀ i, bb.instructions.getLast? = some i →
          (∀ t, controlFlow i = .goTo t →
              bb.next = .goto (resolveTarget (cursor + sumLens bb.instructions.dropLast) t))
        ∧ (∀ t, controlFlow i = .branch t →
              bb.next = .cond (resolveTarget (cursor + sumLens bb.instructions.dropLast) t)
                              (cursor + sumLens bb.instructions.dropLast + instLen i)) := by
  intro fuel
  induction fuel with
  | zero => intro _ _ h; cases h
  | succ fuel ih =>
    intro cursor bb h
    unfold decodeBBGo at h
    split at h
    case _ inst r' hinst =>
      split at h
      case _ hcf =>
        split_ifs at h with hav
        · cases h
          refine ⟨by simp, ?_⟩
          intro i hi
          simp only [List.getLast?_singleton, Option.some.injEq] at hi
          subst hi
          constructor
          · intro t ht
            rw [hcf] at ht
            cases ht
          · intro t ht
            rw [hcf] at ht
            cases ht
        · split at h
          case _ bb' hbb' =>
            cases h
            rcases ih _ _ hbb' with ⟨hne, hlast⟩
            refine ⟨by simp, ?_⟩
            intro i hi
            rw [getLast?_cons_ne_nil _ _ hne] at hi
            rcases hlast i hi with ⟨hg, hb⟩
            have hdl : (inst :: bb'.instructions).dropLast = inst :: bb'.instructions.dropLast :=
              dropLast_cons_ne_nil _ _ hne
            have hsum : cursor + sumLens (inst :: bb'.instructions).dropLast =
                cursor + instLen inst + sumLens bb'.instructions.dropLast := by
              rw [hdl]
              simp [sumLens]
              omega
            constructor
            · intro t ht
              rw [hsum]
              exact hg t ht
            · intro t ht
              rw [hsum]
              exact hb t ht
          case _ => cases h
      case _ t hcf =>
        cases h
        refine ⟨by simp, ?_⟩
        intro i hi
        simp only [List.getLast?_singleton, Option.some.injEq] at hi
        subst hi
        constructor
        · intro t' ht'
          rw [hcf] at ht'
          cases ht'
          simp [sumLens]
        · intro t' ht'
          rw [hcf] at ht'
          cases ht'
      case _ t hcf =>
        cases h
        refine ⟨by simp, ?_⟩
        intro i hi
        simp only [List.getLast?_singleton, Option.some.injEq] at hi
        subst hi
        constructor
        · intro t' ht'
          rw [hcf] at ht'
          cases ht'
        · intro t' ht'
          rw [hcf] at ht'
          cases ht'
          simp [sumLens]
      case _ hcf =>
        cases h
        refine ⟨by simp, ?_⟩
        intro i hi
        simp only [List.getLast?_singleton, Option.some.injEq] at hi
        subst hi
        constructor
        · intro t ht
          rw [hcf] at ht
          cases ht
        · intro t ht
          rw [hcf] at ht
          cases ht
    case _ e r' hinst => cases h
    case _ hinst => cases h

/-- A straight-line fall-through chain: from address `a` one reaches
address `e` by decoding successive fall-through instructions. -/
inductive FTChain (bc : List Nat) : Nat → Nat → Prop where
  | refl (a : Nat) : FTChain bc a a
  | step (a e : Nat) (i : Instruction) (r : List Nat)
      (hd : decodeOne (bc.drop a) = .ok i r)
      (hcf : controlFlow i = .fallThrough)
      (hch : FTChain bc (a + instLen i) e) : FTChain bc a e

theorem FTChain.le {bc : List Nat} {a e : Nat} (h : FTChain bc a e) : a ≤ e := by
  induction h with
  | refl => exact le_refl _
  | step a e i r hd hcf hch ih =>
    have := instLen_pos i
    omega

theorem FTChain.lt {bc : List Nat} {a e : Nat} (h : FTChain bc a e) (hne : a ≠ e) : a < e := by
  cases h with
  | refl => exact absurd rfl hne
  | step a e i r hd hcf hch =>
    have h1 := hch.le
    have := instLen_pos i
    omega

/-- Running `decode_bb` from an address on a fall-through chain towards
an avoided address `e` stops with a synthetic `Goto` at the first
avoided address on the chain, and the block covers the code units up to
exactly that address. -/
theorem decodeBBGo_chain (bc avoid : List Nat) (e : Nat) (he : e ∈ avoid) :
    ∀ fuel a bb, FTChain bc a e → a ≠ e →
      decodeBBGo bc avoid a fuel = some bb →
      ∃ a', bb.next = .goto a' ∧ a' ∈ avoid ∧ FTChain bc a' e ∧
        a + sumLens bb.instructions = a' := by
  intro fuel
  induction fuel with
  | zero => intro _ _ _ _ h; cases h
  | succ fuel ih =>
    intro a bb hch hne h
    cases hch with
    | refl => exact absurd rfl hne
    | step _ _ i r hd hcf hch' =>
      unfold decodeBBGo at h
      simp only [hd, hcf] at h
      split_ifs at h with hav
      · cases h
        exact ⟨a + instLen i, rfl, hav, hch', by simp [sumLens]⟩
      · have hne' : a + instLen i ≠ e := fun hh => hav (hh ▸ he)
        split at h
        case _ bb' hbb' =>
          cases h
          rcases ih _ _ hch' hne' hbb' with ⟨a', h1, h2, h3, h4⟩
          refine ⟨a', h1, h2, h3, ?_⟩
          simp [sumLens] at h4 ⊢
          omega
        case _ => cases h

/-- The decode of the slice at address `a` does not succeed (it returns
an error — on which `decode_bb`'s `unwrap` panics — or panics itself). -/
def decodeFails (bytecode : List Nat) (a : Nat) : Prop :=
  ∀ i rest, decodeOne (bytecode.drop a) ≠ .ok i rest

theorem decodeBB_fails (bc : List Nat) (a : Nat) (avoid : List Nat)
    (hf : decodeFails bc a) : decodeBB bc a avoid = Option.none := by
  unfold decodeBB
  unfold decodeBBGo
  split
  case _ i r hd => exact absurd hd (hf i r)
  case _ => rfl
  case _ => rfl

/-- If any pending address fails to decode, the worklist loop never
finishes with a map: the failure is reached and the `unwrap` panics. -/
theorem bbLoop_fails_no_done (bc : List Nat) (fuel : Nat) :
    ∀ pending bbs, (∃ a, a ∈ pending ∧ decodeFails bc a) →
      ∀ m, bbLoop bc fuel pending bbs ≠ .done m := by
  induction fuel with
  | zero => intro _ _ _ _ h; cases h
  | succ fuel ih =>
    intro pending bbs ⟨a, hap, haf⟩ m h
    unfold bbLoop at h
    split at h
    case _ => cases hap
    case _ p rest =>
      split at h
      case _ => cases h
      case _ bb hbb =>
        rcases List.mem_cons.mp hap with rfl | hrest
        · rw [decodeBB_fails bc a rest haf] at hbb
          cases hbb
        · exact ih _ _ ⟨a, mem_addPending_of_mem _ _ _ _ hrest, haf⟩ m h

/-- Worklist invariant for entry-point isolation: while a fall-through
chain towards the pending avoided address `e` has a pending start, every
finished run contains a block that ends exactly at `e` with a synthetic
`Goto e`. -/
theorem bbLoop_entry (bc : List Nat) (e : Nat) (fuel : Nat) :
    ∀ pending bbs m,
      bbLoop bc fuel pending bbs = .done m →
      List.Sorted (· < ·) pending →
      ((∃ s bb, lookupBB bbs s = some bb ∧ bb.next = .goto e ∧
          s + sumLens bb.instructions = e ∧ s ∉ pending)
       ∨ (∃ a, a ∈ pending ∧ FTChain bc a e ∧ a ≠ e ∧ e ∈ pending)) →
      ∃ s bb, lookupBB m s = some bb ∧ bb.next = .goto e ∧ s + sumLens bb.instructions = e := by
  induction fuel with
  | zero => intro _ _ _ h; cases h
  | succ fuel ih =>
    intro pending bbs m h hsorted hinv
    unfold bbLoop at h
    split at h
    case _ =>
      cases h
      rcases hinv with ⟨s, bb, h1, h2, h3, _⟩ | ⟨a, ha, _⟩
      · exact ⟨s, bb, h1, h2, h3⟩
      · cases ha
    case _ p rest =>
      split at h
      case _ => cases h
      case _ bbp hbbp =>
        have hrest_sorted : List.Sorted (· < ·) rest := (List.sorted_cons.mp hsorted).2
        have hp_lt : ∀ b ∈ rest, p < b := (List.sorted_cons.mp hsorted).1
        have hp_notin_rest : p ∉ rest := fun hmem => lt_irrefl p (hp_lt p hmem)
        refine ih _ _ _ h (sorted_addPending _ _ _ hrest_sorted) ?_
        rcases hinv with ⟨s, bb, h1, h2, h3, h4⟩ | ⟨a, hap, hch, hane, hep⟩
        · -- already achieved: persists through the iteration
          have hps : p ≠ s := fun heq => h4 (heq ▸ List.mem_cons_self _ _)
          left
          refine ⟨s, bb, ?_, h2, h3, ?_⟩
          · unfold lookupBB
            rw [if_neg hps]
            exact h1
          · intro hmem
            rcases mem_addPending _ _ _ _ hmem with h5 | h6
            · exact h4 (List.mem_cons_of_mem _ h5)
            · rw [h1] at h6
              cases h6.2
        · have halt : a < e := hch.lt hane
          rcases List.mem_cons.mp hap with rfl | harest
          · -- the chain witness itself was popped: decode its run
            have hep' : e ∈ rest := by
              rcases List.mem_cons.mp hep with heq | hh
              · exact absurd heq.symm hane
              · exact hh
            have hbbp' : decodeBBGo bc rest a (bc.length + 1) = some bbp := hbbp
            rcases decodeBBGo_chain bc rest e hep' _ a bbp hch hane hbbp' with ⟨a', h1, h2, h3, h4⟩
            by_cases hae : a' = e
            · subst hae
              left
              refine ⟨a, bbp, ?_, h1, h4, ?_⟩
              · unfold lookupBB
                rw [if_pos rfl]
              · intro hmem
                rcases mem_addPending _ _ _ _ hmem with h5 | h6
                · exact hp_notin_rest h5
                · rw [h1] at h6
                  exact hane (by simpa [NextBranch.iter] using h6.1)
            · right
              exact ⟨a', mem_addPending_of_mem _ _ _ _ h2, h3, hae,
                     mem_addPending_of_mem _ _ _ _ hep'⟩
          · -- some other pending address was popped; the witness survives
            have hep' : e ∈ rest := by
              rcases List.mem_cons.mp hep with heq | hh
              · exfalso
                have h7 := hp_lt a harest
                omega
              · exact hh
            right
            exact ⟨a, mem_addPending_of_mem _ _ _ _ harest, hch, hane,
                   mem_addPending_of_mem _ _ _ _ hep'⟩


/-- Splitting the encoded length of a prefix one instruction later. -/
theorem sumLens_take_succ (l : List Instruction) (k : Nat) (hk : k < l.length) :
    sumLens (l.take (k + 1)) = sumLens (l.take k) + instLen (l.get ⟨k, hk⟩) := by
  induction l generalizing k with
  | nil => cases hk
  | cons a t ih =>
    cases k with
    | zero => simp [sumLens]
    | succ j =>
      have hj : j < t.length := Nat.lt_of_succ_lt_succ hk
      have h1 := ih j hj
      simp only [List.take_succ_cons, sumLens, List.map_cons, List.sum_cons] at h1 ⊢
      simp only [List.get_cons_succ]
      omega

/-- The last element of a list, by index. -/
theorem getLast?_eq_get {α : Type} (l : List α) (k : Nat) (hk : k + 1 = l.length) :
    l.getLast? = some (l.get ⟨k, by omega⟩) := by
  induction l generalizing k with
  | nil => exact absurd hk (Nat.succ_ne_zero k)
  | cons a t ih =>
    cases t with
    | nil =>
      have hz : k = 0 := by simpa using hk
      subst hz
      rfl
    | cons b u =>
      cases k with
      | zero => simp at hk
      | succ j =>
        rw [List.getLast?_cons_cons]
        have hj : j + 1 = (b :: u).length := by simpa using hk
        rw [ih j hj]
        rfl

/-- Anatomy of a decoded block: its `k`-th instruction was decoded at the
block's start address plus the lengths of its predecessors, every
instruction before the last falls through, and a block whose *last*
instruction falls through stopped at an avoided address — its exit is a
synthetic `Goto` to the address right after its last instruction. -/
theorem decodeBBGo_instructions (bc avoid : List Nat) :
    ∀ fuel cursor bb, decodeBBGo bc avoid cursor fuel = some bb →
      ∀ k, ∀ hk : k < bb.instructions.length,
        (∃ r, decodeOne (bc.drop (cursor + sumLens (bb.instructions.take k))) =
            .ok (bb.instructions.get ⟨k, hk⟩) r)
      ∧ (k + 1 < bb.instructions.length →
          controlFlow (bb.instructions.get ⟨k, hk⟩) = .fallThrough)
      ∧ (k + 1 = bb.instructions.length →
          controlFlow (bb.instructions.get ⟨k, hk⟩) = .fallThrough →
          bb.next = .goto (cursor + sumLens bb.instructions)) := by
  intro fuel
  induction fuel with
  | zero => intro _ _ h; cases h
  | succ fuel ih =>
    intro cursor bb h k hk
    unfold decodeBBGo at h
    split at h
    case _ inst r' hinst =>
      split at h
      case _ hcf =>
        split_ifs at h with hav
        · cases h
          cases k with
          | zero =>
            refine ⟨⟨r', by simpa [sumLens] using hinst⟩, ?_, ?_⟩
            · intro hcontra
              simp at hcontra
            · intro _ _
              simp [sumLens]
          | succ j =>
            simp at hk
        · split at h
          case _ bb' hbb' =>
            cases h
            cases k with
            | zero =>
              refine ⟨⟨r', by simpa [sumLens] using hinst⟩, fun _ => hcf, ?_⟩
              intro h1 _
              exfalso
              have hne := (decodeBBGo_last bc avoid fuel _ bb' hbb').1
              have hz : bb'.instructions.length = 0 := by
                have h1x : 0 + 1 = (inst :: bb'.instructions).length := h1
                simp only [List.length_cons] at h1x
                omega
              exact hne (List.length_eq_zero.mp hz)
            | succ j =>
              have hj : j < bb'.instructions.length := by
                simp at hk
                omega
              rcases ih (cursor + instLen inst) bb' hbb' j hj with ⟨⟨r0, hd0⟩, hint, hlast⟩
              have haddr : cursor + sumLens ((inst :: bb'.instructions).take (j + 1)) =
                  cursor + instLen inst + sumLens (bb'.instructions.take j) := by
                simp only [List.take_succ_cons, sumLens, List.map_cons, List.sum_cons]
                omega
              refine ⟨⟨r0, by rw [haddr]; exact hd0⟩, ?_, ?_⟩
              · intro hlt
                have : j + 1 < bb'.instructions.length := by
                  simp at hlt
                  omega
                exact hint this
              · intro h1 h2
                have hje : j + 1 = bb'.instructions.length := by
                  simp at h1
                  omega
                have := hlast hje h2
                rw [this]
                have : cursor + instLen inst + sumLens bb'.instructions =
                    cursor + sumLens (inst :: bb'.instructions) := by
                  simp only [sumLens, List.map_cons, List.sum_cons]
                  omega
                rw [this]
          case _ => cases h
      case _ t hcf =>
        cases h
        cases k with
        | zero =>
          refine ⟨⟨r', by simpa [sumLens] using hinst⟩, ?_, ?_⟩
          · intro hcontra
            simp at hcontra
          · intro _ hft
            have hft' : controlFlow inst = ControlFlowM.fallThrough := hft
            rw [hcf] at hft'
            cases hft'
        | succ j => simp at hk
      case _ t hcf =>
        cases h
        cases k with
        | zero =>
          refine ⟨⟨r', by simpa [sumLens] using hinst⟩, ?_, ?_⟩
          · intro hcontra
            simp at hcontra
          · intro _ hft
            have hft' : controlFlow inst = ControlFlowM.fallThrough := hft
            rw [hcf] at hft'
            cases hft'
        | succ j => simp at hk
      case _ hcf =>
        cases h
        cases k with
        | zero =>
          refine ⟨⟨r', by simpa [sumLens] using hinst⟩, ?_, ?_⟩
          · intro hcontra
            simp at hcontra
          · intro _ hft
            have hft' : controlFlow inst = ControlFlowM.fallThrough := hft
            rw [hcf] at hft'
            cases hft'
        | succ j => simp at hk
    case _ e r' hinst => cases h
    case _ hinst => cases h

/-- Every block of a finished map was produced by `decode_bb` at its key. -/
theorem basicBlocks_origin (bc entries : List Nat) (m : List (Nat × BasicBlock))
    (h : basicBlocks bc entries = .done m) :
    ∀ a bb, lookupBB m a = some bb → ∃ avoid, decodeBB bc a avoid = some bb := by
  unfold basicBlocks at h
  exact bbLoop_origin bc _ _ _ _ h (by intro a bb hl; simp [lookupBB] at hl)

/-- Successor closure of a finished map, at the `basic_blocks` level. -/
theorem basicBlocks_closed_map (bc entries : List Nat) (m : List (Nat × BasicBlock))
    (h : basicBlocks bc entries = .done m) :
    ∀ a bb, lookupBB m a = some bb → ∀ t ∈ bb.next.iter, lookupBB m t ≠ Option.none := by
  unfold basicBlocks at h
  exact bbLoop_closed bc _ _ _ _ h (by intro a bb hl; simp [lookupBB] at hl)

/-- Address 0 and every supplied entry key a block of a finished map. -/
theorem basicBlocks_key_seed (bc entries : List Nat) (m : List (Nat × BasicBlock))
    (h : basicBlocks bc entries = .done m) (a : Nat) (ha : a = 0 ∨ a ∈ entries) :
    lookupBB m a ≠ Option.none := by
  unfold basicBlocks at h
  refine bbLoop_keys bc _ _ _ _ h a (Or.inl ?_)
  refine (mem_foldl_sinsert entries [0] a).mpr ?_
  rcases ha with rfl | h'
  · exact Or.inr (by simp)
  · exact Or.inl h'

/-- Address `a` is covered by the map `m`: it is the address of the
`k`-th instruction of some block of `m`. -/
def Covered (m : List (Nat × BasicBlock)) (a : Nat) : Prop :=
  ∃ b bb k, lookupBB m b = some bb ∧ k < bb.instructions.length ∧
    a = b + sumLens (bb.instructions.take k)

/-- Every key of a finished map is covered (as its block's first
instruction; blocks are never empty). -/
theorem covered_of_key (bc entries : List Nat) (m : List (Nat × BasicBlock))
    (h : basicBlocks bc entries = .done m) (a : Nat)
    (ha : lookupBB m a ≠ Option.none) : Covered m a := by
  cases hl : lookupBB m a with
  | none => exact absurd hl ha
  | some bb =>
    rcases basicBlocks_origin bc entries m h a bb hl with ⟨avoid, hdec⟩
    have hne := (decodeBBGo_last bc avoid _ a bb hdec).1
    exact ⟨a, bb, 0, hl, List.length_pos.mpr hne, by simp [sumLens]⟩

/-- Every covered address of a finished map was decoded successfully. -/
theorem covered_decodes (bc entries : List Nat) (m : List (Nat × BasicBlock))
    (h : basicBlocks bc entries = .done m) (a : Nat) (hc : Covered m a) :
    ∃ i r, decodeOne (bc.drop a) = .ok i r := by
  rcases hc with ⟨b, bb, k, hbb, hk, ha⟩
  subst ha
  rcases basicBlocks_origin bc entries m h b bb hbb with ⟨avoid, hdec⟩
  rcases (decodeBBGo_instructions bc avoid _ b bb hdec k hk).1 with ⟨r, hd⟩
  exact ⟨_, r, hd⟩

/-- Addresses reached during basic-block construction: the method start
(address 0), every supplied entry, and — from any reached address whose
instruction decodes — the fall-through successor and the resolved
branch targets, exactly the successors `decode_bb` pursues. -/
inductive Reach (bc : List Nat) (entries : List Nat) : Nat → Prop where
  | origin : Reach bc entries 0
  | entry (e : Nat) : e ∈ entries → Reach bc entries e
  | next (a : Nat) (i : Instruction) (r : List Nat) :
      Reach bc entries a → decodeOne (bc.drop a) = .ok i r →
      controlFlow i = .fallThrough → Reach bc entries (a + instLen i)
  | jump (a : Nat) (i : Instruction) (r : List Nat) (t : Int) :
      Reach bc entries a → decodeOne (bc.drop a) = .ok i r →
      controlFlow i = .goTo t → Reach bc entries (resolveTarget a t)
  | taken (a : Nat) (i : Instruction) (r : List Nat) (t : Int) :
      Reach bc entries a → decodeOne (bc.drop a) = .ok i r →
      controlFlow i = .branch t → Reach bc entries (resolveTarget a t)
  | notTaken (a : Nat) (i : Instruction) (r : List Nat) (t : Int) :
      Reach bc entries a → decodeOne (bc.drop a) = .ok i r →
      controlFlow i = .branch t → Reach bc entries (a + instLen i)

/-- In a normally-finished run, every reached address is covered by the
final map. -/
theorem basicBlocks_reach_covered (bc entries : List Nat) (m : List (Nat × BasicBlock))
    (h : basicBlocks bc entries = .done m) :
    ∀ a, Reach bc entries a → Covered m a := by
  intro a hr
  induction hr with
  | origin =>
    exact covered_of_key bc entries m h 0 (basicBlocks_key_seed bc entries m h 0 (Or.inl rfl))
  | entry e he =>
    exact covered_of_key bc entries m h e (basicBlocks_key_seed bc entries m h e (Or.inr he))
  | next a i r hra hd hcf ih =>
    rcases ih with ⟨b, bb, k, hbb, hk, ha⟩
    rcases basicBlocks_origin bc entries m h b bb hbb with ⟨avoid, hdec⟩
    rcases decodeBBGo_instructions bc avoid _ b bb hdec k hk with ⟨⟨r0, hd0⟩, hint, hlast⟩
    rw [← ha, hd] at hd0
    injection hd0 with h1 h2
    subst h1
    by_cases hkk : k + 1 < bb.instructions.length
    · refine ⟨b, bb, k + 1, hbb, hkk, ?_⟩
      rw [ha, sumLens_take_succ bb.instructions k hk]
      omega
    · have hke : k + 1 = bb.instructions.length := by omega
      have hnext := hlast hke hcf
      have hmem : (b + sumLens bb.instructions) ∈ bb.next.iter := by
        rw [hnext]
        simp [NextBranch.iter]
      have hkey := basicBlocks_closed_map bc entries m h b bb hbb _ hmem
      have heq : a + instLen (bb.instructions.get ⟨k, hk⟩) = b + sumLens bb.instructions := by
        have h2' : bb.instructions.take (k + 1) = bb.instructions :=
          List.take_of_length_le (by omega)
        have h3 := sumLens_take_succ bb.instructions k hk
        rw [h2'] at h3
        omega
      rw [heq]
      exact covered_of_key bc entries m h _ hkey
  | jump a i r t hra hd hcf ih =>
    rcases ih with ⟨b, bb, k, hbb, hk, ha⟩
    rcases basicBlocks_origin bc entries m h b bb hbb with ⟨avoid, hdec⟩
    rcases decodeBBGo_instructions bc avoid _ b bb hdec k hk with ⟨⟨r0, hd0⟩, hint, _⟩
    rw [← ha, hd] at hd0
    injection hd0 with h1 h2
    subst h1
    by_cases hkk : k + 1 < bb.instructions.length
    · rw [hcf] at hint
      cases hint hkk
    · have hke : k + 1 = bb.instructions.length := by omega
      have hgl : bb.instructions.getLast? = some (bb.instructions.get ⟨k, hk⟩) :=
        getLast?_eq_get _ k hke
      rcases (decodeBBGo_last bc avoid _ b bb hdec).2 _ hgl with ⟨hg, _⟩
      have hnext := hg t hcf
      have hdl : bb.instructions.dropLast = bb.instructions.take k := by
        rw [List.dropLast_eq_take]
        congr 1
        omega
      rw [hdl, ← ha] at hnext
      have hmem : resolveTarget a t ∈ bb.next.iter := by
        rw [hnext]
        simp [NextBranch.iter]
      exact covered_of_key bc entries m h _ (basicBlocks_closed_map bc entries m h b bb hbb _ hmem)
  | taken a i r t hra hd hcf ih =>
    rcases ih with ⟨b, bb, k, hbb, hk, ha⟩
    rcases basicBlocks_origin bc entries m h b bb hbb with ⟨avoid, hdec⟩
    rcases decodeBBGo_instructions bc avoid _ b bb hdec k hk with ⟨⟨r0, hd0⟩, hint, _⟩
    rw [← ha, hd] at hd0
    injection hd0 with h1 h2
    subst h1
    by_cases hkk : k + 1 < bb.instructions.length
    · rw [hcf] at hint
      cases hint hkk
    · have hke : k + 1 = bb.instructions.length := by omega
      have hgl : bb.instructions.getLast? = some (bb.instructions.get ⟨k, hk⟩) :=
        getLast?_eq_get _ k hke
      rcases (decodeBBGo_last bc avoid _ b bb hdec).2 _ hgl with ⟨_, hb⟩
      have hnext := hb t hcf
      have hdl : bb.instructions.dropLast = bb.instructions.take k := by
        rw [List.dropLast_eq_take]
        congr 1
        omega
      rw [hdl, ← ha] at hnext
      have hmem : resolveTarget a t ∈ bb.next.iter := by
        rw [hnext]
        simp [NextBranch.iter]
      exact covered_of_key bc entries m h _ (basicBlocks_closed_map bc entries m h b bb hbb _ hmem)
  | notTaken a i r t hra hd hcf ih =>
    rcases ih with ⟨b, bb, k, hbb, hk, ha⟩
    rcases basicBlocks_origin bc entries m h b bb hbb with ⟨avoid, hdec⟩
    rcases decodeBBGo_instructions bc avoid _ b bb hdec k hk with ⟨⟨r0, hd0⟩, hint, _⟩
    rw [← ha, hd] at hd0
    injection hd0 with h1 h2
    subst h1
    by_cases hkk : k + 1 < bb.instructions.length
    · rw [hcf] at hint
      cases hint hkk
    · have hke : k + 1 = bb.instructions.length := by omega
      have hgl : bb.instructions.getLast? = some (bb.instructions.get ⟨k, hk⟩) :=
        getLast?_eq_get _ k hke
      rcases (decodeBBGo_last bc avoid _ b bb hdec).2 _ hgl with ⟨_, hb⟩
      have hnext := hb t hcf
      have hdl : bb.instructions.dropLast = bb.instructions.take k := by
        rw [List.dropLast_eq_take]
        congr 1
        omega
      rw [hdl, ← ha] at hnext
      have hmem : a + instLen (bb.instructions.get ⟨k, hk⟩) ∈ bb.next.iter := by
        rw [hnext]
        simp [NextBranch.iter]
      exact covered_of_key bc entries m h _ (basicBlocks_closed_map bc entries m h b bb hbb _ hmem)

/-- Claim C10 — whenever `basic_blocks` returns normally, address 0 and
every supplied entry address key a block, and the map is
successor-closed: every target listed by any block's `NextBranch` is
itself a key. -/
theorem basicBlocks_keys_closed (bc entries : List Nat) (m : List (Nat × BasicBlock))
    (h : basicBlocks bc entries = .done m) :
    lookupBB m 0 ≠ Option.none
  ∧ (∀ e ∈ entries, lookupBB m e ≠ Option.none)
  ∧ (∀ a bb, lookupBB m a = some bb → ∀ t ∈ bb.next.iter, lookupBB m t ≠ Option.none) := by
  unfold basicBlocks at h
  refine ⟨?_, ?_, ?_⟩
  · exact bbLoop_keys bc _ _ _ _ h 0
      (Or.inl ((mem_foldl_sinsert entries [0] 0).mpr (Or.inr (by simp))))
  · intro e he
    exact bbLoop_keys bc _ _ _ _ h e
      (Or.inl ((mem_foldl_sinsert entries [0] e).mpr (Or.inl he)))
  · refine bbLoop_closed bc _ _ _ _ h ?_
    intro a bb hl
    simp [lookupBB] at hl

/-- Witness for C10 on the one-instruction method `return-void`. -/
theorem basicBlocks_keys_closed_witness :
    lookupBB [(0, (⟨[.ReturnVoid], .none⟩ : BasicBlock))] 0 ≠ Option.none :=
  (basicBlocks_keys_closed [0x000e] [] [(0, ⟨[.ReturnVoid], .none⟩)] rfl).1

/-- Claim C2 counterexample: on a truncated `const/16` the claim promises
a typed error result; the code instead panics — `decode_bb` unwraps the
decode result and `basic_blocks` has no error channel in its return
type. -/
theorem basicBlocks_panics_on_decode_failure :
    basicBlocks [0x0013] [] = .panic := rfl

/-- Claim C2, amended: a decode failure at any address reached during
basic-block construction (a seed, or a fall-through successor or branch
target of a reached address) aborts the whole lifting — no block mapping
(partial or complete) is ever returned; but the abort is a panic (the
`unwrap` in `decode_bb`), not a typed result. -/
theorem basicBlocks_failure_aborts (bc entries : List Nat) (a : Nat)
    (ha : Reach bc entries a) (hf : decodeFails bc a) :
    ∀ m, basicBlocks bc entries ≠ .done m := by
  intro m h
  rcases covered_decodes bc entries m h a
      (basicBlocks_reach_covered bc entries m h a ha) with ⟨i, r, hd⟩
  exact hf i r hd

/-- Witness for the amended C2: a truncated `const/16` one instruction
past the method start — reached by fall-through, not a seed. -/
theorem basicBlocks_failure_aborts_witness :
    basicBlocks [0x0001, 0x0013] [] ≠ .done [] :=
  basicBlocks_failure_aborts [0x0001, 0x0013] [] 1
    (Reach.next 0 (.Move 0 0) [0x0013] Reach.origin rfl rfl)
    (fun i rest h => DResult.noConfusion h) []

/-- Claim C6 counterexample: `goto +2` at address 0 (one code unit long)
branches, per the claim, to `0 + 1 + 2 = 3`; the code stores target `2`
— the relative offset is added to the address of the branching
instruction itself, not to the address immediately following it. -/
theorem basicBlocks_goto_target_counterexample :
    basicBlocks [0x0228, 0x0000, 0x000e] [] =
      .done [(2, ⟨[.ReturnVoid], .none⟩), (0, ⟨[.Goto 2], .goto 2⟩)]
  ∧ (2 : Nat) ≠ 0 + instLen (Instruction.Goto 2) + 2 :=
  ⟨rfl, by decide⟩

/-- Claim C6, amended: for every block of a finished `basic_blocks` map
whose final instruction is an unconditional goto or a conditional
branch, the stored target is the signed relative offset added to the
address of that final instruction (its block key plus the lengths of the
preceding instructions), wrapped through the source's `usize as i32`
and `i32 as usize` casts; the not-taken target of a conditional is the
address immediately after the instruction. -/
theorem basicBlocks_branch_targets (bc entries : List Nat) (m : List (Nat × BasicBlock))
    (h : basicBlocks bc entries = .done m) (a : Nat) (bb : BasicBlock)
    (hb : lookupBB m a = some bb) (i : Instruction)
    (hl : bb.instructions.getLast? = some i) :
    (∀ t, controlFlow i = .goTo t →
        bb.next = .goto (resolveTarget (a + sumLens bb.instructions.dropLast) t))
  ∧ (∀ t, controlFlow i = .branch t →
        bb.next = .cond (resolveTarget (a + sumLens bb.instructions.dropLast) t)
                        (a + sumLens bb.instructions.dropLast + instLen i)) := by
  unfold basicBlocks at h
  rcases bbLoop_origin bc _ _ _ _ h
      (by intro a' bb' hl'; simp [lookupBB] at hl') a bb hb with ⟨avoid, hdec⟩
  exact (decodeBBGo_last bc avoid (bc.length + 1) a bb hdec).2 i hl

/-- Witness for the amended C6 on the `goto +2` program. -/
theorem basicBlocks_branch_targets_witness :
    (⟨[.Goto 2], .goto 2⟩ : BasicBlock).next =
      .goto (resolveTarget (0 + sumLens ([Instruction.Goto 2]).dropLast) 2) :=
  (basicBlocks_branch_targets [0x0228, 0x0000, 0x000e] []
      [(2, ⟨[.ReturnVoid], .none⟩), (0, ⟨[.Goto 2], .goto 2⟩)] rfl
      0 ⟨[.Goto 2], .goto 2⟩ rfl (.Goto 2) rfl).1 2 rfl

/-- Claim C7, amended — entry-point isolation holds for the run from the
method start: if a supplied entry address `e` lies strictly inside the
straight-line fall-through run from address 0 (it is reached from 0 by a
chain of fall-through instructions), then in any normally-finished map
some block ends exactly at `e` with a synthetic `Goto e`, and `e` keys
its own block.  For a run discovered only *after* `e` has been resolved
the boundary is not forced (see the counterexample below): `decode_bb`
stops only at still-pending addresses. -/
theorem basicBlocks_entry_isolation (bc entries : List Nat) (e : Nat)
    (he : e ∈ entries) (he0 : e ≠ 0) (hch : FTChain bc 0 e)
    (m : List (Nat × BasicBlock)) (h : basicBlocks bc entries = .done m) :
    (∃ s bb, lookupBB m s = some bb ∧ bb.next = .goto e ∧ s + sumLens bb.instructions = e)
  ∧ lookupBB m e ≠ Option.none := by
  unfold basicBlocks at h
  constructor
  · refine bbLoop_entry bc e _ _ _ _ h ?_ ?_
    · exact sorted_foldl_sinsert entries [0] (by simp)
    · right
      exact ⟨0, (mem_foldl_sinsert entries [0] 0).mpr (Or.inr (by simp)),
             hch, Ne.symm he0, (mem_foldl_sinsert entries [0] e).mpr (Or.inl he)⟩
  · exact bbLoop_keys bc _ _ _ _ h e
      (Or.inl ((mem_foldl_sinsert entries [0] e).mpr (Or.inl he)))

/-- Witness for C7: entry address 1 inside the run `move v0, v0;
return-void` forces the block boundary at 1. -/
theorem basicBlocks_entry_isolation_witness :
    (∃ s bb,
        lookupBB [(1, (⟨[.ReturnVoid], .none⟩ : BasicBlock)),
                  (0, (⟨[.Move 0 0], .goto 1⟩ : BasicBlock))] s = some bb ∧
        bb.next = .goto 1 ∧ s + sumLens bb.instructions = 1)
  ∧ lookupBB [(1, (⟨[.ReturnVoid], .none⟩ : BasicBlock)),
              (0, (⟨[.Move 0 0], .goto 1⟩ : BasicBlock))] 1 ≠ Option.none :=
  basicBlocks_entry_isolation [0x0001, 0x000e] [1] 1 (by decide) (by decide)
    (FTChain.step 0 1 (.Move 0 0) [0x000e] rfl rfl (FTChain.refl 1))
    [(1, ⟨[.ReturnVoid], .none⟩), (0, ⟨[.Move 0 0], .goto 1⟩)] rfl

/-- Claim C7 counterexample: in `[goto +7; 5 × nop; return-void;
goto −4]` with supplied entry 5, the run at address 3 is discovered only
after entry 5 was already resolved, so `decode_bb` (which stops only at
still-pending addresses) decodes straight through 5: the block at 3
spans addresses 3–6 with entry 5 strictly inside it (5 lies on its
fall-through chain), and no block of the final map exits with `Goto 5` —
the claimed forced boundary at the entry does not exist. -/
theorem basicBlocks_entry_isolation_counterexample :
    basicBlocks [0x0728, 0x0000, 0x0000, 0x0000, 0x0000, 0x0000, 0x000e, 0xfc28] [5] =
      .done [(3, ⟨[.Nop, .Nop, .Nop, .ReturnVoid], .none⟩),
             (7, ⟨[.Goto (-4)], .goto 3⟩),
             (5, ⟨[.Nop, .ReturnVoid], .none⟩),
             (0, ⟨[.Goto 7], .goto 7⟩)]
  ∧ FTChain [0x0728, 0x0000, 0x0000, 0x0000, 0x0000, 0x0000, 0x000e, 0xfc28] 3 5
  ∧ 3 < 5 ∧ 5 < 3 + sumLens [Instruction.Nop, .Nop, .Nop, .ReturnVoid]
  ∧ ∀ p ∈ [(3, (⟨[.Nop, .Nop, .Nop, .ReturnVoid], .none⟩ : BasicBlock)),
           (7, (⟨[.Goto (-4)], .goto 3⟩ : BasicBlock)),
           (5, (⟨[.Nop, .ReturnVoid], .none⟩ : BasicBlock)),
           (0, (⟨[.Goto 7], .goto 7⟩ : BasicBlock))],
      p.2.next ≠ NextBranch.goto 5 :=
  ⟨rfl,
   FTChain.step 3 5 .Nop [0x0000, 0x0000, 0x000e, 0xfc28] rfl rfl
     (FTChain.step 4 5 .Nop [0x0000, 0x000e, 0xfc28] rfl rfl (FTChain.refl 5)),
   by decide, by decide, by decide⟩
